import Mathlib

/-!
# Albany evaluators: a verification development

Shallow embedding of the evaluator kernels and of the problem-assembly glue of the
repository, followed by the theorems that settle the specification's claims.

* `Tsunami` : the stabilization-parameter kernel `NavierStokesTau`
  (`src/Tsunami/evaluators/Tsunami_NavierStokesTau_Def.hpp`).
* `LCM` : the strain evaluator wired in by `HMCProblem::constructEvaluators`
  (`src/LCM/problems/HMCProblem.hpp`) and the hardening law of the J2 kernel
  (`src/LCM/models/J2MiniSolver.hpp`).
* `LandIce` : the save-and-require fragments and the methods
  `constructStatesEvaluators`, `constructInterpolationEvaluators` and
  `constructVelocityEvaluators` of `StokesFOBase`
  (`src/LandIce/problems/LandIce_StokesFOBase.hpp`).
* `HMCProblem` : the method `HMCProblem::constructEvaluators`
  (`src/LCM/problems/HMCProblem.hpp`).
* `TopologyBase` : the function `main` of the topology driver
  (`src/LCM/test/utils/TopologyBase.cc`).

The kernels are templated over the scalar type in the source; the embedding of
`NavierStokesTau` is generic over the operations of the scalar type, with the square root
passed as a function, so the same definitions are read over `ℝ` with `Real.sqrt` and run
in the arithmetic of the C++ type `double` (`Tsunami.Double`, IEEE 754 binary64 with
rounding to nearest) with `Tsunami.Double.sqrt`.
-/

namespace Tsunami

/-- Modelled from the spec: the selector enum of the kernel, declared in the kernel's
header (not among the sources); the configuration surface names its two values,
"Shakib-Hughes" and "Tsunami". -/
inductive StabType where
  | SHAKIBHUGHES
  | TSUNAMI
  deriving DecidableEq, Repr

/-- The part of `Teuchos::ParameterList` the constructor reads: string entries and
floating-point entries by key; `none` is a missing key. -/
structure ParameterList (α : Type) where
  strings : String → Option String
  doubles : String → Option α

/-- The call `p.get<std::string>(name)` without a default: it throws when the key is missing. -/
def ParameterList.getString {α : Type} (p : ParameterList α) (name : String) :
    Except String String :=
  match p.strings name with
  | some v => Except.ok v
  | none => Except.error name

/-- The call `p.get<double>(name)` without a default: it throws when the key is missing. -/
def ParameterList.getDouble {α : Type} (p : ParameterList α) (name : String) :
    Except String α :=
  match p.doubles name with
  | some v => Except.ok v
  | none => Except.error name

/-- The part of `Albany::Layouts` the constructor reads: the three extents of `qp_gradient`. -/
structure Layouts where
  qp_gradient : Nat × Nat × Nat

/-- The members of the kernel object that the constructor sets. `stab_type = none` is a
selector member that no branch of the constructor assigned (an indeterminate value in
the source). -/
structure NavierStokesTau (α : Type) where
  V_name : String
  Gc_name : String
  jacobian_det_name : String
  Tau_name : String
  numCells : Nat
  numQPs : Nat
  numDims : Nat
  mu : α
  rho : α
  stabType : String
  stab_type : Option StabType

/-- The constructor `NavierStokesTau::NavierStokesTau` (lines 18-45): the four field names,
the extents of `qp_gradient`, viscosity, density and the stabilization type string, which
selects `stab_type` through an `if / else if` without a final `else`. -/
def NavierStokesTau.new {α : Type} (p : ParameterList α) (dl : Layouts) :
    Except String (NavierStokesTau α) := do
  let vName ← p.getString "Velocity QP Variable Name"
  let gcName ← p.getString "Contravarient Metric Tensor Name"
  let jName ← p.getString "Jacobian Det Name"
  let tauName ← p.getString "Tau Name"
  let mu ← p.getDouble "Viscosity"
  let rho ← p.getDouble "Density"
  let stabType ← p.getString "Stabilization Type"
  let stab_type : Option StabType :=
    if stabType = "Shakib-Hughes" then some StabType.SHAKIBHUGHES
    else if stabType = "Tsunami" then some StabType.TSUNAMI
    else none
  return { V_name := vName, Gc_name := gcName, jacobian_det_name := jName,
           Tau_name := tauName,
           numCells := dl.qp_gradient.1, numQPs := dl.qp_gradient.2.1,
           numDims := dl.qp_gradient.2.2,
           mu := mu, rho := rho, stabType := stabType, stab_type := stab_type }

/-- The buffers bound in `postRegistrationSetup`: the inputs `V`, `Gc`, `jacobian_det`, the
output `Tau` and the scratch buffer `normGc`, indexed by cell, quadrature point and
tensor indices. -/
@[ext]
structure FieldData (α : Type) where
  V : Nat → Nat → Nat → α
  Gc : Nat → Nat → Nat → Nat → α
  jacobian_det : Nat → Nat → α
  Tau : Nat → Nat → α
  normGc : Nat → Nat → α

/-- The part of the workset the kernel reads. -/
structure Workset where
  numCells : Nat

/-- Assignment `f(cell,qp) = v` on a (cell, qp) buffer. -/
def set2 {α : Type} (f : Nat → Nat → α) (cell qp : Nat) (v : α) : Nat → Nat → α :=
  fun c q => if c = cell ∧ q = qp then v else f c q

/-- Lines 75-76: the body of the innermost loop. -/
def innerStep {α : Type} [Add α] [Mul α] (k : NavierStokesTau α) (cell qp i : Nat)
    (d : FieldData α) (j : Nat) : FieldData α :=
  let d1 : FieldData α :=
    { d with Tau := set2 d.Tau cell qp (d.Tau cell qp +
        k.rho * k.rho * d.V cell qp i * d.Gc cell qp i j * d.V cell qp j) }
  { d1 with normGc := set2 d1.normGc cell qp (d1.normGc cell qp +
      d1.Gc cell qp i j * d1.Gc cell qp i j) }

/-- Lines 73-78: the double loop over `i` and `j`. -/
def tensorLoops {α : Type} [Add α] [Mul α] (k : NavierStokesTau α) (cell qp : Nat)
    (d : FieldData α) : FieldData α :=
  (List.range k.numDims).foldl
    (fun d i => (List.range k.numDims).foldl (innerStep k cell qp i) d) d

/-- Lines 71-79: the state in which `Tau(cell,qp)` holds the argument of the outer square
root. -/
def pointRadicand {α : Type} [Zero α] [OfNat α 12] [Add α] [Mul α] (sqrt : α → α)
    (k : NavierStokesTau α) (cell qp : Nat) (d : FieldData α) : FieldData α :=
  let d1 : FieldData α := { d with Tau := set2 d.Tau cell qp 0 }
  let d2 : FieldData α := { d1 with normGc := set2 d1.normGc cell qp 0 }
  let d3 := tensorLoops k cell qp d2
  { d3 with Tau := set2 d3.Tau cell qp (d3.Tau cell qp +
      12 * k.mu * k.mu * sqrt (d3.normGc cell qp)) }

/-- Lines 71-80: the body of the loop over quadrature points. -/
def pointBody {α : Type} [Zero α] [One α] [OfNat α 12] [Add α] [Mul α] [Div α]
    (sqrt : α → α) (k : NavierStokesTau α) (cell qp : Nat) (d : FieldData α) :
    FieldData α :=
  let d4 := pointRadicand sqrt k cell qp d
  { d4 with Tau := set2 d4.Tau cell qp (1 / sqrt (d4.Tau cell qp)) }

/-- Lines 70-81: the loop over quadrature points of one cell. -/
def cellBody {α : Type} [Zero α] [One α] [OfNat α 12] [Add α] [Mul α] [Div α]
    (sqrt : α → α) (k : NavierStokesTau α) (d : FieldData α) (cell : Nat) : FieldData α :=
  (List.range k.numQPs).foldl (fun d qp => pointBody sqrt k cell qp d) d

/-- The method `NavierStokesTau::evaluateFields` (lines 64-94): the Shakib-Hughes branch loops
over the cells of the workset; there is no other branch (the Tsunami one is commented
out), and the function has no failure outcome. -/
def evaluateFields {α : Type} [Zero α] [One α] [OfNat α 12] [Add α] [Mul α] [Div α]
    (sqrt : α → α) (k : NavierStokesTau α) (workset : Workset) (d : FieldData α) :
    FieldData α :=
  if k.stab_type = some StabType.SHAKIBHUGHES then
    (List.range workset.numCells).foldl (cellBody sqrt k) d
  else d

/-- The argument that `evaluateFields` passes to the outer square root at `(cell, qp)` for
the inputs `d`. -/
def radicand {α : Type} [Zero α] [OfNat α 12] [Add α] [Mul α] (sqrt : α → α)
    (k : NavierStokesTau α) (cell qp : Nat) (d : FieldData α) : α :=
  (pointRadicand sqrt k cell qp d).Tau cell qp

/-- Closed form of the first accumulation of lines 73-78 at `(cell, qp)`:
the sum over `i, j < numDims` of `rho*rho*V_i*Gc_ij*V_j`. -/
def quadSum {α : Type} [Field α] (k : NavierStokesTau α) (d : FieldData α)
    (cell qp : Nat) : α :=
  ∑ i in Finset.range k.numDims, ∑ j in Finset.range k.numDims,
    k.rho * k.rho * d.V cell qp i * d.Gc cell qp i j * d.V cell qp j

/-- Closed form of the second accumulation of lines 73-78 at `(cell, qp)`:
the sum over `i, j < numDims` of `Gc_ij*Gc_ij`. -/
def normSum {α : Type} [Field α] (k : NavierStokesTau α) (d : FieldData α)
    (cell qp : Nat) : α :=
  ∑ i in Finset.range k.numDims, ∑ j in Finset.range k.numDims,
    d.Gc cell qp i j * d.Gc cell qp i j

/-- Closed form of the value stored by line 80 at `(cell, qp)`. -/
def tauClosed {α : Type} [Field α] (sqrt : α → α) (k : NavierStokesTau α)
    (d : FieldData α) (cell qp : Nat) : α :=
  1 / sqrt (quadSum k d cell qp + 12 * k.mu * k.mu * sqrt (normSum k d cell qp))

/-- Both accumulators of the point `(cell, qp)` advanced by `a` and `b`. -/
def bump {α : Type} [Field α] (cell qp : Nat) (d : FieldData α) (a b : α) : FieldData α :=
  { d with Tau := set2 d.Tau cell qp (d.Tau cell qp + a),
           normGc := set2 d.normGc cell qp (d.normGc cell qp + b) }

/-- Closed form of the buffers after `evaluateFields` has run the points `(c, q)` with
`c < nc` and `q < nq`, and of the cell `nc` the points with `q < nl`. -/
def swept {α : Type} [Field α] (sqrt : α → α) (k : NavierStokesTau α) (d : FieldData α)
    (nc nq nl : Nat) : FieldData α :=
  { d with
    Tau := fun c q =>
      if (c < nc ∧ q < nq) ∨ (c = nc ∧ q < nl) then tauClosed sqrt k d c q else d.Tau c q,
    normGc := fun c q =>
      if (c < nc ∧ q < nq) ∨ (c = nc ∧ q < nl) then normSum k d c q else d.normGc c q }

/-- The name of a stabilization law on the configuration surface. -/
def StabType.key : StabType → String
  | StabType.SHAKIBHUGHES => "Shakib-Hughes"
  | StabType.TSUNAMI => "Tsunami"

/-- A kernel on one cell with one quadrature point, for the worked examples. -/
def sampleKernel (α : Type) (numDims : Nat) (mu rho : α) (law : StabType) :
    NavierStokesTau α :=
  { V_name := "Velocity", Gc_name := "Gc", jacobian_det_name := "Jacobian Det",
    Tau_name := "Tau", numCells := 1, numQPs := 1, numDims := numDims,
    mu := mu, rho := rho, stabType := law.key, stab_type := some law }

/-- Buffers holding the same velocity `v` and the same metric `g` at every point, with
prior contents `tau0` in `Tau` and `n0` in `normGc`. -/
def sampleData {α : Type} [One α] (v : Nat → α) (g : Nat → Nat → α) (tau0 n0 : α) :
    FieldData α :=
  { V := fun _ _ => v, Gc := fun _ _ => g, jacobian_det := fun _ _ => 1,
    Tau := fun _ _ => tau0, normGc := fun _ _ => n0 }

/-- The velocity `[1, 0]`. -/
def e1 (α : Type) [Zero α] [One α] : Nat → α := fun i => if i = 0 then 1 else 0

/-- The identity metric. -/
def idMetric (α : Type) [Zero α] [One α] : Nat → Nat → α := fun i j => if i = j then 1 else 0

/-- A parameter list with every key the constructor reads, the stabilization type being
`stab`. -/
def sampleParams (α : Type) [Field α] (stab : String) : ParameterList α :=
  { strings := fun key =>
      if key = "Velocity QP Variable Name" then some "Velocity"
      else if key = "Contravarient Metric Tensor Name" then some "Gc"
      else if key = "Jacobian Det Name" then some "Jacobian Det"
      else if key = "Tau Name" then some "Tau"
      else if key = "Stabilization Type" then some stab
      else none,
    doubles := fun key =>
      if key = "Viscosity" then some 1
      else if key = "Density" then some 1
      else none }

/-- The values of the C++ type `double` (IEEE 754 binary64), the scalar type of the kernel
in a residual evaluation: a finite value, given by the rational number it stands for, the
two infinities and NaN. The sign of a zero is left out: the sums of the kernel start from
the literal `0.0`, so none of them is a negative zero and no negative zero reaches the
square root or the division. -/
inductive Double where
  | finite (q : ℚ)
  | pinf
  | ninf
  | nan
  deriving DecidableEq, Repr

/-- The power `2^e` as a rational number. -/
def pow2 (e : Int) : ℚ :=
  if 0 ≤ e then ((2 ^ e.toNat : Nat) : ℚ) else 1 / ((2 ^ (-e).toNat : Nat) : ℚ)

/-- The number of halvings that bring `n` below 2, at most `fuel` of them. -/
def log2Fuel : Nat → Nat → Nat
  | 0, _ => 0
  | fuel + 1, n => if n < 2 then 0 else log2Fuel fuel (n / 2) + 1

/-- The binary logarithm of a positive natural number, rounded down; `n` halvings are
more than are needed. -/
def log2 (n : Nat) : Nat := log2Fuel n n

/-- The binary exponent of a non-zero rational `q`: the `e` with `2^e ≤ |q| < 2^(e+1)`. -/
def exponent (q : ℚ) : Int :=
  let e0 : Int := (log2 q.num.natAbs : Int) - (log2 q.den : Int)
  if pow2 e0 ≤ |q| then e0 else e0 - 1

/-- Rounding of a rational number to the nearest integer, ties to the even one. -/
def roundHalfEven (x : ℚ) : Int :=
  let f : Int := Rat.floor x
  if x - f < 1 / 2 then f
  else if 1 / 2 < x - f then f + 1
  else if f % 2 = 0 then f else f + 1

/-- Rounding of an exact result to `double` in the default mode, round to nearest with
ties to even: 53 significant bits, the least exponent of the last place `-1074`
(subnormal numbers), and overflow to an infinity from `2^1024 - 2^970` on. -/
def Double.round (q : ℚ) : Double :=
  if q = 0 then Double.finite 0
  else
    let u : Int := max (exponent q - 52) (-1074)
    let r : ℚ := (roundHalfEven (q / pow2 u) : ℚ) * pow2 u
    if pow2 1024 ≤ |r| then (if 0 < q then Double.pinf else Double.ninf)
    else Double.finite r

/-- The sum of two `double` values. -/
def Double.add : Double → Double → Double
  | Double.finite a, Double.finite b => Double.round (a + b)
  | Double.finite _, Double.pinf => Double.pinf
  | Double.finite _, Double.ninf => Double.ninf
  | Double.pinf, Double.finite _ => Double.pinf
  | Double.pinf, Double.pinf => Double.pinf
  | Double.ninf, Double.finite _ => Double.ninf
  | Double.ninf, Double.ninf => Double.ninf
  | _, _ => Double.nan

/-- The infinity with the sign of the non-zero rational `q`. -/
def Double.infOf (q : ℚ) : Double := if 0 < q then Double.pinf else Double.ninf

/-- The product of two `double` values. -/
def Double.mul : Double → Double → Double
  | Double.finite a, Double.finite b => Double.round (a * b)
  | Double.finite a, Double.pinf => if a = 0 then Double.nan else Double.infOf a
  | Double.finite a, Double.ninf => if a = 0 then Double.nan else Double.infOf (-a)
  | Double.pinf, Double.finite b => if b = 0 then Double.nan else Double.infOf b
  | Double.ninf, Double.finite b => if b = 0 then Double.nan else Double.infOf (-b)
  | Double.pinf, Double.pinf => Double.pinf
  | Double.pinf, Double.ninf => Double.ninf
  | Double.ninf, Double.pinf => Double.ninf
  | Double.ninf, Double.ninf => Double.pinf
  | _, _ => Double.nan

/-- The quotient of two `double` values; a zero divisor is the positive zero. -/
def Double.div : Double → Double → Double
  | Double.finite a, Double.finite b =>
    if b = 0 then (if a = 0 then Double.nan else Double.infOf a) else Double.round (a / b)
  | Double.finite _, Double.pinf => Double.finite 0
  | Double.finite _, Double.ninf => Double.finite 0
  | Double.pinf, Double.finite b => if 0 ≤ b then Double.pinf else Double.ninf
  | Double.ninf, Double.finite b => if 0 ≤ b then Double.ninf else Double.pinf
  | _, _ => Double.nan

/-- The integer square root by bits: the greatest `x = acc + (bits below 2^k)` with
`x*x ≤ n`. -/
def isqrtBits (n : Nat) : Nat → Nat → Nat
  | 0, acc => acc
  | k + 1, acc =>
    if (acc + 2 ^ k) * (acc + 2 ^ k) ≤ n then isqrtBits n k (acc + 2 ^ k)
    else isqrtBits n k acc

/-- The integer square root `floor (sqrt n)`. -/
def isqrt (n : Nat) : Nat := isqrtBits n (log2 n / 2 + 1) 0

/-- The function `std::sqrt` on `double`, correctly rounded: the root of `q * 4^s` is
taken on integers, with `s` so large that it has more than 54 bits, and rounded from the
root itself when that is exact and from a point strictly between two integers
otherwise. -/
def Double.sqrt : Double → Double
  | Double.finite q =>
    if q < 0 then Double.nan
    else if q = 0 then Double.finite 0
    else
      let s : Int := (112 - exponent q) / 2
      let x : ℚ := q * pow2 (2 * s)
      let t : Nat := isqrt (Rat.floor x).toNat
      if ((t * t : Nat) : ℚ) = x then Double.round ((t : ℚ) / pow2 s)
      else Double.round ((2 * (t : ℚ) + 1) / pow2 (s + 1))
  | Double.pinf => Double.pinf
  | _ => Double.nan

instance : Zero Double := ⟨Double.finite 0⟩

instance : One Double := ⟨Double.finite 1⟩

instance : OfNat Double 12 := ⟨Double.finite 12⟩

instance : Add Double := ⟨Double.add⟩

instance : Mul Double := ⟨Double.mul⟩

instance : Div Double := ⟨Double.div⟩

/-- Positive definiteness of a metric `g` in `n` dimensions over the reals: the quadratic
form is positive at every vector with a non-zero component. -/
def PositiveDefinite (n : Nat) (g : Nat → Nat → ℝ) : Prop :=
  ∀ v : Nat → ℝ, (∃ i, i < n ∧ v i ≠ 0) →
    0 < ∑ i in Finset.range n, ∑ j in Finset.range n, v i * g i j * v j

/-- Lines 75-76 on the two accumulators of one point, `a.1` for `Tau(cell,qp)` and `a.2`
for `normGc(cell,qp)`, with `v` and `g` the velocity and the metric at the point. -/
def accStep {α : Type} [Add α] [Mul α] (rho : α) (v : Nat → α) (g : Nat → Nat → α)
    (i : Nat) (a : α × α) (j : Nat) : α × α :=
  (a.1 + rho * rho * v i * g i j * v j, a.2 + g i j * g i j)

/-- Lines 73-78 on the two accumulators of one point. -/
def accLoops {α : Type} [Add α] [Mul α] (numDims : Nat) (rho : α) (v : Nat → α)
    (g : Nat → Nat → α) (a : α × α) : α × α :=
  (List.range numDims).foldl (fun a i => (List.range numDims).foldl (accStep rho v g i) a) a

/-- The value that lines 71-78 leave in `normGc(cell,qp)`, from the metric at the point. -/
def normGcAt {α : Type} [Zero α] [Add α] [Mul α] (k : NavierStokesTau α) (v : Nat → α)
    (g : Nat → Nat → α) : α :=
  (accLoops k.numDims k.rho v g (0, 0)).2

/-- The value that lines 71-79 leave in `Tau(cell,qp)`, the argument of the outer square
root, from the velocity and the metric at the point. -/
def radicandAt {α : Type} [Zero α] [OfNat α 12] [Add α] [Mul α] (sqrt : α → α)
    (k : NavierStokesTau α) (v : Nat → α) (g : Nat → Nat → α) : α :=
  (accLoops k.numDims k.rho v g (0, 0)).1 + 12 * k.mu * k.mu * sqrt (normGcAt k v g)

/-- The buffers with `Tau(cell,qp) = t` and `normGc(cell,qp) = n`. -/
def put {α : Type} (cell qp : Nat) (d : FieldData α) (t n : α) : FieldData α :=
  { d with Tau := set2 d.Tau cell qp t, normGc := set2 d.normGc cell qp n }

/-- Closed form of the buffers after `evaluateFields` has run the points `(c, q)` with
`c < nc` and `q < nq`, and of the cell `nc` the points with `q < nl`, for any scalar
type: each point holds the values computed from its own velocity and metric. -/
def sweptAt {α : Type} [Zero α] [One α] [OfNat α 12] [Add α] [Mul α] [Div α]
    (sqrt : α → α) (k : NavierStokesTau α) (d : FieldData α) (nc nq nl : Nat) :
    FieldData α :=
  { d with
    Tau := fun c q =>
      if (c < nc ∧ q < nq) ∨ (c = nc ∧ q < nl)
      then 1 / sqrt (radicandAt sqrt k (d.V c q) (d.Gc c q)) else d.Tau c q,
    normGc := fun c q =>
      if (c < nc ∧ q < nq) ∨ (c = nc ∧ q < nl)
      then normGcAt k (d.V c q) (d.Gc c q) else d.normGc c q }

end Tsunami

namespace LCM

/-- Modelled from the spec: the execution phase of the evaluator `LCM::Strain` that
`HMCProblem::constructEvaluators` registers with input "Displacement Gradient" and output
"Strain" (lines 480-510); its source file `Strain.hpp` is not among the sources. The spec
and the documentation block of the problem give the infinitesimal strain
`eps(c,p,i,j) = 1/2 * (gradU(c,p,i,j) + gradU(c,p,j,i))`. -/
def Strain {α : Type} [Field α] (gradU : Nat → Nat → Nat → Nat → α) :
    Nat → Nat → Nat → Nat → α :=
  fun c p i j => 1 / 2 * (gradU c p i j + gradU c p j i)

end LCM

namespace LandIce

/-- A field tag, identified by its name. -/
structure Tag where
  name : String
  deriving DecidableEq, Repr

/-- What the field manager sees of an evaluator: a name and the list returned by
`evaluatedFields()`. -/
structure Evaluator where
  name : String
  evaluatedFields : List Tag
  deriving DecidableEq, Repr

/-- The field manager `fm0`: the registered evaluators and the required fields, in call
order. -/
structure FieldManager where
  evaluators : List Evaluator
  required : List Tag
  deriving DecidableEq, Repr

/-- The call `fm0.registerEvaluator(ev)`. -/
def FieldManager.registerEvaluator (fm : FieldManager) (ev : Evaluator) : FieldManager :=
  { fm with evaluators := fm.evaluators ++ [ev] }

/-- The call `fm0.requireField(tag)`. -/
def FieldManager.requireField (fm : FieldManager) (tag : Tag) : FieldManager :=
  { fm with required := fm.required ++ [tag] }

/-- Modelled from the spec: the field-manager choice `Albany::FieldManagerChoice`, whose
declaration is not among the sources; the problems compare it with `BUILD_RESID_FM` and
`BUILD_RESPONSE_FM`, and `BUILD_STATE_FM` stands for every other value. -/
inductive FieldManagerChoice where
  | BUILD_RESID_FM
  | BUILD_RESPONSE_FM
  | BUILD_STATE_FM
  deriving DecidableEq, Repr

/-- The statement `fm0.requireField(*ev->evaluatedFields()[0])`: the unchecked `operator[]`
has no result on an empty list (`none`). -/
def requireFirstEvaluated (fm : FieldManager) (ev : Evaluator) : Option FieldManager :=
  match ev.evaluatedFields[0]? with
  | some tag => some (fm.requireField tag)
  | none => none

/-- The statements `if (ev->evaluatedFields().size()>0) fm0.requireField(...)` that follow
the registration of a Save evaluator (lines 387-388, 528-529, 935-939, 963-967). -/
def requireIfEvaluates (fm : FieldManager) (ev : Evaluator) : Option FieldManager :=
  if ev.evaluatedFields.length > 0 then requireFirstEvaluated fm ev else some fm

/-- Volume fields of `constructStatesEvaluators`, lines 378-389: for an output field the
Save evaluator `saveEv` (a `PHAL::SaveStateField`) is registered and its first evaluated
field required when it has one. -/
def constructStatesEvaluators_saveVolume (fieldUsage : String) (saveEv : Evaluator)
    (fm : FieldManager) : Option FieldManager :=
  if fieldUsage = "Output" ∨ fieldUsage = "Input-Output" then
    requireIfEvaluates (fm.registerEvaluator saveEv) saveEv
  else some fm

/-- Side-set fields of `constructStatesEvaluators`, lines 518-530: the same statements with
`saveEv` a `PHAL::SaveSideSetStateField`. -/
def constructStatesEvaluators_saveSideSet (fieldUsage : String) (saveEv : Evaluator)
    (fm : FieldManager) : Option FieldManager :=
  if fieldUsage = "Output" ∨ fieldUsage = "Input-Output" then
    requireIfEvaluates (fm.registerEvaluator saveEv) saveEv
  else some fm

/-- The block of `constructVelocityEvaluators` that saves the dissipation heat (lines
903-941), entered when "Extract Strain Rate Sq" is set: the dissipation evaluator, the
interpolation to the cell and the Save evaluator are registered, the state
"dissipation_heat" is registered with the state manager (`states`), and for the residual
field manager the first evaluated field of the Save evaluator is required when it has
one. -/
def constructVelocityEvaluators_saveDissipation (extractStrainRateSq : Bool)
    (fieldManagerChoice : FieldManagerChoice)
    (dissipationEv interpEv saveEv : Evaluator) (s : FieldManager × List String) :
    Option (FieldManager × List String) :=
  if extractStrainRateSq then
    let fm1 := s.1.registerEvaluator dissipationEv
    let fm2 := fm1.registerEvaluator interpEv
    let states := s.2 ++ ["dissipation_heat"]
    let fm3 := fm2.registerEvaluator saveEv
    if fieldManagerChoice = FieldManagerChoice.BUILD_RESID_FM then
      (requireIfEvaluates fm3 saveEv).map (fun fm => (fm, states))
    else some (fm3, states)
  else some s

/-- The block of `constructVelocityEvaluators` that saves the stress tensor (lines 943-969),
entered when "Print Stress Tensor" is set: the interpolation to the cell and the Save
evaluator are registered, the state "Stress Tensor" is registered with the state
manager, and for the residual field manager the first evaluated field of the Save
evaluator is required when it has one. -/
def constructVelocityEvaluators_saveStress (printStressTensor : Bool)
    (fieldManagerChoice : FieldManagerChoice)
    (interpEv saveEv : Evaluator) (s : FieldManager × List String) :
    Option (FieldManager × List String) :=
  if printStressTensor then
    let fm1 := s.1.registerEvaluator interpEv
    let states := s.2 ++ ["Stress Tensor"]
    let fm2 := fm1.registerEvaluator saveEv
    if fieldManagerChoice = FieldManagerChoice.BUILD_RESID_FM then
      (requireIfEvaluates fm2 saveEv).map (fun fm => (fm, states))
    else some (fm2, states)
  else some s

/-- The effect on the field manager of a Save evaluator followed by the guarded
`requireField`: nothing is required for an empty evaluated-field list, the first
evaluated field otherwise. -/
def requiredAfterSave (fm : FieldManager) (ev : Evaluator) : FieldManager :=
  match ev.evaluatedFields with
  | [] => fm
  | tag :: _ => fm.requireField tag

end LandIce

namespace HMCProblem

/-- An evaluator handed to `fm0.registerEvaluator` by `HMCProblem::constructEvaluators`,
recorded by the call that builds it: the `EvaluatorUtils` method with its arguments, or
the evaluator class with the string entries of its parameter list (entries of other
types, layouts and pointers, are left out). An offset or scatter name that the call
leaves to the default argument is `none`. -/
inductive Ev where
  | constructGatherSolutionEvaluator_withAcceleration (rank : Nat) (dof_names : List String)
      (dof_names_dotdot : List String) (offset : Option Int)
  | constructGatherCoordinateVectorEvaluator
  | constructComputeBasisFunctionsEvaluator
  | constructDOFVecInterpolationEvaluator (dof_name : String)
  | constructDOFTensorInterpolationEvaluator (dof_name : String) (offset : Int)
  | constructMapToPhysicalFrameEvaluator
  | constructDOFVecGradInterpolationEvaluator (dof_name : String)
  | constructDOFTensorGradInterpolationEvaluator (dof_name : String) (offset : Int)
  | Strain (p : List (String × String))
  | StrainDifference (p : List (String × String))
  | ConstitutiveModelParameters (matName : String)
  | ConstitutiveModelInterface (matName : String)
  | SaveStateField (stateName : String)
  | TotalStress (additionalScales : Nat) (p : List (String × String))
  | ElasticityResid (p : List (String × String))
  | MicroResidual (p : List (String × String))
  | constructScatterResidualEvaluator (rank : Nat) (resid_names : List String)
      (offset : Option Int) (scatterName : Option String)
  | Time (p : List (String × String))
  deriving DecidableEq, Repr

/-- What `constructEvaluators` acts on: the evaluators registered with and the fields
required of the field manager `fm0`, and the state variables registered with `stateMgr`,
each in call order. -/
structure State where
  evaluators : List Ev
  required : List String
  states : List String
  deriving DecidableEq, Repr

/-- The call `fm0.registerEvaluator(ev)`. -/
def State.registerEvaluator (s : State) (ev : Ev) : State :=
  { s with evaluators := s.evaluators ++ [ev] }

/-- The call `fm0.requireField(tag)`, the tag given by its name. -/
def State.requireField (s : State) (tag : String) : State :=
  { s with required := s.required ++ [tag] }

/-- The call `stateMgr.registerStateVariable(name, ...)`. -/
def State.registerStateVariable (s : State) (name : String) : State :=
  { s with states := s.states ++ [name] }

/-- The exceptions of `constructEvaluators`: `std::logic_error` thrown by
`TEUCHOS_TEST_FOR_EXCEPTION`, and the exception of a parameter lookup without default for
a missing key. -/
inductive Error where
  | logic_error (msg : String)
  | InvalidParameterName (key : String)
  deriving DecidableEq, Repr

/-- The inputs of `constructEvaluators` for one element block: the block name, the entries
"Model Name" and "material" of the material database (`none` when missing), the
dimension of the cubature, the flag that `Albany::Layouts` computes, the member
`numMicroScales`, the names of the state variables of the constitutive model interface,
the field-manager choice and the helper `Albany::strint`, whose source is not among the
files. -/
structure Config where
  eb_name : String
  modelName : Option String
  material : Option String
  numDim : Int
  vectorAndGradientLayoutsAreEquivalent : Bool
  numMicroScales : Nat
  stateVars : List String
  fieldManagerChoice : LandIce.FieldManagerChoice
  strint : String → Nat → String

/-- Line 216: `macro_dof_names`, an array of length `numMacroScales = 1`. -/
def macro_dof_names : List String := ["Displacement"]

/-- Line 218: `macro_resid_names`. -/
def macro_resid_names : List String := [macro_dof_names.headD "" ++ " Residual"]

/-- Lines 227-229: the stream `dofname << "Microstrain_" << i`. -/
def dofname (i : Nat) : String := "Microstrain_" ++ toString i

/-- Line 229: `micro_dof_names[i]`, an array of length 1. -/
def micro_dof_names (i : Nat) : List String := [dofname i]

/-- Line 230: `micro_resid_names[i]`. -/
def micro_resid_names (i : Nat) : List String := [dofname i ++ " Residual"]

/-- Line 231: `micro_scatter_names[i]`. -/
def micro_scatter_names (i : Nat) : List String := [dofname i ++ " Scatter"]

/-- Line 239: `macro_dof_names_dotdot`. -/
def macro_dof_names_dotdot : List String := [macro_dof_names.headD "" ++ "_dotdot"]

/-- Line 245: `micro_dof_names_dotdot[i]`. -/
def micro_dof_names_dotdot (i : Nat) : List String :=
  [(micro_dof_names i).headD "" ++ "_dotdot"]

/-- Lines 263-541: gather, basis functions, interpolation to the quadrature points,
gradients, strain and strain differences. -/
def kinematics (cfg : Config) (s : State) : State :=
  let vectorRank : Nat := 1
  let s := s.registerEvaluator (Ev.constructGatherSolutionEvaluator_withAcceleration
    vectorRank macro_dof_names macro_dof_names_dotdot none)
  let dof_offset : Int := cfg.numDim
  let dof_stride : Int := cfg.numDim * cfg.numDim
  let tensorRank : Nat := 2
  let s := (List.range cfg.numMicroScales).foldl (fun s i => s.registerEvaluator
    (Ev.constructGatherSolutionEvaluator_withAcceleration tensorRank (micro_dof_names i)
      (micro_dof_names_dotdot i) (some (dof_offset + i * dof_stride)))) s
  let s := s.registerEvaluator Ev.constructGatherCoordinateVectorEvaluator
  let s := s.registerEvaluator Ev.constructComputeBasisFunctionsEvaluator
  let s := s.registerEvaluator
    (Ev.constructDOFVecInterpolationEvaluator (macro_dof_names.headD ""))
  let s := (List.range cfg.numMicroScales).foldl (fun s i => s.registerEvaluator
    (Ev.constructDOFTensorInterpolationEvaluator ((micro_dof_names i).headD "")
      (dof_offset + i * dof_stride))) s
  let s := s.registerEvaluator
    (Ev.constructDOFVecInterpolationEvaluator (macro_dof_names_dotdot.headD ""))
  let s := (List.range cfg.numMicroScales).foldl (fun s i => s.registerEvaluator
    (Ev.constructDOFTensorInterpolationEvaluator ((micro_dof_names_dotdot i).headD "")
      (dof_offset + i * dof_stride))) s
  let s := s.registerEvaluator Ev.constructMapToPhysicalFrameEvaluator
  let s := s.registerEvaluator
    (Ev.constructDOFVecGradInterpolationEvaluator (macro_dof_names.headD ""))
  let s := (List.range cfg.numMicroScales).foldl (fun s i => s.registerEvaluator
    (Ev.constructDOFTensorGradInterpolationEvaluator ((micro_dof_names i).headD "")
      (dof_offset + i * dof_stride))) s
  let s := s.registerEvaluator (Ev.Strain
    [("Gradient QP Variable Name", "Displacement Gradient"), ("Strain Name", "Strain")])
  (List.range cfg.numMicroScales).foldl (fun s i => s.registerEvaluator
    (Ev.StrainDifference
      [("Micro Strain Name", (micro_dof_names i).headD ""), ("Macro Strain Name", "Strain"),
       ("Strain Difference Name", "Strain Difference " ++ toString i)])) s

/-- Lines 543-626: constitutive model parameters, the constitutive model interface with one
registered state and one Save evaluator per state variable, and the total stress. -/
def constitutive (cfg : Config) (matName : String) (s : State) : State :=
  let s := s.registerEvaluator (Ev.ConstitutiveModelParameters matName)
  let s := s.registerEvaluator (Ev.ConstitutiveModelInterface matName)
  let s := cfg.stateVars.foldl (fun s name =>
    (s.registerStateVariable name).registerEvaluator (Ev.SaveStateField name)) s
  s.registerEvaluator (Ev.TotalStress cfg.numMicroScales
    ([("Macro Stress Name", "Stress")]
      ++ (List.range cfg.numMicroScales).map
          (fun i => (cfg.strint "Micro Stress" i ++ " Name", cfg.strint "Micro Stress" i))
      ++ [("Total Stress Name", "Total Stress")]))

/-- Lines 680-760: the residual of the displacement and of each microstrain. -/
def residuals (cfg : Config) (s : State) : State :=
  let s := s.registerEvaluator (Ev.ElasticityResid
    [("Stress Name", "Total Stress"), ("Weighted Gradient BF Name", "wGrad BF"),
     ("Weighted BF Name", "wBF"),
     ("Time Dependent Variable Name", macro_dof_names_dotdot.headD ""),
     ("Residual Name", macro_resid_names.headD "")])
  (List.range cfg.numMicroScales).foldl (fun s i => s.registerEvaluator
    (Ev.MicroResidual
      [("Micro Stress Name", cfg.strint "Micro Stress" i),
       ("Double Stress Name", cfg.strint "Double Stress" i),
       ("Weighted Gradient BF Name", "wGrad BF"), ("Weighted BF Name", "wBF"),
       ("Time Dependent Variable Name", (micro_dof_names i).headD "" ++ "_dotdot"),
       ("Residual Name", (micro_resid_names i).headD "")])) s

/-- Lines 767-786: the scatter of the macroscale forces, then of the microscale forces with
the running offset `dofOffset`, started at `numDim` and advanced by `numDim*numDim`; the
second component is `dofOffset` after the loop. -/
def scatter (cfg : Config) (s : State) : State × Int :=
  let vectorRank : Nat := 1
  let tensorRank : Nat := 2
  let s := s.registerEvaluator
    (Ev.constructScatterResidualEvaluator vectorRank macro_resid_names none none)
  let numTensorFields : Int := cfg.numDim * cfg.numDim
  let dofOffset : Int := cfg.numDim
  (List.range cfg.numMicroScales).foldl (fun (acc : State × Int) i =>
    (acc.1.registerEvaluator (Ev.constructScatterResidualEvaluator tensorRank
        (micro_resid_names i) (some acc.2) (some ((micro_scatter_names i).headD ""))),
     acc.2 + numTensorFields)) (s, dofOffset)

/-- Lines 788-803: the time evaluator, the state "Time" and its Save evaluator. -/
def time (s : State) : State :=
  let s := s.registerEvaluator (Ev.Time
    [("Time Name", "Time"), ("Delta Time Name", "Delta Time")])
  let s := s.registerStateVariable "Time"
  s.registerEvaluator (Ev.SaveStateField "Time")

/-- Lines 805-819: the roots of the graph and the returned tag, by field-manager choice;
`constructResponses` stands for `ResponseUtilities::constructResponses`, whose source is
not among the files. -/
def roots (cfg : Config) (constructResponses : State → Option LandIce.Tag × State)
    (s : State) : Option LandIce.Tag × State :=
  if cfg.fieldManagerChoice = LandIce.FieldManagerChoice.BUILD_RESID_FM then
    let res_tag : LandIce.Tag := LandIce.Tag.mk "Scatter"
    let s := s.requireField res_tag.name
    let s := (List.range cfg.numMicroScales).foldl
      (fun s i => s.requireField ((micro_scatter_names i).headD "")) s
    (some res_tag, s)
  else if cfg.fieldManagerChoice = LandIce.FieldManagerChoice.BUILD_RESPONSE_FM then
    constructResponses s
  else (none, s)

/-- The method `HMCProblem::constructEvaluators` (lines 142-820). The result is the thrown
exception or the returned tag (`none` for `Teuchos::null`), together with the field
manager and state manager as the call leaves them. -/
def constructEvaluators (cfg : Config)
    (constructResponses : State → Option LandIce.Tag × State) (s : State) :
    Except Error (Option LandIce.Tag) × State :=
  match cfg.modelName with
  | none => (Except.error (Error.InvalidParameterName "Model Name"), s)
  | some material_model_name =>
    if material_model_name.length = 0 then
      (Except.error (Error.logic_error
        ("A material model must be defined for block: " ++ cfg.eb_name)), s)
    else if cfg.vectorAndGradientLayoutsAreEquivalent = false then
      (Except.error (Error.logic_error
        "Data Layout Usage in Mechanics problems assume vecDim = numDim"), s)
    else
      let s1 := kinematics cfg s
      match cfg.material with
      | none => (Except.error (Error.InvalidParameterName "material"), s1)
      | some matName =>
        let s2 := constitutive cfg matName s1
        let s3 := residuals cfg s2
        let s4 := (scatter cfg s3).1
        let s5 := time s4
        let r := roots cfg constructResponses s5
        (Except.ok r.1, r.2)

/-- A configuration with two micro scales in three dimensions, for the worked examples. -/
def sampleConfig (choice : LandIce.FieldManagerChoice) : Config :=
  { eb_name := "block_1", modelName := some "HMC", material := some "steel", numDim := 3,
    vectorAndGradientLayoutsAreEquivalent := true, numMicroScales := 2,
    stateVars := ["Stress"], fieldManagerChoice := choice,
    strint := fun s i => s ++ " " ++ toString i }

/-- The empty field manager and state manager. -/
def emptyState : State := { evaluators := [], required := [], states := [] }

/-- A response builder that registers nothing and returns no tag. -/
def noResponses : State → Option LandIce.Tag × State := fun s => (none, s)

end HMCProblem

namespace LCM

/-- Modelled from the spec: the saturation hardening law of the J2 kernel. The header
`J2MiniSolver.hpp` declares the fields `hardeningModulus`, `eqps` and the constants
`sat_mod`, `sat_exp` (lines 56-77); the kernel body that combines them is not among the
sources. The spec gives
`hardening(eqps) = hardeningModulus*eqps + sat_mod*(1 - exp(-sat_exp*eqps))`. -/
def hardening {α : Type} [Field α] (exp : α → α) (hardeningModulus sat_mod sat_exp eqps : α) :
    α :=
  hardeningModulus * eqps + sat_mod * (1 - exp (-sat_exp * eqps))

end LCM

namespace HMCProblem

/-- The value of a decimal digit character. -/
def digitVal (c : Char) : Nat := c.toNat - 48

/-- The number a string of decimal digits denotes, most significant digit first. -/
def decimalVal (l : List Char) : Nat := l.foldl (fun a c => 10 * a + digitVal c) 0

end HMCProblem

namespace LandIce

/-- A `std::map` with string keys: `none` is a key without entry. -/
abbrev StrMap (β : Type) := String → Option β

/-- The assignment `m[k] = v`. -/
def StrMap.assign {β : Type} (m : StrMap β) (k : String) (v : β) : StrMap β :=
  fun k' => if k' = k then some v else m k'

/-- The map after `m.insert(std::pair(k, d))`, and after a read `m[k]` of a map whose
default value is `d`: an entry is added only if the key has none. -/
def StrMap.touch {β : Type} (m : StrMap β) (k : String) (d : β) : StrMap β :=
  fun k' => if k' = k then some ((m k).getD d) else m k'

/-- The value read by `m[k]` for a map whose default value is `d`. -/
def StrMap.read {β : Type} (m : StrMap β) (k : String) (d : β) : β := (m k).getD d

/-- The enum `StokesFOBase::FieldScalarType`. -/
inductive FieldScalarType where
  | Scalar
  | MeshScalar
  | ParamScalar
  | Real
  deriving DecidableEq, Repr

/-- The enum `StokesFOBase::FieldLocation`. -/
inductive FieldLocation where
  | Cell
  | Node
  deriving DecidableEq, Repr

/-- The values of `Albany::StateStruct::MeshFieldEntity` that `constructStatesEvaluators`
uses. -/
inductive MeshFieldEntity where
  | ElemData
  | NodalDistParameter
  | NodalDataToElemNode
  deriving DecidableEq, Repr

/-- The layouts handed to the state manager: four members of `Albany::Layouts`, and the
layered layout `dl_temp` built from one of them and the number of layers. -/
inductive Layout where
  | cell_scalar2
  | node_scalar
  | cell_vector
  | node_vector
  | layered (sns : Layout) (numLayers : Int)
  deriving DecidableEq, Repr

/-- One call of `stateMgr.registerStateVariable` (`sideSet = none`) or of
`stateMgr.registerSideSetStateVariable` with its arguments. -/
structure StateReg where
  sideSet : Option String
  stateName : String
  fieldName : String
  layout : Layout
  ebName : String
  entity : MeshFieldEntity
  meshPart : String
  deriving DecidableEq, Repr

/-- The parameter list `p` returned by a registration with the state manager, together
with the entries `constructStatesEvaluators` sets on it afterwards ("Nodal State",
"Field Name", "Cell Type"). -/
structure Descriptor where
  reg : StateReg
  nodalState : Option Bool
  fieldName : Option String
  cellType : Bool
  deriving DecidableEq, Repr

/-- The evaluator classes and `EvaluatorUtils` methods that `constructStatesEvaluators`
calls; their sources are not among the files. -/
structure Factory where
  SaveStateField : Descriptor → Evaluator
  SaveSideSetStateField : Descriptor → Evaluator
  LoadStateField : Descriptor → Evaluator
  LoadSideSetStateField : Descriptor → Evaluator
  constructGatherScalarNodalParameter : String → String → Evaluator
  constructGatherScalarExtruded2DNodalParameter : String → String → Evaluator

/-- The sublist "Field i" of a "Required Fields Info" list; `none` is a missing entry. -/
structure FieldInfo where
  fieldName : Option String
  fieldUsage : Option String
  fieldType : Option String
  numLayers : Option Int
  deriving DecidableEq, Repr

/-- The ways `constructStatesEvaluators` can fail: a parameter read without default whose
key is missing, a `map::at` on a missing key, `p->set` on a null `p`, the read of a
local `bool` that was never assigned, and an index into an empty list. -/
inductive StatesError where
  | InvalidParameterName (key : String)
  | out_of_range (key : String)
  | nullDescriptor
  | indeterminate (var : String)
  | emptyList
  deriving DecidableEq, Repr

/-- What `constructStatesEvaluators` reads and writes: the field manager, the registrations
made with the state manager, the bookkeeping maps of the problem (the nested side-set
maps indexed by side-set name, then state name), and the local variables of the call
that live across loop iterations. The local maps `is_dist`, `save_sensitivities` and
`dist_params_name_to_mesh_part` are only ever read through `operator[]`, so they are
kept as their read values (default `false` and the empty string). -/
structure StatesState where
  fm : FieldManager
  registered : List StateReg
  is_dist_param : StrMap Bool
  is_extruded_param : StrMap Bool
  extruded_params_levels : StrMap Int
  is_input_field : StrMap Bool
  field_rank : StrMap Int
  field_location : StrMap FieldLocation
  field_scalar_type : StrMap FieldScalarType
  is_ss_input_field : String → StrMap Bool
  ss_field_rank : String → StrMap Int
  ss_field_location : String → StrMap FieldLocation
  ss_field_scalar_type : String → StrMap FieldScalarType
  p : Option Descriptor
  nodal_state : Option Bool
  scalar_state : Option Bool
  param_name : String
  is_dist : String → Bool
  save_sensitivities : String → Bool
  dist_params_name_to_mesh_part : String → String

/-- A parameter read `get<T>(key)` without default. -/
def getRequired {β : Type} (entry : Option β) (key : String) : Except StatesError β :=
  match entry with
  | some v => Except.ok v
  | none => Except.error (StatesError.InvalidParameterName key)

/-- The effect on the state manager of one registration. -/
def StatesState.register (s : StatesState) (reg : StateReg) : StatesState :=
  { s with registered := s.registered ++ [reg] }

/-- The parameter list a registration returns, before the caller sets entries on it. -/
def Descriptor.of (reg : StateReg) : Descriptor :=
  { reg := reg, nodalState := none, fieldName := none, cellType := false }

/-- The call `p = stateMgr.registerStateVariable(stateName, layout, ebName, true, &entity,
meshPart)` of the volume loop. -/
def registerStateVariable (s : StatesState) (stateName : String) (layout : Layout)
    (ebName : String) (entity : MeshFieldEntity) (meshPart : String) : StatesState :=
  let reg : StateReg :=
    { sideSet := none, stateName := stateName, fieldName := stateName,
      layout := layout, ebName := ebName, entity := entity, meshPart := meshPart }
  { s.register reg with p := some (Descriptor.of reg) }

/-- Lines 351-376: the registration of a volume state by field type. A type that is none
of the four leaves everything as it was. -/
def registerVolumeState (ebName stateName fieldType meshPart : String) (s : StatesState) :
    StatesState :=
  if fieldType = "Elem Scalar" then
    let s := registerStateVariable s stateName Layout.cell_scalar2 ebName
      MeshFieldEntity.ElemData meshPart
    { s with nodal_state := some false, scalar_state := some true }
  else if fieldType = "Node Scalar" then
    let entity := if s.is_dist stateName then MeshFieldEntity.NodalDistParameter
      else MeshFieldEntity.NodalDataToElemNode
    let s := if s.is_dist stateName && s.save_sensitivities s.param_name then
      registerStateVariable s (stateName ++ "_sensitivity") Layout.node_scalar ebName
        entity meshPart
      else s
    let s := registerStateVariable s stateName Layout.node_scalar ebName entity meshPart
    { s with nodal_state := some true, scalar_state := some true }
  else if fieldType = "Elem Vector" then
    let s := registerStateVariable s stateName Layout.cell_vector ebName
      MeshFieldEntity.ElemData meshPart
    { s with nodal_state := some false, scalar_state := some false }
  else if fieldType = "Node Vector" then
    let entity := if s.is_dist stateName then MeshFieldEntity.NodalDistParameter
      else MeshFieldEntity.NodalDataToElemNode
    let s := registerStateVariable s stateName Layout.node_vector ebName entity meshPart
    { s with nodal_state := some true, scalar_state := some false }
  else s

/-- Lines 378-389: the Save evaluator of a volume field that is an output. -/
def saveVolumeField (F : Factory) (fieldUsage : String) (s : StatesState) :
    Except StatesError StatesState :=
  if fieldUsage = "Output" ∨ fieldUsage = "Input-Output" then
    match s.p with
    | none => Except.error StatesError.nullDescriptor
    | some d =>
      match s.nodal_state with
      | none => Except.error (StatesError.indeterminate "nodal_state")
      | some b =>
        let d1 : Descriptor := { d with nodalState := some b }
        match constructStatesEvaluators_saveVolume fieldUsage (F.SaveStateField d1) s.fm with
        | none => Except.error StatesError.emptyList
        | some fm => Except.ok { s with p := some d1, fm := fm }
  else Except.ok s

/-- Lines 391-412: the gather evaluator of a distributed parameter, or else the Load
evaluator of an input field; either marks the field as an input field. -/
def gatherOrLoadVolumeField (F : Factory) (stateName fieldName fieldUsage : String)
    (s : StatesState) : Except StatesError StatesState :=
  if s.is_dist_param.read stateName false then
    let extruded := s.is_extruded_param.read stateName false
    let s := { s with is_extruded_param := s.is_extruded_param.touch stateName false }
    let ev := if extruded then F.constructGatherScalarExtruded2DNodalParameter stateName fieldName
      else F.constructGatherScalarNodalParameter stateName fieldName
    Except.ok { s with fm := s.fm.registerEvaluator ev,
                       is_input_field := s.is_input_field.assign stateName true }
  else if fieldUsage = "Input" ∨ fieldUsage = "Input-Output" then
    match s.p with
    | none => Except.error StatesError.nullDescriptor
    | some d =>
      let d1 : Descriptor := { d with fieldName := some fieldName }
      Except.ok { s with p := some d1,
                         fm := s.fm.registerEvaluator (F.LoadStateField d1),
                         is_input_field := s.is_input_field.assign stateName true }
  else Except.ok s

/-- Lines 414-418: rank, location and scalar type of a volume input field. -/
def recordVolumeField (stateName fieldName : String) (s : StatesState) :
    Except StatesError StatesState :=
  let marked := s.is_input_field.read fieldName false
  let s := { s with is_input_field := s.is_input_field.touch fieldName false }
  if marked then
    match s.scalar_state with
    | none => Except.error (StatesError.indeterminate "scalar_state")
    | some scalar_state =>
      match s.nodal_state with
      | none => Except.error (StatesError.indeterminate "nodal_state")
      | some nodal_state =>
        let isParam := s.is_dist_param.read fieldName false
        Except.ok { s with
          field_rank := s.field_rank.assign stateName (if scalar_state then 0 else 1),
          field_location := s.field_location.assign stateName
            (if nodal_state then FieldLocation.Node else FieldLocation.Cell),
          is_dist_param := s.is_dist_param.touch fieldName false,
          field_scalar_type := s.field_scalar_type.assign stateName
            (if isParam then FieldScalarType.ParamScalar else FieldScalarType.Real) }
  else Except.ok s

/-- Lines 332-419: the body of the loop over the volume required fields, for the sublist
`f` of the field and the element block `ebName`. -/
def volumeField (F : Factory) (ebName : String) (f : FieldInfo) (s : StatesState) :
    Except StatesError StatesState :=
  match getRequired f.fieldName "Field Name" with
  | Except.error e => Except.error e
  | Except.ok stateName =>
    let fieldName := stateName
    let fieldUsage := f.fieldUsage.getD "Input"
    if fieldUsage = "Unused" then Except.ok s
    else
      match getRequired f.fieldType "Field Type" with
      | Except.error e => Except.error e
      | Except.ok fieldType =>
        let s := { s with is_dist_param := s.is_dist_param.touch stateName false }
        let meshPart := if s.is_dist stateName then s.dist_params_name_to_mesh_part stateName
          else ""
        let s := registerVolumeState ebName stateName fieldType meshPart s
        match saveVolumeField F fieldUsage s with
        | Except.error e => Except.error e
        | Except.ok s =>
          match gatherOrLoadVolumeField F stateName fieldName fieldUsage s with
          | Except.error e => Except.error e
          | Except.ok s => recordVolumeField stateName fieldName s

/-- The argument list of `stateMgr.registerSideSetStateVariable(ss_name, stateName,
fieldName, layout, sideEBName, true, &entity, meshPart)`. -/
def sideSetReg (ss_name stateName fieldName : String) (layout : Layout) (sideEBName : String)
    (entity : MeshFieldEntity) (meshPart : String) : StateReg :=
  { sideSet := some ss_name, stateName := stateName, fieldName := fieldName,
    layout := layout, ebName := sideEBName, entity := entity, meshPart := meshPart }

/-- Lines 455-516: the registration of a side-set state by field type. The four plain
types assign the returned parameter list to `p`; the four layered types read
"Number Of Layers", register the state with the layered layout and drop the returned
parameter list. A type that is none of the eight leaves everything as it was. -/
def registerSideSetState (ss_name sideEBName stateName fieldName fieldType meshPart : String)
    (numLayers : Option Int) (s : StatesState) : Except StatesError StatesState :=
  let nodalEntity := if s.is_dist stateName then MeshFieldEntity.NodalDistParameter
    else MeshFieldEntity.NodalDataToElemNode
  if fieldType = "Elem Scalar" then
    let reg := sideSetReg ss_name stateName fieldName Layout.cell_scalar2 sideEBName
      MeshFieldEntity.ElemData meshPart
    Except.ok { s.register reg with p := some (Descriptor.of reg),
                                    nodal_state := some false, scalar_state := some true }
  else if fieldType = "Node Scalar" then
    let reg := sideSetReg ss_name stateName fieldName Layout.node_scalar sideEBName
      nodalEntity meshPart
    Except.ok { s.register reg with p := some (Descriptor.of reg),
                                    nodal_state := some true, scalar_state := some true }
  else if fieldType = "Elem Vector" then
    let reg := sideSetReg ss_name stateName fieldName Layout.cell_vector sideEBName
      MeshFieldEntity.ElemData meshPart
    Except.ok { s.register reg with p := some (Descriptor.of reg),
                                    nodal_state := some false, scalar_state := some false }
  else if fieldType = "Node Vector" then
    let reg := sideSetReg ss_name stateName fieldName Layout.node_vector sideEBName
      nodalEntity meshPart
    Except.ok { s.register reg with p := some (Descriptor.of reg),
                                    nodal_state := some true, scalar_state := some false }
  else if fieldType = "Elem Layered Scalar" then
    match getRequired numLayers "Number Of Layers" with
    | Except.error e => Except.error e
    | Except.ok n =>
      let reg := sideSetReg ss_name stateName fieldName (Layout.layered Layout.cell_scalar2 n)
        sideEBName MeshFieldEntity.ElemData meshPart
      Except.ok { s.register reg with nodal_state := some false, scalar_state := some false }
  else if fieldType = "Node Layered Scalar" then
    match getRequired numLayers "Number Of Layers" with
    | Except.error e => Except.error e
    | Except.ok n =>
      let reg := sideSetReg ss_name stateName fieldName (Layout.layered Layout.node_scalar n)
        sideEBName nodalEntity meshPart
      Except.ok { s.register reg with scalar_state := some false, nodal_state := some true }
  else if fieldType = "Elem Layered Vector" then
    match getRequired numLayers "Number Of Layers" with
    | Except.error e => Except.error e
    | Except.ok n =>
      let reg := sideSetReg ss_name stateName fieldName (Layout.layered Layout.cell_vector n)
        sideEBName MeshFieldEntity.ElemData meshPart
      Except.ok { s.register reg with scalar_state := some false, nodal_state := some false }
  else if fieldType = "Node Layered Vector" then
    match getRequired numLayers "Number Of Layers" with
    | Except.error e => Except.error e
    | Except.ok n =>
      let reg := sideSetReg ss_name stateName fieldName (Layout.layered Layout.node_vector n)
        sideEBName nodalEntity meshPart
      Except.ok { s.register reg with scalar_state := some false, nodal_state := some true }
  else Except.ok s

/-- Lines 518-530: the Save evaluator of a side-set field that is an output. -/
def saveSideSetField (F : Factory) (fieldUsage : String) (s : StatesState) :
    Except StatesError StatesState :=
  if fieldUsage = "Output" ∨ fieldUsage = "Input-Output" then
    match s.p with
    | none => Except.error StatesError.nullDescriptor
    | some d =>
      match s.nodal_state with
      | none => Except.error (StatesError.indeterminate "nodal_state")
      | some b =>
        let d1 : Descriptor := { d with nodalState := some b, cellType := true }
        match constructStatesEvaluators_saveSideSet fieldUsage (F.SaveSideSetStateField d1)
            s.fm with
        | none => Except.error StatesError.emptyList
        | some fm => Except.ok { s with p := some d1, fm := fm }
  else Except.ok s

/-- The assignment `m[ss][k] = v` on a nested map. -/
def assign2 {β : Type} (m : String → StrMap β) (ss k : String) (v : β) : String → StrMap β :=
  fun ss' => if ss' = ss then (m ss).assign k v else m ss'

/-- The nested map after a read `m[ss][k]` with default value `d`. -/
def touch2 {β : Type} (m : String → StrMap β) (ss k : String) (d : β) : String → StrMap β :=
  fun ss' => if ss' = ss then (m ss).touch k d else m ss'

/-- Lines 532-554: the gather evaluator of a distributed parameter, or else the Load
evaluator of an input field; either marks the field as an input field of the side set. -/
def gatherOrLoadSideSetField (F : Factory) (ss_name stateName fieldName fieldUsage : String)
    (s : StatesState) : Except StatesError StatesState :=
  let isParam := s.is_dist_param.read stateName false
  let s := { s with is_dist_param := s.is_dist_param.touch stateName false }
  if isParam then
    let extruded := s.is_extruded_param.read stateName false
    let s := { s with is_extruded_param := s.is_extruded_param.touch stateName false }
    let ev := if extruded then F.constructGatherScalarExtruded2DNodalParameter stateName fieldName
      else F.constructGatherScalarNodalParameter stateName fieldName
    Except.ok { s with fm := s.fm.registerEvaluator ev,
                       is_ss_input_field := assign2 s.is_ss_input_field ss_name stateName true }
  else if fieldUsage = "Input" ∨ fieldUsage = "Input-Output" then
    match s.p with
    | none => Except.error StatesError.nullDescriptor
    | some d =>
      let d1 : Descriptor := { d with fieldName := some fieldName }
      Except.ok { s with p := some d1,
                         fm := s.fm.registerEvaluator (F.LoadSideSetStateField d1),
                         is_ss_input_field :=
                           assign2 s.is_ss_input_field ss_name stateName true }
  else Except.ok s

/-- Lines 556-560: rank, location and scalar type of a side-set input field. -/
def recordSideSetField (ss_name stateName : String) (s : StatesState) :
    Except StatesError StatesState :=
  let marked := (s.is_ss_input_field ss_name).read stateName false
  let s := { s with is_ss_input_field := touch2 s.is_ss_input_field ss_name stateName false }
  if marked then
    match s.scalar_state with
    | none => Except.error (StatesError.indeterminate "scalar_state")
    | some scalar_state =>
      match s.nodal_state with
      | none => Except.error (StatesError.indeterminate "nodal_state")
      | some nodal_state =>
        let isParam := s.is_dist_param.read stateName false
        Except.ok { s with
          ss_field_rank := assign2 s.ss_field_rank ss_name stateName
            (if scalar_state then 0 else 1),
          ss_field_location := assign2 s.ss_field_location ss_name stateName
            (if nodal_state then FieldLocation.Node else FieldLocation.Cell),
          is_dist_param := s.is_dist_param.touch stateName false,
          ss_field_scalar_type := assign2 s.ss_field_scalar_type ss_name stateName
            (if isParam then FieldScalarType.ParamScalar else FieldScalarType.Real) }
  else Except.ok s

/-- Lines 437-561: the body of the loop over the required fields of the side set `ss_name`,
whose side element block is `sideEBName`. -/
def sideSetField (F : Factory) (ss_name sideEBName : String) (f : FieldInfo)
    (s : StatesState) : Except StatesError StatesState :=
  match getRequired f.fieldName "Field Name" with
  | Except.error e => Except.error e
  | Except.ok stateName =>
    let fieldName := stateName ++ "_" ++ ss_name
    let fieldUsage := f.fieldUsage.getD "Input"
    if fieldUsage = "Unused" then Except.ok s
    else
      let meshPart := ""
      match getRequired f.fieldType "Field Type" with
      | Except.error e => Except.error e
      | Except.ok fieldType =>
        match registerSideSetState ss_name sideEBName stateName fieldName fieldType meshPart
            f.numLayers s with
        | Except.error e => Except.error e
        | Except.ok s =>
          match saveSideSetField F fieldUsage s with
          | Except.error e => Except.error e
          | Except.ok s =>
            match gatherOrLoadSideSetField F ss_name stateName fieldName fieldUsage s with
            | Except.error e => Except.error e
            | Except.ok s => recordSideSetField ss_name stateName s

/-- A loop whose body can throw: the first exception ends it. -/
def forEach {β : Type} (body : β → StatesState → Except StatesError StatesState) :
    List β → StatesState → Except StatesError StatesState
  | [], s => Except.ok s
  | x :: xs, s =>
    match body x s with
    | Except.error e => Except.error e
    | Except.ok s1 => forEach body xs s1

/-- One entry of the "Distributed Parameters" list: the sublist "Distributed Parameter i"
with its entries, or the legacy string entry "Parameter i"; `none` is a missing entry. -/
inductive DistParam where
  | sublist (name : Option String) (meshPart : Option String) (extruded : Option Bool)
      (extrudedParamLevel : Option Int) (saveSensitivity : Option Bool)
  | legacy (name : Option String)
  deriving DecidableEq, Repr

/-- The assignment `m[k] = v` on a local map kept as its read values. -/
def setAt {β : Type} (m : String → β) (k : String) (v : β) : String → β :=
  fun k' => if k' = k then v else m k'

/-- Lines 282-312: the body of the loop over the distributed parameters. -/
def distributedParameter (dp : DistParam) (s : StatesState) :
    Except StatesError StatesState :=
  let named : Except StatesError StatesState :=
    match dp with
    | DistParam.sublist name meshPart extruded level saveSensitivity =>
      match getRequired name "Name" with
      | Except.error e => Except.error e
      | Except.ok param_name =>
        Except.ok { s with
          param_name := param_name,
          dist_params_name_to_mesh_part :=
            setAt s.dist_params_name_to_mesh_part param_name (meshPart.getD ""),
          is_extruded_param := s.is_extruded_param.assign param_name (extruded.getD false),
          extruded_params_levels := s.extruded_params_levels.touch param_name (level.getD 0),
          save_sensitivities :=
            setAt s.save_sensitivities param_name (saveSensitivity.getD false) }
    | DistParam.legacy name =>
      match getRequired name "Parameter" with
      | Except.error e => Except.error e
      | Except.ok param_name =>
        Except.ok { s with
          param_name := param_name,
          dist_params_name_to_mesh_part :=
            setAt s.dist_params_name_to_mesh_part param_name "" }
  match named with
  | Except.error e => Except.error e
  | Except.ok s =>
    let pn := s.param_name
    let is_dist1 := setAt (setAt s.is_dist pn true) (pn ++ "_upperbound") true
    let part1 := setAt s.dist_params_name_to_mesh_part (pn ++ "_upperbound")
      (s.dist_params_name_to_mesh_part pn)
    Except.ok { s with
      is_dist_param := s.is_dist_param.assign pn true,
      is_dist := setAt is_dist1 (pn ++ "_lowerbound") true,
      dist_params_name_to_mesh_part := setAt part1 (pn ++ "_lowerbound") (part1 pn) }

/-- Lines 315-325: a string entry of the "Dirichlet BCs" list names a distributed field. -/
def dirichletField (value : String) (s : StatesState) : StatesState :=
  { s with
    is_dist := setAt s.is_dist value true,
    dist_params_name_to_mesh_part := setAt s.dist_params_name_to_mesh_part value "" }

/-- One entry of the "Side Sets" array with what the loop looks up for it: the element
block name of its mesh specs and whether its layouts exist (`map::at` throws
otherwise), and its required fields. -/
structure SideSetInfo where
  ss_name : String
  sideEBName : Option String
  hasLayouts : Bool
  fields : List FieldInfo
  deriving DecidableEq, Repr

/-- Lines 426-436 and the inner loop: one iteration of the loop over the side sets. -/
def sideSet (F : Factory) (ss : SideSetInfo) (s : StatesState) :
    Except StatesError StatesState :=
  match ss.sideEBName with
  | none => Except.error (StatesError.out_of_range ss.ss_name)
  | some sideEBName =>
    if ss.hasLayouts then forEach (sideSetField F ss.ss_name sideEBName) ss.fields s
    else Except.error (StatesError.out_of_range ss.ss_name)

/-- The parameters `constructStatesEvaluators` reads: the "Distributed Parameters" sublist
when present, the string entries of "Dirichlet BCs", the element block name, the volume
"Required Fields Info" and the side sets. -/
structure StatesInput where
  distributedParameters : Option (List DistParam)
  dirichletBCs : List String
  ebName : String
  fields : List FieldInfo
  sideSets : List SideSetInfo
  deriving DecidableEq, Repr

/-- The method `StokesFOBase::constructStatesEvaluators` (lines 259-563). The local
variables start out null, unassigned or empty. -/
def constructStatesEvaluators (F : Factory) (input : StatesInput) (s : StatesState) :
    Except StatesError StatesState :=
  let s := { s with p := none, nodal_state := none, scalar_state := none, param_name := "",
                    is_dist := fun _ => false, save_sensitivities := fun _ => false,
                    dist_params_name_to_mesh_part := fun _ => "" }
  match forEach distributedParameter (input.distributedParameters.getD []) s with
  | Except.error e => Except.error e
  | Except.ok s =>
    let s := input.dirichletBCs.foldl (fun s v => dirichletField v s) s
    match forEach (volumeField F input.ebName) input.fields s with
    | Except.error e => Except.error e
    | Except.ok s => forEach (sideSet F) input.sideSets s

/-- The problem before any call: an empty field manager, no registered state, empty
maps. -/
def StatesState.empty : StatesState :=
  { fm := { evaluators := [], required := [] }, registered := [],
    is_dist_param := fun _ => none, is_extruded_param := fun _ => none,
    extruded_params_levels := fun _ => none, is_input_field := fun _ => none,
    field_rank := fun _ => none, field_location := fun _ => none,
    field_scalar_type := fun _ => none, is_ss_input_field := fun _ _ => none,
    ss_field_rank := fun _ _ => none, ss_field_location := fun _ _ => none,
    ss_field_scalar_type := fun _ _ => none, p := none, nodal_state := none,
    scalar_state := none, param_name := "", is_dist := fun _ => false,
    save_sensitivities := fun _ => false, dist_params_name_to_mesh_part := fun _ => "" }

/-- Evaluators that show what they were built from: the class or method name, with the
state name and the "Field Name" entry of the parameter list (or the two string
arguments) as evaluated field; Save evaluators evaluate one field, as for the residual
evaluation type. -/
def sampleFactory : Factory :=
  { SaveStateField := fun d =>
      { name := "SaveStateField", evaluatedFields := [Tag.mk d.reg.stateName] },
    SaveSideSetStateField := fun d =>
      { name := "SaveSideSetStateField", evaluatedFields := [Tag.mk d.reg.stateName] },
    LoadStateField := fun d =>
      { name := "LoadStateField",
        evaluatedFields := [Tag.mk d.reg.stateName, Tag.mk (d.fieldName.getD "")] },
    LoadSideSetStateField := fun d =>
      { name := "LoadSideSetStateField",
        evaluatedFields := [Tag.mk d.reg.stateName, Tag.mk (d.fieldName.getD "")] },
    constructGatherScalarNodalParameter := fun stateName fieldName =>
      { name := "GatherScalarNodalParameter",
        evaluatedFields := [Tag.mk stateName, Tag.mk fieldName] },
    constructGatherScalarExtruded2DNodalParameter := fun stateName fieldName =>
      { name := "GatherScalarExtruded2DNodalParameter",
        evaluatedFields := [Tag.mk stateName, Tag.mk fieldName] } }

/-- A field sublist in which an absent "Field Usage" entry is written out as "Input". -/
def FieldInfo.withUsageWritten (f : FieldInfo) : FieldInfo :=
  match f.fieldUsage with
  | none => { f with fieldUsage := some "Input" }
  | some _ => f

/-- The input of `constructStatesEvaluators` in which every absent "Field Usage" entry,
of volume fields and of side-set fields, is written out as "Input". -/
def StatesInput.withUsageWritten (input : StatesInput) : StatesInput :=
  { input with
    fields := input.fields.map FieldInfo.withUsageWritten,
    sideSets := input.sideSets.map
      (fun ss => { ss with fields := ss.fields.map FieldInfo.withUsageWritten }) }

end LandIce

namespace HMCProblem

/-- The first DOF that a gather evaluator was registered with, `none` for any other
evaluator; a call that leaves the offset to its default starts at the first DOF of the
layout `{x, y, ..., xx, xy, xz, yx, ...}` (line 278). -/
def Ev.gatherOffset : Ev → Option Int
  | Ev.constructGatherSolutionEvaluator_withAcceleration _ _ _ offset => some (offset.getD 0)
  | _ => none

/-- The first DOF that a scatter evaluator was registered with, `none` for any other
evaluator. -/
def Ev.scatterOffset : Ev → Option Int
  | Ev.constructScatterResidualEvaluator _ _ offset _ => some (offset.getD 0)
  | _ => none

/-- The DOF blocks handed out by a sequence of registrations with the given first DOFs:
each block starts at its evaluator's offset and ends where the next block starts, the
last one at `final`, the running offset that the scatter loop is left with (lines
780-786). A block is given by its first DOF and the DOF after its last. -/
def dofBlocks (offsets : List Int) (final : Int) : List (Int × Int) :=
  offsets.zip (offsets.tail ++ [final])

/-- A DOF lies in a block. -/
def inBlock (b : Int × Int) (dof : Int) : Prop := b.1 ≤ dof ∧ dof < b.2

end HMCProblem

namespace LandIce

/-- The names of the states registered by a run, in registration order; `none` when the
run failed. -/
def registeredNames (r : Except StatesError StatesState) : Option (List String) :=
  match r with
  | Except.ok s => some (s.registered.map (fun reg => reg.stateName))
  | Except.error _ => none

/-- Two "Node Scalar" volume fields, "basal_friction" and "stiffening_factor", with the
distributed parameters `ps`. -/
def sensitivityInput (ps : List DistParam) : StatesInput :=
  { distributedParameters := some ps, dirichletBCs := [], ebName := "eb",
    fields := [{ fieldName := some "basal_friction", fieldUsage := none,
                 fieldType := some "Node Scalar", numLayers := none },
               { fieldName := some "stiffening_factor", fieldUsage := none,
                 fieldType := some "Node Scalar", numLayers := none }],
    sideSets := [] }

/-- The distributed parameter `name` given as a sublist with its "Save Sensitivity" flag. -/
def distParamWithSensitivity (name : String) (saveSensitivity : Bool) : DistParam :=
  DistParam.sublist (some name) none none none (some saveSensitivity)

end LandIce


namespace LandIce

/-- The constant `StokesFOBase::QP_VAL`, an index into a needs array. -/
def QP_VAL : Nat := 0

/-- The constant `StokesFOBase::GRAD_QP_VAL`. -/
def GRAD_QP_VAL : Nat := 1

/-- The constant `StokesFOBase::CELL_VAL`. -/
def CELL_VAL : Nat := 2

/-- The constant `StokesFOBase::CELL_TO_SIDE`. -/
def CELL_TO_SIDE : Nat := 3

/-- The constant `StokesFOBase::SIDE_TO_CELL`. -/
def SIDE_TO_CELL : Nat := 4

/-- A needs array `std::array<bool,3>` or `std::array<bool,5>`, read at the constant
indices above. -/
abbrev Needs := Nat → Bool

/-- The needs array with the given entries. -/
def Needs.ofList (l : List Bool) : Needs := fun i => l.getD i false

/-- The methods of `Albany::EvaluatorUtils` that `constructInterpolationEvaluators` calls;
their sources are not among the files. The cell type argument of
`constructDOFCellToSideEvaluator` is the member `cellType` in both calls and is left
out; its last argument is `none` in the call that leaves it to its default. -/
structure EvaluatorUtils where
  constructDOFInterpolationEvaluator : String → Evaluator
  constructDOFGradInterpolationEvaluator : String → Evaluator
  constructNodesToCellInterpolationEvaluator : String → Bool → Evaluator
  constructDOFVecInterpolationEvaluator : String → Evaluator
  constructDOFVecGradInterpolationEvaluator : String → Evaluator
  constructDOFTensorInterpolationEvaluator : String → Evaluator
  constructDOFTensorGradInterpolationEvaluator : String → Evaluator
  constructDOFInterpolationSideEvaluator : String → String → Bool → Evaluator
  constructDOFVecInterpolationSideEvaluator : String → String → Bool → Evaluator
  constructDOFGradInterpolationSideEvaluator : String → String → Bool → Evaluator
  constructDOFVecGradInterpolationSideEvaluator : String → String → Bool → Evaluator
  constructSideQuadPointsToSideInterpolationEvaluator : String → String → Bool → Evaluator
  constructDOFCellToSideEvaluator : String → String → String → String → Option Bool → Evaluator

/-- What `constructInterpolationEvaluators` reads besides the maps: the local `evalUtils`
and its `getPSTUtils()`, the helpers `e2str` and `rank2str` (declared in the class, bodies
not among the files), the parameter "Use MDField Memoization" (default false), and the
members `build_interp_ev` and `ss_build_interp_ev` in iteration order. -/
structure InterpolationInput where
  evalUtils : EvaluatorUtils
  getPSTUtils : EvaluatorUtils
  e2str : FieldLocation → String
  rank2str : Int → String
  enableMemoizer : Bool
  build_interp_ev : List (String × Needs)
  ss_build_interp_ev : List (String × List (String × Needs))

/-- The ways `constructInterpolationEvaluators` can fail: `std::map::at` on a missing key,
and the two exceptions it throws itself. -/
inductive InterpolationError where
  | out_of_range
  | runtime_error
  | logic_error
  deriving DecidableEq, Repr

/-- The call `m.at(k)`. -/
def StrMap.at {β : Type} (m : StrMap β) (k : String) : Except InterpolationError β :=
  match m k with
  | some v => Except.ok v
  | none => Except.error InterpolationError.out_of_range

/-- The statement `if (c) { ev = ...; fm0.registerEvaluator(ev); }`. -/
def registerIf (c : Bool) (ev : Evaluator) (s : StatesState) : StatesState :=
  if c then { s with fm := s.fm.registerEvaluator ev } else s

/-- Lines 574-640: the body of the loop over `build_interp_ev`, for the field `fname` with
its needs array. -/
def volumeInterpolation (input : InterpolationInput) (entry : String × Needs)
    (s : StatesState) : Except InterpolationError StatesState :=
  let fname := entry.1
  let isInput := s.is_input_field.read fname false
  let s := { s with is_input_field := s.is_input_field.touch fname false }
  let utils := if isInput then input.getPSTUtils else input.evalUtils
  let needs := entry.2
  match s.field_location.at fname with
  | Except.error e => Except.error e
  | Except.ok location =>
    if location = FieldLocation.Node then
      match s.field_rank.at fname with
      | Except.error e => Except.error e
      | Except.ok rank =>
        if rank = 0 then
          let s := registerIf (needs QP_VAL) (utils.constructDOFInterpolationEvaluator fname) s
          let s := registerIf (needs GRAD_QP_VAL)
            (utils.constructDOFGradInterpolationEvaluator fname) s
          let s := registerIf (needs CELL_VAL)
            (utils.constructNodesToCellInterpolationEvaluator fname false) s
          Except.ok s
        else if rank = 1 then
          let s := registerIf (needs QP_VAL)
            (utils.constructDOFVecInterpolationEvaluator fname) s
          let s := registerIf (needs GRAD_QP_VAL)
            (utils.constructDOFVecGradInterpolationEvaluator fname) s
          let s := registerIf (needs CELL_VAL)
            (utils.constructNodesToCellInterpolationEvaluator fname true) s
          Except.ok s
        else if rank = 2 then
          let s := registerIf (needs QP_VAL)
            (utils.constructDOFTensorInterpolationEvaluator fname) s
          let s := registerIf (needs GRAD_QP_VAL)
            (utils.constructDOFTensorGradInterpolationEvaluator fname) s
          Except.ok s
        else Except.error InterpolationError.runtime_error
    else Except.ok s

/-- Lines 646-709: the body of the loop over the fields of the side set `ss_name`, for the
field `fname` with its needs array. -/
def sideInterpolation (input : InterpolationInput) (ss_name : String)
    (entry : String × Needs) (s : StatesState) : Except InterpolationError StatesState :=
  let fname := entry.1
  let fname_side := fname ++ "_" ++ ss_name
  let needs := entry.2
  match (if needs CELL_TO_SIDE then s.field_location.at fname
         else (s.ss_field_location ss_name).at fname) with
  | Except.error e => Except.error e
  | Except.ok entity =>
    match (if needs CELL_TO_SIDE then s.field_rank.at fname
           else (s.ss_field_rank ss_name).at fname) with
    | Except.error e => Except.error e
    | Except.ok rank =>
      if rank < 0 ∨ rank > 1 then Except.error InterpolationError.logic_error
      else
        let layout := input.e2str entity ++ " " ++ input.rank2str rank
        let isInput := (s.is_ss_input_field ss_name).read fname false
        let s := { s with
          is_ss_input_field := touch2 s.is_ss_input_field ss_name fname false }
        let utils := if isInput then input.getPSTUtils else input.evalUtils
        if entity = FieldLocation.Node then
          let s := registerIf (needs QP_VAL)
            (if rank = 0 then
              utils.constructDOFInterpolationSideEvaluator fname_side ss_name
                input.enableMemoizer
             else
              utils.constructDOFVecInterpolationSideEvaluator fname_side ss_name
                input.enableMemoizer) s
          let s := registerIf (needs GRAD_QP_VAL)
            (if rank = 0 then
              utils.constructDOFGradInterpolationSideEvaluator fname_side ss_name
                input.enableMemoizer
             else
              utils.constructDOFVecGradInterpolationSideEvaluator fname_side ss_name
                input.enableMemoizer) s
          let s := registerIf (needs CELL_VAL)
            (utils.constructSideQuadPointsToSideInterpolationEvaluator fname_side ss_name
              (decide (rank = 1))) s
          let s := registerIf (needs CELL_TO_SIDE)
            (utils.constructDOFCellToSideEvaluator fname ss_name layout fname_side
              (some input.enableMemoizer)) s
          let s := registerIf (needs SIDE_TO_CELL)
            (utils.constructDOFCellToSideEvaluator fname_side ss_name layout fname none) s
          Except.ok s
        else Except.error InterpolationError.runtime_error

/-- A loop of `constructInterpolationEvaluators`: the first exception ends it. -/
def forEachInterpolation {β : Type}
    (body : β → StatesState → Except InterpolationError StatesState) :
    List β → StatesState → Except InterpolationError StatesState
  | [], s => Except.ok s
  | x :: xs, s =>
    match body x s with
    | Except.error e => Except.error e
    | Except.ok s1 => forEachInterpolation body xs s1

/-- Lines 565-712: `StokesFOBase::constructInterpolationEvaluators`, the loop over the volume
fields followed by the loops over the side sets and their fields. -/
def constructInterpolationEvaluators (input : InterpolationInput) (s : StatesState) :
    Except InterpolationError StatesState :=
  match forEachInterpolation (volumeInterpolation input) input.build_interp_ev s with
  | Except.error e => Except.error e
  | Except.ok s1 =>
    forEachInterpolation
      (fun (it_outer : String × List (String × Needs)) s =>
        forEachInterpolation (sideInterpolation input it_outer.1) it_outer.2 s)
      input.ss_build_interp_ev s1

/-- Utilities that show what they were asked for: the method name as evaluator name, the
string arguments as evaluated fields; `pre` tells the two sets of utilities apart. -/
def sampleUtils (pre : String) : EvaluatorUtils :=
  { constructDOFInterpolationEvaluator := fun f =>
      { name := pre ++ "DOFInterpolation", evaluatedFields := [Tag.mk f] },
    constructDOFGradInterpolationEvaluator := fun f =>
      { name := pre ++ "DOFGradInterpolation", evaluatedFields := [Tag.mk f] },
    constructNodesToCellInterpolationEvaluator := fun f _ =>
      { name := pre ++ "NodesToCellInterpolation", evaluatedFields := [Tag.mk f] },
    constructDOFVecInterpolationEvaluator := fun f =>
      { name := pre ++ "DOFVecInterpolation", evaluatedFields := [Tag.mk f] },
    constructDOFVecGradInterpolationEvaluator := fun f =>
      { name := pre ++ "DOFVecGradInterpolation", evaluatedFields := [Tag.mk f] },
    constructDOFTensorInterpolationEvaluator := fun f =>
      { name := pre ++ "DOFTensorInterpolation", evaluatedFields := [Tag.mk f] },
    constructDOFTensorGradInterpolationEvaluator := fun f =>
      { name := pre ++ "DOFTensorGradInterpolation", evaluatedFields := [Tag.mk f] },
    constructDOFInterpolationSideEvaluator := fun f _ _ =>
      { name := pre ++ "DOFInterpolationSide", evaluatedFields := [Tag.mk f] },
    constructDOFVecInterpolationSideEvaluator := fun f _ _ =>
      { name := pre ++ "DOFVecInterpolationSide", evaluatedFields := [Tag.mk f] },
    constructDOFGradInterpolationSideEvaluator := fun f _ _ =>
      { name := pre ++ "DOFGradInterpolationSide", evaluatedFields := [Tag.mk f] },
    constructDOFVecGradInterpolationSideEvaluator := fun f _ _ =>
      { name := pre ++ "DOFVecGradInterpolationSide", evaluatedFields := [Tag.mk f] },
    constructSideQuadPointsToSideInterpolationEvaluator := fun f _ _ =>
      { name := pre ++ "SideQuadPointsToSideInterpolation", evaluatedFields := [Tag.mk f] },
    constructDOFCellToSideEvaluator := fun f _ layout g _ =>
      { name := pre ++ "DOFCellToSide " ++ layout, evaluatedFields := [Tag.mk f, Tag.mk g] } }

/-- A sample input of `constructInterpolationEvaluators` with no fields in the two maps. -/
def sampleInterpolation : InterpolationInput :=
  { evalUtils := sampleUtils "", getPSTUtils := sampleUtils "PST ",
    e2str := fun e => match e with
      | FieldLocation.Cell => "Cell"
      | FieldLocation.Node => "Node",
    rank2str := fun r => if r = 0 then "Scalar" else "Vector",
    enableMemoizer := false, build_interp_ev := [], ss_build_interp_ev := [] }

/-- A state in which the volume field `fname` has the given location and rank. -/
def stateWithField (fname : String) (location : FieldLocation) (rank : Int) : StatesState :=
  { StatesState.empty with
    field_location := StatesState.empty.field_location.assign fname location,
    field_rank := StatesState.empty.field_rank.assign fname rank }

/-- A state in which the field `fname` of the side set `ss_name` has the given location and
rank. -/
def stateWithSideField (ss_name fname : String) (location : FieldLocation) (rank : Int) :
    StatesState :=
  { StatesState.empty with
    ss_field_location := assign2 StatesState.empty.ss_field_location ss_name fname location,
    ss_field_rank := assign2 StatesState.empty.ss_field_rank ss_name fname rank }

end LandIce

namespace LandIce

/-- The evaluator classes and `EvaluatorUtils` methods that `constructVelocityEvaluators`
calls, each with the arguments that vary between calls; their sources are not among the
files. `SaveStateField` gets the state name and the "Field Name" entry set on its
parameter list (`none` when none is set); `StokesFOBodyForce` gets whether the CISM
entry and the memoizer entry are set. -/
structure VelocityFactory where
  constructMapToPhysicalFrameEvaluator : Evaluator
  constructComputeBasisFunctionsEvaluator : Evaluator
  getMSTUtils_constructQuadPointsToCellInterpolationEvaluator : String → Evaluator
  getPSTUtils_constructQuadPointsToCellInterpolationEvaluator : String → Evaluator
  constructQuadPointsToCellInterpolationEvaluator : String → Evaluator
  StokesFOStress : Evaluator
  StokesFOResid : String → Evaluator
  SharedParameter : String → Evaluator
  PressureCorrectedTemperature : Bool → Evaluator
  FlowRate : String → Evaluator
  ViscosityFO : String → String → Evaluator
  Dissipation : Evaluator
  SaveStateField : String → Option String → Evaluator
  CismSurfaceGradFO : Evaluator
  StokesFOBodyForce : Bool → Bool → Evaluator
  Time : Evaluator

/-- What `constructVelocityEvaluators` reads: the field-manager choice, the parameters
(`none` is an absent entry), the members `resid_names` and `scatter_names`, the constant
`Albany::coord_vec_name`, and whether `CISM_HAS_LANDICE` is defined. The coefficient is a
`double`, taken in any type with a zero and decidable equality. -/
structure VelocityInput (α : Type) where
  fieldManagerChoice : FieldManagerChoice
  useMDFieldMemoization : Option Bool
  flowRateType : Option String
  clausiusClapeyronCoefficient : Option α
  extractStrainRateSq : Option Bool
  printStressTensor : Option Bool
  useTimeParameter : Option Bool
  resid_names : List String
  scatter_names : List String
  coord_vec_name : String
  CISM_HAS_LANDICE : Bool

/-- Lines 752-1030: `StokesFOBase::constructVelocityEvaluators` on the field manager and the
states registered with the state manager. The unchecked reads `resid_names[0]` and
`scatter_names[0]` have no result on an empty array (`none`). -/
def constructVelocityEvaluators {α : Type} [Zero α] [DecidableEq α] (F : VelocityFactory)
    (input : VelocityInput α) (s : FieldManager × List String) :
    Option (FieldManager × List String) :=
  let enableMemoizer := input.useMDFieldMemoization.getD false
  let fm := s.1.registerEvaluator F.constructMapToPhysicalFrameEvaluator
  let fm := fm.registerEvaluator F.constructComputeBasisFunctionsEvaluator
  let fm := fm.registerEvaluator
    (F.getMSTUtils_constructQuadPointsToCellInterpolationEvaluator input.coord_vec_name)
  let fm := fm.registerEvaluator F.StokesFOStress
  match input.resid_names[0]? with
  | none => none
  | some resid =>
    let fm := fm.registerEvaluator (F.StokesFOResid resid)
    let param_name := "Glen\x27s Law Homotopy Parameter"
    let fm := fm.registerEvaluator (F.SharedParameter param_name)
    let fm := fm.registerEvaluator (F.PressureCorrectedTemperature enableMemoizer)
    let fm :=
      match input.flowRateType with
      | some flowRateType =>
        if flowRateType = "From File" ∨ flowRateType = "From CISM" then fm
        else
          fm.registerEvaluator (F.FlowRate
            (if (match input.clausiusClapeyronCoefficient with
                 | some c => decide (c ≠ 0)
                 | none => false) = true
             then "corrected temperature" else "temperature"))
      | none => fm
    let fm := fm.registerEvaluator (F.ViscosityFO
      (if (match input.clausiusClapeyronCoefficient with
           | some c => decide (c ≠ 0)
           | none => false) = true
       then "corrected temperature" else "temperature")
      "Glen\x27s Law Homotopy Parameter")
    match constructVelocityEvaluators_saveDissipation
        (input.extractStrainRateSq.getD false) input.fieldManagerChoice F.Dissipation
        (F.getPSTUtils_constructQuadPointsToCellInterpolationEvaluator "LandIce Dissipation")
        (F.SaveStateField "dissipation_heat" (some "LandIce Dissipation")) (fm, s.2) with
    | none => none
    | some s1 =>
      match constructVelocityEvaluators_saveStress
          (input.printStressTensor.getD false) input.fieldManagerChoice
          (F.constructQuadPointsToCellInterpolationEvaluator "Stress Tensor")
          (F.SaveStateField "Stress Tensor" (some "Stress Tensor")) s1 with
      | none => none
      | some s2 =>
        let fm := if input.CISM_HAS_LANDICE then s2.1.registerEvaluator F.CismSurfaceGradFO
          else s2.1
        let fm := fm.registerEvaluator
          (F.StokesFOBodyForce input.CISM_HAS_LANDICE enableMemoizer)
        match (if input.fieldManagerChoice = FieldManagerChoice.BUILD_RESID_FM then
                match input.scatter_names[0]? with
                | none => none
                | some name => some (fm.requireField (Tag.mk name))
               else some fm) with
        | none => none
        | some fm =>
          let isTimeAParameter :=
            match input.useTimeParameter with
            | some b => b
            | none => false
          if isTimeAParameter then
            some ((fm.registerEvaluator F.Time).registerEvaluator
                    (F.SaveStateField "Time" none), s2.2 ++ ["Time"])
          else some (fm, s2.2)

/-- Evaluators that show what they were built from: the class or method name with the
string arguments; the Save evaluator evaluates one field named after its state, as for
the residual evaluation type. -/
def sampleVelocityFactory : VelocityFactory :=
  { constructMapToPhysicalFrameEvaluator :=
      { name := "MapToPhysicalFrame", evaluatedFields := [] },
    constructComputeBasisFunctionsEvaluator :=
      { name := "ComputeBasisFunctions", evaluatedFields := [] },
    getMSTUtils_constructQuadPointsToCellInterpolationEvaluator := fun f =>
      { name := "MST QuadPointsToCellInterpolation", evaluatedFields := [Tag.mk f] },
    getPSTUtils_constructQuadPointsToCellInterpolationEvaluator := fun f =>
      { name := "PST QuadPointsToCellInterpolation", evaluatedFields := [Tag.mk f] },
    constructQuadPointsToCellInterpolationEvaluator := fun f =>
      { name := "QuadPointsToCellInterpolation", evaluatedFields := [Tag.mk f] },
    StokesFOStress := { name := "StokesFOStress", evaluatedFields := [Tag.mk "Stress Tensor"] },
    StokesFOResid := fun r => { name := "StokesFOResid", evaluatedFields := [Tag.mk r] },
    SharedParameter := fun n => { name := "SharedParameter", evaluatedFields := [Tag.mk n] },
    PressureCorrectedTemperature := fun _ =>
      { name := "PressureCorrectedTemperature",
        evaluatedFields := [Tag.mk "corrected temperature"] },
    FlowRate := fun t => { name := "FlowRate " ++ t, evaluatedFields := [Tag.mk "flow_factor"] },
    ViscosityFO := fun t _ =>
      { name := "ViscosityFO " ++ t, evaluatedFields := [Tag.mk "LandIce Viscosity"] },
    Dissipation := { name := "Dissipation", evaluatedFields := [Tag.mk "LandIce Dissipation"] },
    SaveStateField := fun stateName _ =>
      { name := "SaveStateField", evaluatedFields := [Tag.mk stateName] },
    CismSurfaceGradFO := { name := "CismSurfaceGradFO", evaluatedFields := [] },
    StokesFOBodyForce := fun _ _ =>
      { name := "StokesFOBodyForce", evaluatedFields := [Tag.mk "Body Force"] },
    Time := { name := "Time", evaluatedFields := [Tag.mk "Time"] } }

/-- A sample input: the residual field manager with both Save options set, a flow rate
type that is computed, and the given Clausius-Clapeyron coefficient. -/
def sampleVelocityInput (coefficient : Option ℚ) : VelocityInput ℚ :=
  { fieldManagerChoice := FieldManagerChoice.BUILD_RESID_FM,
    useMDFieldMemoization := none,
    flowRateType := some "Temperature Based",
    clausiusClapeyronCoefficient := coefficient,
    extractStrainRateSq := some true,
    printStressTensor := some true,
    useTimeParameter := none,
    resid_names := ["Velocity Residual"],
    scatter_names := ["Scatter Velocity"],
    coord_vec_name := "Coord Vec",
    CISM_HAS_LANDICE := false }

end LandIce

namespace TopologyBase

/-- The values of `LCM::fracture::Criterion` that the driver names (the enum itself is
declared in a header that is not among the files). -/
inductive Criterion where
  | ONE
  | RANDOM
  | TRACTION
  deriving DecidableEq, Repr

/-- The values of `LCM::Topology::OutputType` that the driver names. -/
inductive OutputType where
  | UNIDIRECTIONAL_UNILEVEL
  | UNIDIRECTIONAL_MULTILEVEL
  | BIDIRECTIONAL_UNILEVEL
  | BIDIRECTIONAL_MULTILEVEL
  deriving DecidableEq, Repr

/-- The result of `Teuchos::CommandLineProcessor::parse`: the two values the driver
compares with, and `PARSE_FAILED` for every other value. -/
inductive EParseCommandLineReturn where
  | PARSE_SUCCESSFUL
  | PARSE_HELP_PRINTED
  | PARSE_FAILED
  deriving DecidableEq, Repr

/-- The variables that `main` registers as targets of the command-line options. -/
structure Options where
  input_file : String
  output_file : String
  fracture_criterion : Criterion
  probability : ℚ
  plot_style : OutputType
  deriving DecidableEq, Repr

/-- Lines 22-92: the values the option variables are initialised with. -/
def defaultOptions : Options :=
  { input_file := "input.e", output_file := "output.e",
    fracture_criterion := Criterion.RANDOM, probability := 1,
    plot_style := OutputType.UNIDIRECTIONAL_UNILEVEL }

/-- Lines 43-53: the table `criteria_names` / `criteria_values` of the values that the
option "fracture-criterion" accepts. -/
def criteria : List (String × Criterion) :=
  [("one", Criterion.ONE), ("random", Criterion.RANDOM), ("traction", Criterion.TRACTION)]

/-- Lines 77-89: the table `style_names` / `style_values` of the option "plot-style". -/
def styles : List (String × OutputType) :=
  [("UU", OutputType.UNIDIRECTIONAL_UNILEVEL), ("UM", OutputType.UNIDIRECTIONAL_MULTILEVEL),
   ("BU", OutputType.BIDIRECTIONAL_UNILEVEL), ("BM", OutputType.BIDIRECTIONAL_MULTILEVEL)]

/-- What `main` does after the parse, in order: the objects it constructs and the calls it
makes. `error_message` is the text written to `std::cerr` by the default branch of the
switch. -/
inductive Action where
  | GlobalMPISession
  | Topology (input_file output_file : String)
  | error_message (fracture_criterion : Criterion)
  | FractureCriterionOnce (bulk_part_name interface_part_name : String) (probability : ℚ)
  | FractureCriterionRandom (bulk_part_name interface_part_name : String) (probability : ℚ)
  | set_fracture_criterion
  | setEntitiesOpen
  | set_output_type (plot_style : OutputType)
  | outputToGraphviz (gviz_filename : String)
  | outputBoundary (boundary_filename : String)
  | splitOpenFaces
  | get_discretization
  | updateMesh
  | getSolutionField
  | writeSolution (time : ℚ)
  deriving DecidableEq, Repr

/-- The outcome of a run: the exit code and the actions taken. -/
structure Outcome where
  exitCode : Int
  trace : List Action
  deriving DecidableEq, Repr

/-- What the driver takes from outside the file: `Teuchos::CommandLineProcessor::parse` on
the registered option variables, `LCM::parallelize_string`, and whether
`DEBUG_LCM_TOPOLOGY` is defined. -/
structure Environment where
  parse : List String → Options → EParseCommandLineReturn × Options
  parallelize_string : String → String
  DEBUG_LCM_TOPOLOGY : Bool

/-- Lines 169-214: what follows the switch, once a fracture criterion has been
constructed. -/
def splitAndWrite (env : Environment) (o : Options) (trace : List Action) : Outcome :=
  let trace := trace ++ [Action.set_fracture_criterion, Action.setEntitiesOpen,
    Action.set_output_type o.plot_style]
  let trace := if env.DEBUG_LCM_TOPOLOGY then
      trace ++ [Action.outputToGraphviz (env.parallelize_string "before" ++ ".dot")]
    else trace
  let trace := trace ++ [Action.outputBoundary (env.parallelize_string "before" ++ ".vtk"),
    Action.splitOpenFaces]
  let trace := if env.DEBUG_LCM_TOPOLOGY then
      trace ++ [Action.outputToGraphviz (env.parallelize_string "after" ++ ".dot")]
    else trace
  let trace := trace ++ [Action.outputBoundary (env.parallelize_string "after" ++ ".vtk"),
    Action.get_discretization, Action.updateMesh, Action.getSolutionField,
    Action.writeSolution 1]
  { exitCode := 0, trace := trace }

/-- Lines 14-215: `main` on the command-line arguments `av`. -/
def main (env : Environment) (av : List String) : Outcome :=
  let parsed := env.parse av defaultOptions
  let parse_return := parsed.1
  let o := parsed.2
  if parse_return = EParseCommandLineReturn.PARSE_HELP_PRINTED then
    { exitCode := 0, trace := [] }
  else if parse_return ≠ EParseCommandLineReturn.PARSE_SUCCESSFUL then
    { exitCode := 1, trace := [] }
  else
    let trace := [Action.GlobalMPISession, Action.Topology o.input_file o.output_file]
    let bulk_part_name := "bulk"
    let interface_part_name := "interface"
    match o.fracture_criterion with
    | Criterion.ONE =>
      splitAndWrite env o (trace ++
        [Action.FractureCriterionOnce bulk_part_name interface_part_name o.probability])
    | Criterion.RANDOM =>
      splitAndWrite env o (trace ++
        [Action.FractureCriterionRandom bulk_part_name interface_part_name o.probability])
    | _ =>
      { exitCode := 1, trace := trace ++ [Action.error_message o.fracture_criterion] }

/-- A sample command-line processor: "--help" prints the help; an argument
"--fracture-criterion=name" sets the criterion by the table `criteria`, an argument
"--plot-style=name" the style by the table `styles`; any other argument fails. -/
def sampleParse : List String → Options → EParseCommandLineReturn × Options
  | [], o => (EParseCommandLineReturn.PARSE_SUCCESSFUL, o)
  | arg :: rest, o =>
    if arg = "--help" then (EParseCommandLineReturn.PARSE_HELP_PRINTED, o)
    else
      match criteria.find? (fun e => arg = "--fracture-criterion=" ++ e.1) with
      | some e => sampleParse rest { o with fracture_criterion := e.2 }
      | none =>
        match styles.find? (fun e => arg = "--plot-style=" ++ e.1) with
        | some e => sampleParse rest { o with plot_style := e.2 }
        | none => (EParseCommandLineReturn.PARSE_FAILED, o)

/-- A sample environment: the sample processor, serial file names, no debug output. -/
def sampleEnvironment : Environment :=
  { parse := sampleParse, parallelize_string := fun s => s, DEBUG_LCM_TOPOLOGY := false }

end TopologyBase
/-! ## Theorems -/

namespace Tsunami

theorem set2_same {α : Type} (f : Nat → Nat → α) (c q : Nat) (v : α) : set2 f c q v c q = v := by
  simp [set2]

theorem set2_other {α : Type} (f : Nat → Nat → α) (c q c' q' : Nat) (v : α)
    (h : ¬ (c' = c ∧ q' = q)) : set2 f c q v c' q' = f c' q' := by
  simp only [set2, if_neg h]

theorem set2_set2 {α : Type} (f : Nat → Nat → α) (c q : Nat) (a b : α) :
    set2 (set2 f c q a) c q b = set2 f c q b := by
  funext c' q'
  simp only [set2]
  split_ifs <;> rfl

theorem set2_self {α : Type} (f : Nat → Nat → α) (c q : Nat) : set2 f c q (f c q) = f := by
  funext c' q'
  simp only [set2]
  split_ifs with h
  · rw [h.1, h.2]
  · rfl

theorem bump_zero {α : Type} [Field α] (cell qp : Nat) (d : FieldData α) : bump cell qp d 0 0 = d := by
  ext1 <;> simp [bump, set2_self]

theorem bump_bump {α : Type} [Field α] (cell qp : Nat) (d : FieldData α) (a b a' b' : α) :
    bump cell qp (bump cell qp d a b) a' b' = bump cell qp d (a + a') (b + b') := by
  ext1 <;> simp [bump, set2_same, set2_set2, add_assoc]

theorem innerStep_eq {α : Type} [Field α] (k : NavierStokesTau α) (cell qp i j : Nat) (d : FieldData α) :
    innerStep k cell qp i d j = bump cell qp d
      (k.rho * k.rho * d.V cell qp i * d.Gc cell qp i j * d.V cell qp j)
      (d.Gc cell qp i j * d.Gc cell qp i j) := by
  ext1 <;> simp [bump, innerStep]

theorem inner_fold {α : Type} [Field α] (k : NavierStokesTau α) (cell qp i m : Nat) (d : FieldData α) :
    (List.range m).foldl (innerStep k cell qp i) d = bump cell qp d
      (∑ j in Finset.range m, k.rho * k.rho * d.V cell qp i * d.Gc cell qp i j * d.V cell qp j)
      (∑ j in Finset.range m, d.Gc cell qp i j * d.Gc cell qp i j) := by
  induction m with
  | zero => simp [bump_zero]
  | succ m ih =>
    rw [List.range_succ, List.foldl_append, ih]
    simp only [List.foldl_cons, List.foldl_nil, innerStep_eq, bump_bump, Finset.sum_range_succ]
    rfl

theorem outer_fold {α : Type} [Field α] (k : NavierStokesTau α) (cell qp n m : Nat) (d : FieldData α) :
    (List.range n).foldl (fun d i => (List.range m).foldl (innerStep k cell qp i) d) d
      = bump cell qp d
      (∑ i in Finset.range n, ∑ j in Finset.range m,
        k.rho * k.rho * d.V cell qp i * d.Gc cell qp i j * d.V cell qp j)
      (∑ i in Finset.range n, ∑ j in Finset.range m, d.Gc cell qp i j * d.Gc cell qp i j) := by
  induction n with
  | zero => simp [bump_zero]
  | succ n ih =>
    rw [List.range_succ, List.foldl_append, ih]
    simp only [List.foldl_cons, List.foldl_nil, inner_fold, bump_bump, Finset.sum_range_succ]
    rfl

theorem tensorLoops_eq {α : Type} [Field α] (k : NavierStokesTau α) (cell qp : Nat) (d : FieldData α) :
    tensorLoops k cell qp d = bump cell qp d (quadSum k d cell qp) (normSum k d cell qp) := by
  unfold tensorLoops quadSum normSum
  exact outer_fold k cell qp k.numDims k.numDims d

theorem pointRadicand_eq {α : Type} [Field α] (sqrt : α → α) (k : NavierStokesTau α) (cell qp : Nat)
    (d : FieldData α) :
    pointRadicand sqrt k cell qp d =
      { d with
        Tau := set2 d.Tau cell qp
          (quadSum k d cell qp + 12 * k.mu * k.mu * sqrt (normSum k d cell qp)),
        normGc := set2 d.normGc cell qp (normSum k d cell qp) } := by
  unfold pointRadicand
  simp only [tensorLoops_eq]
  ext1 <;> simp [bump, set2_same, set2_set2, quadSum, normSum]

theorem pointBody_eq {α : Type} [Field α] (sqrt : α → α) (k : NavierStokesTau α) (cell qp : Nat)
    (d : FieldData α) :
    pointBody sqrt k cell qp d =
      { d with
        Tau := set2 d.Tau cell qp (tauClosed sqrt k d cell qp),
        normGc := set2 d.normGc cell qp (normSum k d cell qp) } := by
  unfold pointBody
  simp only [pointRadicand_eq]
  ext1 <;> simp [set2_same, set2_set2, tauClosed]

theorem tauClosed_congr {α : Type} [Field α] (sqrt : α → α) (k : NavierStokesTau α)
    (d d' : FieldData α) (hV : d'.V = d.V) (hG : d'.Gc = d.Gc) (c q : Nat) :
    tauClosed sqrt k d' c q = tauClosed sqrt k d c q := by
  simp only [tauClosed, quadSum, normSum, hV, hG]

theorem normSum_congr {α : Type} [Field α] (k : NavierStokesTau α)
    (d d' : FieldData α) (hG : d'.Gc = d.Gc) (c q : Nat) :
    normSum k d' c q = normSum k d c q := by
  simp only [normSum, hG]

theorem swept_zero {α : Type} [Field α] (sqrt : α → α) (k : NavierStokesTau α)
    (d : FieldData α) (nq : Nat) : swept sqrt k d 0 nq 0 = d := by
  ext1 <;> simp [swept]

theorem swept_point {α : Type} [Field α] (sqrt : α → α) (k : NavierStokesTau α)
    (d : FieldData α) (nc nq nl : Nat) :
    pointBody sqrt k nc nl (swept sqrt k d nc nq nl) = swept sqrt k d nc nq (nl + 1) := by
  rw [pointBody_eq]
  have hT := tauClosed_congr sqrt k d (swept sqrt k d nc nq nl) rfl rfl nc nl
  have hN := normSum_congr k d (swept sqrt k d nc nq nl) rfl nc nl
  rw [hT, hN]
  ext1
  · rfl
  · rfl
  · rfl
  · funext c q
    simp only [swept, set2]
    by_cases h1 : c = nc ∧ q = nl
    · obtain ⟨rfl, rfl⟩ := h1
      simp
    · have h2 : ((c < nc ∧ q < nq) ∨ (c = nc ∧ q < nl + 1)) ↔
          ((c < nc ∧ q < nq) ∨ (c = nc ∧ q < nl)) := by
        constructor
        · rintro (h | ⟨hc, hq⟩)
          · exact Or.inl h
          · refine Or.inr ⟨hc, ?_⟩
            rcases Nat.lt_succ_iff_lt_or_eq.mp hq with h | h
            · exact h
            · exact absurd ⟨hc, h⟩ h1
        · rintro (h | ⟨hc, hq⟩)
          · exact Or.inl h
          · exact Or.inr ⟨hc, Nat.lt_succ_of_lt hq⟩
      simp only [if_neg h1, h2]
  · funext c q
    simp only [swept, set2]
    by_cases h1 : c = nc ∧ q = nl
    · obtain ⟨rfl, rfl⟩ := h1
      simp
    · have h2 : ((c < nc ∧ q < nq) ∨ (c = nc ∧ q < nl + 1)) ↔
          ((c < nc ∧ q < nq) ∨ (c = nc ∧ q < nl)) := by
        constructor
        · rintro (h | ⟨hc, hq⟩)
          · exact Or.inl h
          · refine Or.inr ⟨hc, ?_⟩
            rcases Nat.lt_succ_iff_lt_or_eq.mp hq with h | h
            · exact h
            · exact absurd ⟨hc, h⟩ h1
        · rintro (h | ⟨hc, hq⟩)
          · exact Or.inl h
          · exact Or.inr ⟨hc, Nat.lt_succ_of_lt hq⟩
      simp only [if_neg h1, h2]

theorem swept_cell_done {α : Type} [Field α] (sqrt : α → α) (k : NavierStokesTau α)
    (d : FieldData α) (nc nq : Nat) :
    swept sqrt k d nc nq nq = swept sqrt k d (nc + 1) nq 0 := by
  have h2 : ∀ c q : Nat, ((c < nc ∧ q < nq) ∨ (c = nc ∧ q < nq)) ↔
      ((c < nc + 1 ∧ q < nq) ∨ (c = nc + 1 ∧ q < 0)) := by
    intro c q
    constructor
    · rintro (⟨hc, hq⟩ | ⟨hc, hq⟩)
      · exact Or.inl ⟨Nat.lt_succ_of_lt hc, hq⟩
      · exact Or.inl ⟨by omega, hq⟩
    · rintro (⟨hc, hq⟩ | ⟨_, hq⟩)
      · rcases Nat.lt_succ_iff_lt_or_eq.mp hc with h | h
        · exact Or.inl ⟨h, hq⟩
        · exact Or.inr ⟨h, hq⟩
      · exact absurd hq (Nat.not_lt_zero q)
  ext1
  · rfl
  · rfl
  · rfl
  · funext c q
    simp only [swept, h2]
  · funext c q
    simp only [swept, h2]

theorem qp_fold {α : Type} [Field α] (sqrt : α → α) (k : NavierStokesTau α)
    (d : FieldData α) (nc nq n : Nat) :
    (List.range n).foldl (fun d qp => pointBody sqrt k nc qp d) (swept sqrt k d nc nq 0)
      = swept sqrt k d nc nq n := by
  induction n with
  | zero => rfl
  | succ n ih =>
    rw [List.range_succ, List.foldl_append, ih]
    simp only [List.foldl_cons, List.foldl_nil, swept_point]

theorem cellBody_swept {α : Type} [Field α] (sqrt : α → α) (k : NavierStokesTau α)
    (d : FieldData α) (nc : Nat) :
    cellBody sqrt k (swept sqrt k d nc k.numQPs 0) nc = swept sqrt k d (nc + 1) k.numQPs 0 := by
  unfold cellBody
  rw [qp_fold, swept_cell_done]

theorem cell_fold {α : Type} [Field α] (sqrt : α → α) (k : NavierStokesTau α)
    (d : FieldData α) (n : Nat) :
    (List.range n).foldl (cellBody sqrt k) d = swept sqrt k d n k.numQPs 0 := by
  induction n with
  | zero => rw [swept_zero]; rfl
  | succ n ih =>
    rw [List.range_succ, List.foldl_append, ih]
    simp only [List.foldl_cons, List.foldl_nil, cellBody_swept]

/-- The Shakib-Hughes branch in closed form. -/
theorem evaluateFields_shakibHughes {α : Type} [Field α] (sqrt : α → α)
    (k : NavierStokesTau α) (workset : Workset) (d : FieldData α)
    (hk : k.stab_type = some StabType.SHAKIBHUGHES) :
    evaluateFields sqrt k workset d = swept sqrt k d workset.numCells k.numQPs 0 := by
  unfold evaluateFields
  rw [if_pos hk, cell_fold]

theorem evaluateFields_Tau {α : Type} [Field α] (sqrt : α → α)
    (k : NavierStokesTau α) (workset : Workset) (d : FieldData α)
    (hk : k.stab_type = some StabType.SHAKIBHUGHES) (cell qp : Nat)
    (hc : cell < workset.numCells) (hq : qp < k.numQPs) :
    (evaluateFields sqrt k workset d).Tau cell qp = tauClosed sqrt k d cell qp := by
  rw [evaluateFields_shakibHughes sqrt k workset d hk]
  simp [swept, hc, hq]

/-- The radicand in closed form. -/
theorem radicand_eq {α : Type} [Field α] (sqrt : α → α) (k : NavierStokesTau α)
    (cell qp : Nat) (d : FieldData α) :
    radicand sqrt k cell qp d =
      quadSum k d cell qp + 12 * k.mu * k.mu * sqrt (normSum k d cell qp) := by
  unfold radicand
  rw [pointRadicand_eq]
  exact set2_same _ _ _ _

/-- The stored value is one over the square root of the radicand. -/
theorem tauClosed_radicand {α : Type} [Field α] (sqrt : α → α) (k : NavierStokesTau α)
    (cell qp : Nat) (d : FieldData α) :
    tauClosed sqrt k d cell qp = 1 / sqrt (radicand sqrt k cell qp d) := by
  rw [radicand_eq, tauClosed]

/-- The two accumulations for the identity metric in two dimensions. -/
theorem sums_identity2 {α : Type} [Field α] (k : NavierStokesTau α) (d : FieldData α)
    (cell qp : Nat) (hn : k.numDims = 2) (hrho : k.rho = 1)
    (hG : ∀ i j, i < 2 → j < 2 → d.Gc cell qp i j = if i = j then 1 else 0) :
    quadSum k d cell qp = d.V cell qp 0 * d.V cell qp 0 + d.V cell qp 1 * d.V cell qp 1
      ∧ normSum k d cell qp = 2 := by
  have h00 := hG 0 0 (by decide) (by decide)
  have h01 := hG 0 1 (by decide) (by decide)
  have h10 := hG 1 0 (by decide) (by decide)
  have h11 := hG 1 1 (by decide) (by decide)
  simp only [if_pos, if_neg, Nat.zero_ne_one, Nat.one_ne_zero] at h00 h01 h10 h11
  constructor
  · simp only [quadSum, hn, hrho, Finset.sum_range_succ, Finset.sum_range_zero, h00, h01, h10, h11]
    simp
  · simp only [normSum, hn, Finset.sum_range_succ, Finset.sum_range_zero, h00, h01, h10, h11]
    norm_num

/-- C1: with the Shakib-Hughes law selected, after `evaluateFields` has run on a workset,
every `Tau(cell,qp)` with `cell < workset.numCells` and `qp < numQPs` equals
`1/sqrt( Σ_ij rho^2*V_i*Gc_ij*V_j + 12*mu^2*sqrt( Σ_ij Gc_ij^2 ) )`, the sums ranging
over `i, j < numDims`, read over the reals. -/
theorem evaluateFields_shakibHughes_formula (k : NavierStokesTau ℝ) (workset : Workset)
    (d : FieldData ℝ) (hk : k.stab_type = some StabType.SHAKIBHUGHES) (cell qp : Nat)
    (hc : cell < workset.numCells) (hq : qp < k.numQPs) :
    (evaluateFields Real.sqrt k workset d).Tau cell qp =
      1 / Real.sqrt
        ((∑ i in Finset.range k.numDims, ∑ j in Finset.range k.numDims,
            k.rho ^ 2 * d.V cell qp i * d.Gc cell qp i j * d.V cell qp j)
          + 12 * k.mu ^ 2 *
            Real.sqrt (∑ i in Finset.range k.numDims, ∑ j in Finset.range k.numDims,
              d.Gc cell qp i j ^ 2)) := by
  rw [evaluateFields_Tau Real.sqrt k workset d hk cell qp hc hq]
  simp only [tauClosed, quadSum, normSum, pow_two, mul_assoc]

/-- Witness of C1 on the one-point kernel with `V = [1,0]` and the identity metric. -/
theorem evaluateFields_shakibHughes_formula_witness :
    (sampleKernel ℝ 2 1 1 StabType.SHAKIBHUGHES).stab_type = some StabType.SHAKIBHUGHES
    ∧ 0 < (Workset.mk 1).numCells
    ∧ 0 < (sampleKernel ℝ 2 1 1 StabType.SHAKIBHUGHES).numQPs
    ∧ (evaluateFields Real.sqrt (sampleKernel ℝ 2 1 1 StabType.SHAKIBHUGHES) (Workset.mk 1)
        (sampleData (e1 ℝ) (idMetric ℝ) 7 9)).Tau 0 0 =
      1 / Real.sqrt
        ((∑ i in Finset.range 2, ∑ j in Finset.range 2,
            (1 : ℝ) ^ 2 * e1 ℝ i * idMetric ℝ i j * e1 ℝ j)
          + 12 * (1 : ℝ) ^ 2 *
            Real.sqrt (∑ i in Finset.range 2, ∑ j in Finset.range 2, idMetric ℝ i j ^ 2)) :=
  ⟨rfl, by decide, by decide,
    evaluateFields_shakibHughes_formula (sampleKernel ℝ 2 1 1 StabType.SHAKIBHUGHES)
      (Workset.mk 1) (sampleData (e1 ℝ) (idMetric ℝ) 7 9) rfl 0 0 (by decide) (by decide)⟩

/-- The stored value for the identity metric in two dimensions with `mu = rho = 1`. -/
theorem tau_identity2 {α : Type} [Field α] (sqrt : α → α) (k : NavierStokesTau α)
    (workset : Workset) (d : FieldData α) (cell qp : Nat)
    (hk : k.stab_type = some StabType.SHAKIBHUGHES)
    (hc : cell < workset.numCells) (hq : qp < k.numQPs)
    (hn : k.numDims = 2) (hmu : k.mu = 1) (hrho : k.rho = 1)
    (hG : ∀ i j, i < 2 → j < 2 → d.Gc cell qp i j = if i = j then 1 else 0) :
    (evaluateFields sqrt k workset d).Tau cell qp =
      1 / sqrt (d.V cell qp 0 * d.V cell qp 0 + d.V cell qp 1 * d.V cell qp 1
        + 12 * sqrt 2) := by
  rw [evaluateFields_Tau sqrt k workset d hk cell qp hc hq, tauClosed]
  obtain ⟨hQ, hN⟩ := sums_identity2 k d cell qp hn hrho hG
  rw [hQ, hN, hmu]
  simp

/-- Over the reals `1/sqrt a` and `1/sqrt b` differ for distinct non-negative `a`, `b`. -/
theorem one_div_sqrt_ne (a b : ℝ) (ha : 0 ≤ a) (hb : 0 ≤ b) (hab : a ≠ b) :
    1 / Real.sqrt a ≠ 1 / Real.sqrt b := by
  intro h
  rw [one_div, one_div, inv_inj, Real.sqrt_inj ha hb] at h
  exact hab h

/-- The square root of two is not one. -/
theorem sqrt_two_ne_one : Real.sqrt 2 ≠ 1 := by
  intro h
  rw [Real.sqrt_eq_one] at h
  norm_num at h

/-- C2 (as stated, refuted): on the one-point kernel with `numDims = 2`, `V = [1,0]`,
`Gc` the identity and `mu = rho = 1`, the value stored in `Tau` is not `1/sqrt 13`. -/
theorem tau_example_not_inv_sqrt_13 :
    (evaluateFields Real.sqrt (sampleKernel ℝ 2 1 1 StabType.SHAKIBHUGHES) (Workset.mk 1)
        (sampleData (e1 ℝ) (idMetric ℝ) 0 0)).Tau 0 0 ≠ 1 / Real.sqrt 13 := by
  rw [tau_identity2 Real.sqrt (sampleKernel ℝ 2 1 1 StabType.SHAKIBHUGHES) (Workset.mk 1)
    (sampleData (e1 ℝ) (idMetric ℝ) 0 0) 0 0 rfl (by decide) (by decide) rfl rfl rfl
    (fun i j _ _ => rfl)]
  apply one_div_sqrt_ne
  · have := Real.sqrt_nonneg 2
    simp only [sampleData, e1]
    norm_num
    positivity
  · norm_num
  · simp only [sampleData, e1]
    norm_num
    intro h
    exact sqrt_two_ne_one (by linarith)

/-- C2 (amended): with the Shakib-Hughes law, `numDims = 2`, `V = [1,0]`, `Gc` the identity,
`mu = 1` and `rho = 1`, `evaluateFields` yields `Tau = 1/sqrt(1 + 12*sqrt 2)`: the squared
Frobenius norm of the 2x2 identity is 2, so the viscous term is `12*sqrt 2`. -/
theorem tau_unit_velocity_identity_metric (k : NavierStokesTau ℝ) (workset : Workset)
    (d : FieldData ℝ) (cell qp : Nat)
    (hk : k.stab_type = some StabType.SHAKIBHUGHES)
    (hc : cell < workset.numCells) (hq : qp < k.numQPs)
    (hn : k.numDims = 2) (hmu : k.mu = 1) (hrho : k.rho = 1)
    (hV0 : d.V cell qp 0 = 1) (hV1 : d.V cell qp 1 = 0)
    (hG : ∀ i j, i < 2 → j < 2 → d.Gc cell qp i j = if i = j then 1 else 0) :
    (evaluateFields Real.sqrt k workset d).Tau cell qp = 1 / Real.sqrt (1 + 12 * Real.sqrt 2) := by
  rw [tau_identity2 Real.sqrt k workset d cell qp hk hc hq hn hmu hrho hG, hV0, hV1]
  norm_num

/-- Witness of the amended C2 on the one-point kernel. -/
theorem tau_unit_velocity_identity_metric_witness :
    (evaluateFields Real.sqrt (sampleKernel ℝ 2 1 1 StabType.SHAKIBHUGHES) (Workset.mk 1)
        (sampleData (e1 ℝ) (idMetric ℝ) 7 9)).Tau 0 0 = 1 / Real.sqrt (1 + 12 * Real.sqrt 2) :=
  tau_unit_velocity_identity_metric (sampleKernel ℝ 2 1 1 StabType.SHAKIBHUGHES) (Workset.mk 1)
    (sampleData (e1 ℝ) (idMetric ℝ) 7 9) 0 0 rfl (by decide) (by decide) rfl rfl rfl
    (by simp [sampleData, e1]) (by simp [sampleData, e1]) (fun i j _ _ => rfl)

/-- C3 (as stated, refuted): on the one-point kernel with `numDims = 2`, `V = [0,0]`,
`Gc` the identity and `mu = rho = 1`, the value stored in `Tau` is not `1/sqrt 12`. -/
theorem tau_zero_velocity_not_inv_sqrt_12 :
    (evaluateFields Real.sqrt (sampleKernel ℝ 2 1 1 StabType.SHAKIBHUGHES) (Workset.mk 1)
        (sampleData (fun _ => 0) (idMetric ℝ) 0 0)).Tau 0 0 ≠ 1 / Real.sqrt 12 := by
  rw [tau_identity2 Real.sqrt (sampleKernel ℝ 2 1 1 StabType.SHAKIBHUGHES) (Workset.mk 1)
    (sampleData (fun _ => 0) (idMetric ℝ) 0 0) 0 0 rfl (by decide) (by decide) rfl rfl rfl
    (fun i j _ _ => rfl)]
  apply one_div_sqrt_ne
  · simp only [sampleData]
    positivity
  · norm_num
  · simp only [sampleData]
    intro h
    exact sqrt_two_ne_one (by linarith)

/-- C3 (amended): with the Shakib-Hughes law, `numDims = 2`, the degenerate velocity
`V = [0,0]`, `Gc` the identity, `mu = 1` and `rho = 1`, `evaluateFields` yields
`Tau = 1/sqrt(12*sqrt 2)`. -/
theorem tau_zero_velocity_identity_metric (k : NavierStokesTau ℝ) (workset : Workset)
    (d : FieldData ℝ) (cell qp : Nat)
    (hk : k.stab_type = some StabType.SHAKIBHUGHES)
    (hc : cell < workset.numCells) (hq : qp < k.numQPs)
    (hn : k.numDims = 2) (hmu : k.mu = 1) (hrho : k.rho = 1)
    (hV0 : d.V cell qp 0 = 0) (hV1 : d.V cell qp 1 = 0)
    (hG : ∀ i j, i < 2 → j < 2 → d.Gc cell qp i j = if i = j then 1 else 0) :
    (evaluateFields Real.sqrt k workset d).Tau cell qp = 1 / Real.sqrt (12 * Real.sqrt 2) := by
  rw [tau_identity2 Real.sqrt k workset d cell qp hk hc hq hn hmu hrho hG, hV0, hV1]
  norm_num

/-- Witness of the amended C3 on the one-point kernel. -/
theorem tau_zero_velocity_identity_metric_witness :
    (evaluateFields Real.sqrt (sampleKernel ℝ 2 1 1 StabType.SHAKIBHUGHES) (Workset.mk 1)
        (sampleData (fun _ => 0) (idMetric ℝ) 7 9)).Tau 0 0 = 1 / Real.sqrt (12 * Real.sqrt 2) :=
  tau_zero_velocity_identity_metric (sampleKernel ℝ 2 1 1 StabType.SHAKIBHUGHES) (Workset.mk 1)
    (sampleData (fun _ => 0) (idMetric ℝ) 7 9) 0 0 rfl (by decide) (by decide) rfl rfl rfl
    rfl rfl (fun i j _ _ => rfl)

/-- The first accumulation is `rho*rho` times the quadratic form of `Gc` at `V`. -/
theorem quadSum_factor {α : Type} [Field α] (k : NavierStokesTau α) (d : FieldData α)
    (cell qp : Nat) :
    quadSum k d cell qp = k.rho * k.rho *
      ∑ i in Finset.range k.numDims, ∑ j in Finset.range k.numDims,
        d.V cell qp i * d.Gc cell qp i j * d.V cell qp j := by
  simp only [quadSum, Finset.mul_sum, mul_assoc]

/-- Over the reals the second accumulation is positive as soon as one entry of `Gc` is
not zero. -/
theorem normSum_pos (k : NavierStokesTau ℝ) (d : FieldData ℝ) (cell qp : Nat)
    (hG : ∃ i j, i < k.numDims ∧ j < k.numDims ∧ d.Gc cell qp i j ≠ 0) :
    0 < normSum k d cell qp := by
  obtain ⟨i, j, hi, hj, hij⟩ := hG
  unfold normSum
  have hrow : ∀ i' ∈ Finset.range k.numDims,
      0 ≤ ∑ j' in Finset.range k.numDims, d.Gc cell qp i' j' * d.Gc cell qp i' j' :=
    fun i' _ => Finset.sum_nonneg (fun j' _ => mul_self_nonneg _)
  have hcell : 0 < d.Gc cell qp i j * d.Gc cell qp i j := mul_self_pos.mpr hij
  have hrowi : 0 < ∑ j' in Finset.range k.numDims, d.Gc cell qp i j' * d.Gc cell qp i j' :=
    lt_of_lt_of_le hcell
      (Finset.single_le_sum (f := fun j' => d.Gc cell qp i j' * d.Gc cell qp i j')
        (fun j' _ => mul_self_nonneg _) (Finset.mem_range.mpr hj))
  exact lt_of_lt_of_le hrowi
    (Finset.single_le_sum
      (f := fun i' => ∑ j' in Finset.range k.numDims, d.Gc cell qp i' j' * d.Gc cell qp i' j')
      hrow (Finset.mem_range.mpr hi))

/-- C4 (amended): in exact real arithmetic, for every velocity `V` and density `rho`,
whenever `mu > 0`, the quadratic form `Σ_ij V_i*Gc_ij*V_j` is non-negative and `Gc` has a
non-zero entry with `i, j < numDims` (both hold for every positive definite metric
tensor), the radicand that `evaluateFields` passes to the outer square root is strictly
positive. -/
theorem radicand_pos (k : NavierStokesTau ℝ) (d : FieldData ℝ) (cell qp : Nat)
    (hmu : 0 < k.mu)
    (hQ : 0 ≤ ∑ i in Finset.range k.numDims, ∑ j in Finset.range k.numDims,
        d.V cell qp i * d.Gc cell qp i j * d.V cell qp j)
    (hG : ∃ i j, i < k.numDims ∧ j < k.numDims ∧ d.Gc cell qp i j ≠ 0) :
    0 < radicand Real.sqrt k cell qp d := by
  rw [radicand_eq, quadSum_factor]
  have h1 : 0 ≤ k.rho * k.rho *
      ∑ i in Finset.range k.numDims, ∑ j in Finset.range k.numDims,
        d.V cell qp i * d.Gc cell qp i j * d.V cell qp j :=
    mul_nonneg (mul_self_nonneg _) hQ
  have h2 : 0 < Real.sqrt (normSum k d cell qp) :=
    Real.sqrt_pos.mpr (normSum_pos k d cell qp hG)
  have h3 : 0 < 12 * k.mu * k.mu := by positivity
  have h4 : 0 < 12 * k.mu * k.mu * Real.sqrt (normSum k d cell qp) := mul_pos h3 h2
  linarith

/-- Witness of the amended C4 over the reals: `V = [1,0]`, identity metric,
`mu = rho = 1`. -/
theorem radicand_pos_witness :
    0 < radicand Real.sqrt (sampleKernel ℝ 2 1 1 StabType.SHAKIBHUGHES) 0 0
      (sampleData (e1 ℝ) (idMetric ℝ) 0 0) :=
  radicand_pos (sampleKernel ℝ 2 1 1 StabType.SHAKIBHUGHES)
    (sampleData (e1 ℝ) (idMetric ℝ) 0 0) 0 0
    (by simp [sampleKernel])
    (by simp [sampleKernel, sampleData, e1, idMetric, Finset.sum_range_succ])
    ⟨0, 0, by decide, by decide, by simp [sampleData, idMetric]⟩

/-- What a successful construction stores in the selector: decided by the
"Stabilization Type" entry alone. -/
theorem new_stab_type {α : Type} (p : ParameterList α) (dl : Layouts) (k : NavierStokesTau α)
    (h : NavierStokesTau.new p dl = Except.ok k) :
    ∃ s, p.strings "Stabilization Type" = some s ∧ k.stabType = s ∧
      k.stab_type = (if s = "Shakib-Hughes" then some StabType.SHAKIBHUGHES
        else if s = "Tsunami" then some StabType.TSUNAMI else none) := by
  unfold NavierStokesTau.new ParameterList.getString ParameterList.getDouble at h
  cases h1 : p.strings "Velocity QP Variable Name" <;> rw [h1] at h
  · cases h
  cases h2 : p.strings "Contravarient Metric Tensor Name" <;> rw [h2] at h
  · cases h
  cases h3 : p.strings "Jacobian Det Name" <;> rw [h3] at h
  · cases h
  cases h4 : p.strings "Tau Name" <;> rw [h4] at h
  · cases h
  cases h5 : p.doubles "Viscosity" <;> rw [h5] at h
  · cases h
  cases h6 : p.doubles "Density" <;> rw [h6] at h
  · cases h
  cases h7 : p.strings "Stabilization Type" with
  | none => rw [h7] at h; cases h
  | some s =>
    rw [h7] at h
    refine ⟨s, rfl, ?_⟩
    cases h
    exact ⟨rfl, rfl⟩

/-- The construction succeeds on the sample parameter list, whatever the stabilization
type string. -/
theorem new_sampleParams (α : Type) [Field α] (stab : String) (dl : Layouts) :
    NavierStokesTau.new (sampleParams α stab) dl = Except.ok
      { V_name := "Velocity", Gc_name := "Gc", jacobian_det_name := "Jacobian Det",
        Tau_name := "Tau", numCells := dl.qp_gradient.1, numQPs := dl.qp_gradient.2.1,
        numDims := dl.qp_gradient.2.2, mu := 1, rho := 1, stabType := stab,
        stab_type := (if stab = "Shakib-Hughes" then some StabType.SHAKIBHUGHES
          else if stab = "Tsunami" then some StabType.TSUNAMI else none) } := by
  rfl

/-- C5 (the code at the failing input): the kernel constructed from a parameter list with
"Stabilization Type" = "Tsunami" gets the selector `TSUNAMI`, and `evaluateFields` on it
returns normally with `Tau(0,0)` still holding its prior content `7`: no error is raised
and nothing is computed. -/
theorem evaluateFields_tsunami_stale :
    ∃ k, NavierStokesTau.new (sampleParams ℝ "Tsunami") (Layouts.mk (1, 1, 2)) = Except.ok k
      ∧ k.stab_type = some StabType.TSUNAMI
      ∧ (evaluateFields Real.sqrt k (Workset.mk 1)
          (sampleData (e1 ℝ) (idMetric ℝ) 7 9)).Tau 0 0 = 7 := by
  refine ⟨_, new_sampleParams ℝ "Tsunami" (Layouts.mk (1, 1, 2)), by decide, ?_⟩
  simp [evaluateFields, sampleData]

/-- The defect behind C5 for every kernel: when the configured stabilization type is
"Tsunami", `evaluateFields` returns without writing anything, for every scalar field and
whatever the buffers hold. -/
theorem evaluateFields_tsunami_noop {α : Type} [Field α] (sqrt : α → α)
    (p : ParameterList α) (dl : Layouts) (k : NavierStokesTau α)
    (workset : Workset) (d : FieldData α)
    (hnew : NavierStokesTau.new p dl = Except.ok k)
    (hs : p.strings "Stabilization Type" = some "Tsunami") :
    evaluateFields sqrt k workset d = d := by
  obtain ⟨s, hs1, _, hst⟩ := new_stab_type p dl k hnew
  rw [hs] at hs1
  cases hs1
  have hk : k.stab_type = some StabType.TSUNAMI := by rw [hst]; decide
  unfold evaluateFields
  rw [hk]
  rfl

/-- The statement for every kernel at the sample parameter list with "Tsunami": the buffers
are left as they were. -/
theorem evaluateFields_tsunami_noop_witness :
    ∃ k, NavierStokesTau.new (sampleParams ℝ "Tsunami") (Layouts.mk (1, 1, 2)) = Except.ok k
      ∧ evaluateFields Real.sqrt k (Workset.mk 1) (sampleData (e1 ℝ) (idMetric ℝ) 7 9)
        = sampleData (e1 ℝ) (idMetric ℝ) 7 9 :=
  ⟨_, new_sampleParams ℝ "Tsunami" (Layouts.mk (1, 1, 2)),
    evaluateFields_tsunami_noop Real.sqrt (sampleParams ℝ "Tsunami") (Layouts.mk (1, 1, 2)) _
      (Workset.mk 1) (sampleData (e1 ℝ) (idMetric ℝ) 7 9)
      (new_sampleParams ℝ "Tsunami" (Layouts.mk (1, 1, 2))) rfl⟩

/-- C6 (the code at the failing input): constructing the kernel with the stabilization type
"SUPG", which is neither "Shakib-Hughes" nor "Tsunami", succeeds and yields a kernel whose
selector was never assigned. -/
theorem new_unknown_stab_type_succeeds :
    ∃ k, NavierStokesTau.new (sampleParams ℚ "SUPG") (Layouts.mk (1, 1, 2)) = Except.ok k
      ∧ k.stabType = "SUPG" ∧ k.stab_type = none :=
  ⟨_, new_sampleParams ℚ "SUPG" (Layouts.mk (1, 1, 2)), rfl, by decide⟩

/-- The sibling path of C6: a missing "Stabilization Type" key makes the constructor fail. -/
theorem new_missing_stab_type_fails {α : Type} (p : ParameterList α) (dl : Layouts)
    (h : p.strings "Stabilization Type" = none) :
    ∀ k, NavierStokesTau.new p dl ≠ Except.ok k := by
  intro k hk
  obtain ⟨s, hs, _⟩ := new_stab_type p dl k hk
  rw [h] at hs
  cases hs

end Tsunami

namespace LCM

/-- C9: the infinitesimal strain the HMC problem wires in,
`eps(c,p,i,j) = 1/2 * (gradU(c,p,i,j) + gradU(c,p,j,i))`, is symmetric: for every
displacement gradient and all cells `c`, points `p` and indices `i`, `j`,
`eps(c,p,i,j) = eps(c,p,j,i)` exactly. -/
theorem Strain_symmetric {α : Type} [Field α] (gradU : Nat → Nat → Nat → Nat → α)
    (c p i j : Nat) : Strain gradU c p i j = Strain gradU c p j i := by
  unfold Strain
  rw [add_comm]

end LCM

namespace LandIce

/-- The guarded `requireField` never indexes an empty list. -/
theorem requireIfEvaluates_eq (fm : FieldManager) (ev : Evaluator) :
    requireIfEvaluates fm ev = some (requiredAfterSave fm ev) := by
  unfold requireIfEvaluates requireFirstEvaluated requiredAfterSave
  cases h : ev.evaluatedFields with
  | nil => simp
  | cons tag rest => simp

/-- Nothing is required on behalf of an evaluator without evaluated fields. -/
theorem requiredAfterSave_nil (fm : FieldManager) (ev : Evaluator)
    (h : ev.evaluatedFields = []) : requiredAfterSave fm ev = fm := by
  unfold requiredAfterSave
  rw [h]

/-- C10: a Save evaluator with an empty evaluated-field list is a zero-output leaf. In
`constructStatesEvaluators` (volume and side-set fields) and in
`constructVelocityEvaluators` (dissipation heat and stress tensor), every fragment returns
normally, so `evaluatedFields()[0]` is never indexed on an empty list; the Save evaluator
is registered, and `requireField` is called with its first evaluated field only when the
list is non-empty: for an empty list the required fields are those required before. -/
theorem save_nodes_zero_output_leaf (fieldUsage : String) (flag : Bool)
    (choice : FieldManagerChoice) (ev1 ev2 saveEv : Evaluator) (fm : FieldManager)
    (states : List String) :
    (constructStatesEvaluators_saveVolume fieldUsage saveEv fm = some
        (if fieldUsage = "Output" ∨ fieldUsage = "Input-Output" then
          requiredAfterSave (fm.registerEvaluator saveEv) saveEv else fm))
    ∧ (constructStatesEvaluators_saveSideSet fieldUsage saveEv fm = some
        (if fieldUsage = "Output" ∨ fieldUsage = "Input-Output" then
          requiredAfterSave (fm.registerEvaluator saveEv) saveEv else fm))
    ∧ (constructVelocityEvaluators_saveDissipation flag choice ev1 ev2 saveEv (fm, states) = some
        (if flag = true then
          (if choice = FieldManagerChoice.BUILD_RESID_FM then
            requiredAfterSave
              (((fm.registerEvaluator ev1).registerEvaluator ev2).registerEvaluator saveEv) saveEv
           else ((fm.registerEvaluator ev1).registerEvaluator ev2).registerEvaluator saveEv,
           states ++ ["dissipation_heat"])
         else (fm, states)))
    ∧ (constructVelocityEvaluators_saveStress flag choice ev2 saveEv (fm, states) = some
        (if flag = true then
          (if choice = FieldManagerChoice.BUILD_RESID_FM then
            requiredAfterSave ((fm.registerEvaluator ev2).registerEvaluator saveEv) saveEv
           else (fm.registerEvaluator ev2).registerEvaluator saveEv,
           states ++ ["Stress Tensor"])
         else (fm, states)))
    ∧ (saveEv.evaluatedFields = [] →
        (requiredAfterSave (fm.registerEvaluator saveEv) saveEv).required = fm.required
        ∧ (requiredAfterSave
            (((fm.registerEvaluator ev1).registerEvaluator ev2).registerEvaluator saveEv)
            saveEv).required = fm.required
        ∧ (requiredAfterSave ((fm.registerEvaluator ev2).registerEvaluator saveEv)
            saveEv).required = fm.required) := by
  refine ⟨?_, ?_, ?_, ?_, ?_⟩
  · unfold constructStatesEvaluators_saveVolume
    split_ifs
    · exact requireIfEvaluates_eq _ _
    · rfl
  · unfold constructStatesEvaluators_saveSideSet
    split_ifs
    · exact requireIfEvaluates_eq _ _
    · rfl
  · unfold constructVelocityEvaluators_saveDissipation
    cases flag
    · rfl
    · by_cases hc : choice = FieldManagerChoice.BUILD_RESID_FM
      · simp [hc, requireIfEvaluates_eq]
      · simp [hc]
  · unfold constructVelocityEvaluators_saveStress
    cases flag
    · rfl
    · by_cases hc : choice = FieldManagerChoice.BUILD_RESID_FM
      · simp [hc, requireIfEvaluates_eq]
      · simp [hc]
  · intro h
    rw [requiredAfterSave_nil _ _ h, requiredAfterSave_nil _ _ h, requiredAfterSave_nil _ _ h]
    exact ⟨rfl, rfl, rfl⟩

/-- Witness of C10: a Save evaluator of a non-residual evaluation type, with no evaluated
field, on an empty field manager. -/
theorem save_nodes_zero_output_leaf_witness :
    constructStatesEvaluators_saveVolume "Output" (Evaluator.mk "SaveStateField" []) (FieldManager.mk [] [])
      = some (FieldManager.mk [Evaluator.mk "SaveStateField" []] [])
    ∧ (requiredAfterSave
        ((FieldManager.mk [] []).registerEvaluator (Evaluator.mk "SaveStateField" []))
        (Evaluator.mk "SaveStateField" [])).required = [] :=
  ⟨(save_nodes_zero_output_leaf "Output" true FieldManagerChoice.BUILD_RESID_FM
      (Evaluator.mk "Dissipation" [Tag.mk "LandIce Dissipation"])
      (Evaluator.mk "Interpolation" [Tag.mk "LandIce Dissipation Cell"])
      (Evaluator.mk "SaveStateField" []) (FieldManager.mk [] []) []).1,
   ((save_nodes_zero_output_leaf "Output" true FieldManagerChoice.BUILD_RESID_FM
      (Evaluator.mk "Dissipation" [Tag.mk "LandIce Dissipation"])
      (Evaluator.mk "Interpolation" [Tag.mk "LandIce Dissipation Cell"])
      (Evaluator.mk "SaveStateField" []) (FieldManager.mk [] []) []).2.2.2.2 rfl).1⟩

end LandIce

namespace HMCProblem

/-- A loop that registers one evaluator per element appends the evaluators in order. -/
theorem foldl_registerEvaluator {β : Type} (l : List β) (f : β → Ev) (s : State) :
    l.foldl (fun s i => s.registerEvaluator (f i)) s
      = { s with evaluators := s.evaluators ++ l.map f } := by
  induction l generalizing s with
  | nil => simp
  | cons a l ih =>
    rw [List.foldl_cons, ih]
    simp [State.registerEvaluator]

/-- A loop that requires one field per element appends the fields in order. -/
theorem foldl_requireField {β : Type} (l : List β) (f : β → String) (s : State) :
    l.foldl (fun s i => s.requireField (f i)) s
      = { s with required := s.required ++ l.map f } := by
  induction l generalizing s with
  | nil => simp
  | cons a l ih =>
    rw [List.foldl_cons, ih]
    simp [State.requireField]

/-- The loop over the state variables of the constitutive model interface. -/
theorem foldl_stateVars (l : List String) (s : State) :
    l.foldl (fun s name =>
        (s.registerStateVariable name).registerEvaluator (Ev.SaveStateField name)) s
      = { s with evaluators := s.evaluators ++ l.map Ev.SaveStateField,
                 states := s.states ++ l } := by
  induction l generalizing s with
  | nil => simp
  | cons a l ih =>
    rw [List.foldl_cons, ih]
    simp [State.registerEvaluator, State.registerStateVariable]

/-- The evaluators of the kinematics part, in registration order. -/
theorem kinematics_eq (cfg : Config) (s : State) :
    kinematics cfg s = { s with evaluators := s.evaluators ++
      ([Ev.constructGatherSolutionEvaluator_withAcceleration 1 macro_dof_names
          macro_dof_names_dotdot none]
      ++ (List.range cfg.numMicroScales).map (fun i =>
          Ev.constructGatherSolutionEvaluator_withAcceleration 2 (micro_dof_names i)
            (micro_dof_names_dotdot i) (some (cfg.numDim + i * (cfg.numDim * cfg.numDim))))
      ++ [Ev.constructGatherCoordinateVectorEvaluator,
          Ev.constructComputeBasisFunctionsEvaluator,
          Ev.constructDOFVecInterpolationEvaluator "Displacement"]
      ++ (List.range cfg.numMicroScales).map (fun i =>
          Ev.constructDOFTensorInterpolationEvaluator (dofname i)
            (cfg.numDim + i * (cfg.numDim * cfg.numDim)))
      ++ [Ev.constructDOFVecInterpolationEvaluator "Displacement_dotdot"]
      ++ (List.range cfg.numMicroScales).map (fun i =>
          Ev.constructDOFTensorInterpolationEvaluator (dofname i ++ "_dotdot")
            (cfg.numDim + i * (cfg.numDim * cfg.numDim)))
      ++ [Ev.constructMapToPhysicalFrameEvaluator,
          Ev.constructDOFVecGradInterpolationEvaluator "Displacement"]
      ++ (List.range cfg.numMicroScales).map (fun i =>
          Ev.constructDOFTensorGradInterpolationEvaluator (dofname i)
            (cfg.numDim + i * (cfg.numDim * cfg.numDim)))
      ++ [Ev.Strain
          [("Gradient QP Variable Name", "Displacement Gradient"), ("Strain Name", "Strain")]]
      ++ (List.range cfg.numMicroScales).map (fun i =>
          Ev.StrainDifference
            [("Micro Strain Name", dofname i), ("Macro Strain Name", "Strain"),
             ("Strain Difference Name", "Strain Difference " ++ toString i)])) } := by
  unfold kinematics
  simp only [foldl_registerEvaluator]
  simp only [State.registerEvaluator, micro_dof_names,
    micro_dof_names_dotdot, macro_dof_names, macro_dof_names_dotdot, List.headD_cons,
    List.append_assoc, List.cons_append, List.nil_append]
  rfl

/-- The kinematics part requires no field and registers no state. -/
theorem kinematics_frame (cfg : Config) (s : State) :
    (kinematics cfg s).required = s.required ∧ (kinematics cfg s).states = s.states := by
  rw [kinematics_eq]
  exact ⟨rfl, rfl⟩

/-- The constitutive part: evaluators and states in registration order. -/
theorem constitutive_eq (cfg : Config) (matName : String) (s : State) :
    constitutive cfg matName s = { s with
      evaluators := s.evaluators ++
        ([Ev.ConstitutiveModelParameters matName, Ev.ConstitutiveModelInterface matName]
        ++ cfg.stateVars.map Ev.SaveStateField
        ++ [Ev.TotalStress cfg.numMicroScales
          ([("Macro Stress Name", "Stress")]
            ++ (List.range cfg.numMicroScales).map
                (fun i => (cfg.strint "Micro Stress" i ++ " Name", cfg.strint "Micro Stress" i))
            ++ [("Total Stress Name", "Total Stress")])]),
      states := s.states ++ cfg.stateVars } := by
  unfold constitutive
  simp only [foldl_stateVars]
  simp only [State.registerEvaluator, List.append_assoc, List.cons_append,
    List.nil_append]

/-- The residual part, in registration order. -/
theorem residuals_eq (cfg : Config) (s : State) :
    residuals cfg s = { s with evaluators := s.evaluators ++
      ([Ev.ElasticityResid
          [("Stress Name", "Total Stress"), ("Weighted Gradient BF Name", "wGrad BF"),
           ("Weighted BF Name", "wBF"),
           ("Time Dependent Variable Name", "Displacement_dotdot"),
           ("Residual Name", "Displacement Residual")]]
      ++ (List.range cfg.numMicroScales).map (fun i =>
          Ev.MicroResidual
            [("Micro Stress Name", cfg.strint "Micro Stress" i),
             ("Double Stress Name", cfg.strint "Double Stress" i),
             ("Weighted Gradient BF Name", "wGrad BF"), ("Weighted BF Name", "wBF"),
             ("Time Dependent Variable Name", dofname i ++ "_dotdot"),
             ("Residual Name", dofname i ++ " Residual")])) } := by
  unfold residuals
  simp only [foldl_registerEvaluator]
  simp only [State.registerEvaluator, micro_dof_names,
    micro_resid_names, macro_dof_names, macro_resid_names, macro_dof_names_dotdot,
    List.headD_cons, List.append_assoc, List.cons_append, List.nil_append]
  rfl

/-- The scatter loop after `n` iterations: the running offset handed to scale `i` is
`numDim + i*(numDim*numDim)`. -/
theorem scatter_loop (cfg : Config) (s : State) (n : Nat) :
    (List.range n).foldl (fun (acc : State × Int) i =>
      (acc.1.registerEvaluator (Ev.constructScatterResidualEvaluator 2
          (micro_resid_names i) (some acc.2) (some ((micro_scatter_names i).headD ""))),
       acc.2 + cfg.numDim * cfg.numDim)) (s, cfg.numDim)
    = ({ s with evaluators := s.evaluators ++ (List.range n).map (fun i =>
          Ev.constructScatterResidualEvaluator 2 [dofname i ++ " Residual"]
            (some (cfg.numDim + i * (cfg.numDim * cfg.numDim)))
            (some (dofname i ++ " Scatter"))) },
       cfg.numDim + n * (cfg.numDim * cfg.numDim)) := by
  induction n with
  | zero => simp
  | succ n ih =>
    rw [List.range_succ, List.foldl_append, ih]
    simp only [List.foldl_cons, List.foldl_nil, State.registerEvaluator, List.map_append,
      List.map_cons, List.map_nil, List.append_assoc, micro_resid_names, micro_scatter_names,
      List.headD_cons]
    refine Prod.ext rfl ?_
    simp only
    push_cast
    ring

/-- The scatter part, in registration order, with the final running offset. -/
theorem scatter_eq (cfg : Config) (s : State) :
    scatter cfg s = ({ s with evaluators := s.evaluators ++
      ([Ev.constructScatterResidualEvaluator 1 ["Displacement Residual"] none none]
      ++ (List.range cfg.numMicroScales).map (fun i =>
          Ev.constructScatterResidualEvaluator 2 [dofname i ++ " Residual"]
            (some (cfg.numDim + i * (cfg.numDim * cfg.numDim)))
            (some (dofname i ++ " Scatter")))) },
      cfg.numDim + cfg.numMicroScales * (cfg.numDim * cfg.numDim)) := by
  unfold scatter
  simp only [scatter_loop]
  simp only [State.registerEvaluator, List.append_assoc, macro_resid_names, macro_dof_names,
    List.headD_cons]
  rfl

/-- The time part. -/
theorem time_eq (s : State) :
    time s = { s with
      evaluators := s.evaluators ++
        [Ev.Time [("Time Name", "Time"), ("Delta Time Name", "Delta Time")],
         Ev.SaveStateField "Time"],
      states := s.states ++ ["Time"] } := by
  simp [time, State.registerEvaluator, State.registerStateVariable]

/-- The state handed to the last part of `constructEvaluators`, for the material `matName`. -/
theorem assembled_frame (cfg : Config) (matName : String) (s : State) :
    (time (scatter cfg (residuals cfg (constitutive cfg matName (kinematics cfg s)))).1).required
      = s.required
    ∧ (time (scatter cfg (residuals cfg (constitutive cfg matName (kinematics cfg s)))).1).states
      = s.states ++ cfg.stateVars ++ ["Time"] := by
  rw [time_eq, scatter_eq, residuals_eq, constitutive_eq, kinematics_eq]
  exact ⟨rfl, rfl⟩

theorem digitVal_digitChar (k : Nat) (h : k < 10) : digitVal (Nat.digitChar k) = k := by
  interval_cases k <;> rfl

theorem decimalVal_append_singleton (xs : List Char) (c : Char) :
    decimalVal (xs ++ [c]) = 10 * decimalVal xs + digitVal c := by
  simp [decimalVal, List.foldl_append]

/-- The digits produced by `Nat.toDigitsCore` with enough fuel denote the number. -/
theorem toDigitsCore_decimalVal (fuel : Nat) :
    ∀ (n : Nat) (ds : List Char), n < fuel →
      ∃ xs, Nat.toDigitsCore 10 fuel n ds = xs ++ ds ∧ decimalVal xs = n := by
  induction fuel with
  | zero => intro n ds h; exact absurd h (Nat.not_lt_zero n)
  | succ fuel ih =>
    intro n ds h
    unfold Nat.toDigitsCore
    by_cases h0 : n / 10 = 0
    · simp only [h0, if_true]
      refine ⟨[Nat.digitChar (n % 10)], rfl, ?_⟩
      have hn : n < 10 := by omega
      rw [Nat.mod_eq_of_lt hn]
      simp [decimalVal, digitVal_digitChar n hn]
    · simp only [h0, if_false]
      have hlt : n / 10 < fuel := by omega
      obtain ⟨xs, hxs, hval⟩ := ih (n / 10) (Nat.digitChar (n % 10) :: ds) hlt
      refine ⟨xs ++ [Nat.digitChar (n % 10)], ?_, ?_⟩
      · rw [hxs]; simp
      · rw [decimalVal_append_singleton, hval,
          digitVal_digitChar (n % 10) (Nat.mod_lt n (by decide))]
        omega

/-- The decimal representation determines the number. -/
theorem decimalVal_toString (n : Nat) : decimalVal (toString n).data = n := by
  obtain ⟨xs, hxs, hval⟩ := toDigitsCore_decimalVal (n + 1) n [] (Nat.lt_succ_self n)
  have : (toString n).data = xs := by
    show (Nat.repr n).data = xs
    simp only [Nat.repr, Nat.toDigits, List.asString, hxs, List.append_nil]
  rw [this, hval]

theorem toString_nat_inj (i j : Nat) (h : toString i = toString j) : i = j := by
  have := congrArg (fun s => decimalVal s.data) h
  simpa [decimalVal_toString] using this

theorem dofname_inj (i j : Nat) (h : dofname i = dofname j) : i = j := by
  unfold dofname at h
  have h2 := congrArg String.data h
  simp only [String.data_append, List.append_cancel_left_eq] at h2
  exact toString_nat_inj i j (String.ext h2)

theorem append_right_inj_string (a b c : String) (h : a ++ c = b ++ c) : a = b := by
  have h2 := congrArg String.data h
  simp only [String.data_append, List.append_cancel_right_eq] at h2
  exact String.ext h2

/-- Every micro name starts with the letter M. -/
theorem dofname_head (i : Nat) (suffix : String) :
    (dofname i ++ suffix).data.head? = some 'M' := by
  simp [dofname, String.data_append]

/-- When both configuration checks pass and the material is found, `constructEvaluators`
runs its parts in order and returns what the last part returns. -/
theorem constructEvaluators_ok (cfg : Config)
    (constructResponses : State → Option LandIce.Tag × State) (s : State) (m matName : String)
    (hm : cfg.modelName = some m) (hlen : m.length ≠ 0)
    (hflag : cfg.vectorAndGradientLayoutsAreEquivalent = true)
    (hmat : cfg.material = some matName) :
    constructEvaluators cfg constructResponses s =
      (Except.ok (roots cfg constructResponses (time (scatter cfg (residuals cfg
        (constitutive cfg matName (kinematics cfg s)))).1)).1,
       (roots cfg constructResponses (time (scatter cfg (residuals cfg
        (constitutive cfg matName (kinematics cfg s)))).1)).2) := by
  unfold constructEvaluators
  simp only [hm, hmat, hflag, if_neg hlen]
  simp

/-- The roots required for the residual field manager. -/
theorem roots_resid (cfg : Config) (constructResponses : State → Option LandIce.Tag × State)
    (s : State) (h : cfg.fieldManagerChoice = LandIce.FieldManagerChoice.BUILD_RESID_FM) :
    roots cfg constructResponses s = (some (LandIce.Tag.mk "Scatter"),
      { s with required := s.required ++
          "Scatter" :: (List.range cfg.numMicroScales).map (fun i => dofname i ++ " Scatter") }) := by
  unfold roots
  rw [if_pos h]
  simp only [foldl_requireField]
  simp [State.requireField, micro_scatter_names]

/-- C11: `constructEvaluators` reports configuration errors before touching the graph: if the
material "Model Name" of the element block is the empty string, or if the flag
`vectorAndGradientLayoutsAreEquivalent` of the layouts is false, it fails with
`std::logic_error`, and the field manager and the state manager are as they were: no
evaluator registered, no field required, no state variable registered. -/
theorem constructEvaluators_config_errors (cfg : Config)
    (constructResponses : State → Option LandIce.Tag × State) (s : State)
    (h : cfg.modelName = some "" ∨
      (∃ m, cfg.modelName = some m) ∧ cfg.vectorAndGradientLayoutsAreEquivalent = false) :
    ∃ msg, constructEvaluators cfg constructResponses s
      = (Except.error (Error.logic_error msg), s) := by
  unfold constructEvaluators
  rcases h with h | ⟨⟨m, hm⟩, hflag⟩
  · rw [h]
    exact ⟨_, rfl⟩
  · rw [hm]
    by_cases hlen : m.length = 0
    · simp only [if_pos hlen]
      exact ⟨_, rfl⟩
    · simp only [if_neg hlen, hflag, if_true]
      exact ⟨_, rfl⟩

/-- Witness of C11: the sample block with an empty model name, and with the layout flag
false, on a state manager and field manager that already hold entries. -/
theorem constructEvaluators_config_errors_witness :
    (∃ msg, constructEvaluators
        { sampleConfig LandIce.FieldManagerChoice.BUILD_RESID_FM with modelName := some "" }
        noResponses { evaluators := [Ev.constructGatherCoordinateVectorEvaluator],
                      required := ["Scatter"], states := ["Time"] }
      = (Except.error (Error.logic_error msg),
          { evaluators := [Ev.constructGatherCoordinateVectorEvaluator],
            required := ["Scatter"], states := ["Time"] }))
    ∧ (∃ msg, constructEvaluators
        { sampleConfig LandIce.FieldManagerChoice.BUILD_RESID_FM with
          vectorAndGradientLayoutsAreEquivalent := false }
        noResponses emptyState = (Except.error (Error.logic_error msg), emptyState)) :=
  ⟨constructEvaluators_config_errors _ noResponses _ (Or.inl rfl),
   constructEvaluators_config_errors _ noResponses emptyState (Or.inr ⟨⟨"HMC", rfl⟩, rfl⟩)⟩

/-- C12: for every `numDim` and every micro scale `i < numMicroScales`, the gather, the two
tensor-interpolation evaluators and the tensor-gradient-interpolation evaluator of scale
`i` are registered with the offset `dof_offset + i*dof_stride = numDim + i*numDim^2`, and
the scatter evaluators are, in order, the macro one followed by one per micro scale whose
running `dofOffset` is the same `numDim + i*numDim^2`; after the loop `dofOffset` is
`numDim + numMicroScales*numDim^2`. -/
theorem micro_offsets_agree (cfg : Config) (s s' : State) (i : Nat)
    (hi : i < cfg.numMicroScales) :
    Ev.constructGatherSolutionEvaluator_withAcceleration 2 (micro_dof_names i)
        (micro_dof_names_dotdot i) (some (cfg.numDim + i * cfg.numDim ^ 2))
      ∈ (kinematics cfg s).evaluators
    ∧ Ev.constructDOFTensorInterpolationEvaluator (dofname i) (cfg.numDim + i * cfg.numDim ^ 2)
      ∈ (kinematics cfg s).evaluators
    ∧ Ev.constructDOFTensorInterpolationEvaluator (dofname i ++ "_dotdot")
        (cfg.numDim + i * cfg.numDim ^ 2) ∈ (kinematics cfg s).evaluators
    ∧ Ev.constructDOFTensorGradInterpolationEvaluator (dofname i)
        (cfg.numDim + i * cfg.numDim ^ 2) ∈ (kinematics cfg s).evaluators
    ∧ (scatter cfg s').1.evaluators = s'.evaluators ++
        Ev.constructScatterResidualEvaluator 1 ["Displacement Residual"] none none ::
        (List.range cfg.numMicroScales).map (fun j =>
          Ev.constructScatterResidualEvaluator 2 (micro_resid_names j)
            (some (cfg.numDim + j * cfg.numDim ^ 2)) (some (dofname j ++ " Scatter")))
    ∧ (scatter cfg s').2 = cfg.numDim + cfg.numMicroScales * cfg.numDim ^ 2 := by
  have hr : i ∈ List.range cfg.numMicroScales := List.mem_range.mpr hi
  refine ⟨?_, ?_, ?_, ?_, ?_, ?_⟩
  · rw [kinematics_eq, pow_two]
    simp only [List.mem_append, List.mem_map]
    exact Or.inr (Or.inl (Or.inl (Or.inl (Or.inl (Or.inl (Or.inl (Or.inl (Or.inl
      (Or.inr ⟨i, hr, rfl⟩)))))))))
  · rw [kinematics_eq, pow_two]
    simp only [List.mem_append, List.mem_map]
    exact Or.inr (Or.inl (Or.inl (Or.inl (Or.inl (Or.inl (Or.inl (Or.inr ⟨i, hr, rfl⟩)))))))
  · rw [kinematics_eq, pow_two]
    simp only [List.mem_append, List.mem_map]
    exact Or.inr (Or.inl (Or.inl (Or.inl (Or.inl (Or.inr ⟨i, hr, rfl⟩)))))
  · rw [kinematics_eq, pow_two]
    simp only [List.mem_append, List.mem_map]
    exact Or.inr (Or.inl (Or.inl (Or.inr ⟨i, hr, rfl⟩)))
  · rw [scatter_eq]
    simp only [pow_two, micro_resid_names]
    rfl
  · rw [scatter_eq, pow_two]

/-- Witness of C12: scale 1 of the sample configuration (three dimensions, two scales) has
offset `3 + 1*3^2 = 12` throughout. -/
theorem micro_offsets_agree_witness :
    Ev.constructDOFTensorInterpolationEvaluator (dofname 1) ((3 : Int) + (1 : Nat) * 3 ^ 2)
      ∈ (kinematics (sampleConfig LandIce.FieldManagerChoice.BUILD_RESID_FM) emptyState).evaluators
    ∧ (scatter (sampleConfig LandIce.FieldManagerChoice.BUILD_RESID_FM) emptyState).2
      = (3 : Int) + (2 : Nat) * 3 ^ 2 :=
  ⟨(micro_offsets_agree (sampleConfig LandIce.FieldManagerChoice.BUILD_RESID_FM)
      emptyState emptyState 1 (by decide)).2.1,
   (micro_offsets_agree (sampleConfig LandIce.FieldManagerChoice.BUILD_RESID_FM)
      emptyState emptyState 1 (by decide)).2.2.2.2.2⟩

/-- C13: `constructEvaluators` marks the roots of the graph by field-manager choice. With
both configuration checks passed and the material found, let `pre` be the field manager
and state manager after the last registration; nothing has been required so far. For
`BUILD_RESID_FM` the call requires exactly "Scatter" and then "Microstrain_i Scatter" for
each `i < numMicroScales`, the name given to the scatter evaluator of scale `i`, and
returns the tag "Scatter"; for `BUILD_RESPONSE_FM` it returns what `constructResponses`
returns on `pre`; for any other choice it returns null and requires nothing. -/
theorem constructEvaluators_roots (cfg : Config)
    (constructResponses : State → Option LandIce.Tag × State) (s : State) (m matName : String)
    (hm : cfg.modelName = some m) (hlen : m.length ≠ 0)
    (hflag : cfg.vectorAndGradientLayoutsAreEquivalent = true)
    (hmat : cfg.material = some matName) :
    ∃ pre : State, pre.required = s.required
      ∧ (∀ i, i < cfg.numMicroScales →
          Ev.constructScatterResidualEvaluator 2 (micro_resid_names i)
            (some (cfg.numDim + i * cfg.numDim ^ 2)) (some (dofname i ++ " Scatter"))
          ∈ pre.evaluators)
      ∧ (cfg.fieldManagerChoice = LandIce.FieldManagerChoice.BUILD_RESID_FM →
          constructEvaluators cfg constructResponses s =
            (Except.ok (some (LandIce.Tag.mk "Scatter")),
             { pre with required := s.required ++ "Scatter" ::
                (List.range cfg.numMicroScales).map (fun i => dofname i ++ " Scatter") }))
      ∧ (cfg.fieldManagerChoice = LandIce.FieldManagerChoice.BUILD_RESPONSE_FM →
          constructEvaluators cfg constructResponses s =
            (Except.ok (constructResponses pre).1, (constructResponses pre).2))
      ∧ (cfg.fieldManagerChoice ≠ LandIce.FieldManagerChoice.BUILD_RESID_FM →
          cfg.fieldManagerChoice ≠ LandIce.FieldManagerChoice.BUILD_RESPONSE_FM →
          constructEvaluators cfg constructResponses s = (Except.ok none, pre)) := by
  have hpre := (assembled_frame cfg matName s).1
  refine ⟨time (scatter cfg (residuals cfg (constitutive cfg matName (kinematics cfg s)))).1,
    hpre, ?_, ?_, ?_, ?_⟩
  · intro i hi
    rw [time_eq, scatter_eq]
    simp only [List.mem_append, List.mem_map, pow_two, micro_resid_names]
    exact Or.inl (Or.inr (Or.inr ⟨i, List.mem_range.mpr hi, rfl⟩))
  · intro hc
    rw [constructEvaluators_ok cfg constructResponses s m matName hm hlen hflag hmat,
      roots_resid cfg constructResponses _ hc, hpre]
  · intro hc
    rw [constructEvaluators_ok cfg constructResponses s m matName hm hlen hflag hmat]
    unfold roots
    rw [hc]
    rfl
  · intro h1 h2
    rw [constructEvaluators_ok cfg constructResponses s m matName hm hlen hflag hmat]
    unfold roots
    rw [if_neg h1, if_neg h2]

/-- Witness of C13 on the sample configuration for the residual field manager. -/
theorem constructEvaluators_roots_witness :
    (constructEvaluators (sampleConfig LandIce.FieldManagerChoice.BUILD_RESID_FM) noResponses
        emptyState).1 = Except.ok (some (LandIce.Tag.mk "Scatter"))
    ∧ (constructEvaluators (sampleConfig LandIce.FieldManagerChoice.BUILD_RESID_FM) noResponses
        emptyState).2.required = ["Scatter", "Microstrain_0 Scatter", "Microstrain_1 Scatter"] := by
  obtain ⟨pre, _, _, h, _, _⟩ :=
    constructEvaluators_roots (sampleConfig LandIce.FieldManagerChoice.BUILD_RESID_FM)
      noResponses emptyState "HMC" "steel" rfl (by decide) rfl rfl
  rw [h rfl]
  exact ⟨rfl, rfl⟩

/-- C17: the field names are unique per producer: for micro scales `i ≠ j` the DOF names
"Microstrain_i" and "Microstrain_j" differ, as do the residual names and the scatter
names; and no micro DOF, residual or scatter name equals one of the macro names
"Displacement", "Displacement Residual" or "Scatter". -/
theorem micro_names_unique (i j : Nat) (h : i ≠ j) :
    (micro_dof_names i).headD "" ≠ (micro_dof_names j).headD ""
    ∧ (micro_resid_names i).headD "" ≠ (micro_resid_names j).headD ""
    ∧ (micro_scatter_names i).headD "" ≠ (micro_scatter_names j).headD ""
    ∧ (∀ name, name ∈ [(micro_dof_names i).headD "", (micro_resid_names i).headD "",
          (micro_scatter_names i).headD ""] →
        name ≠ macro_dof_names.headD "" ∧ name ≠ macro_resid_names.headD ""
          ∧ name ≠ "Scatter") := by
  simp only [micro_dof_names, micro_resid_names, micro_scatter_names, List.headD_cons]
  refine ⟨?_, ?_, ?_, ?_⟩
  · exact fun e => h (dofname_inj i j e)
  · exact fun e => h (dofname_inj i j (append_right_inj_string _ _ _ e))
  · exact fun e => h (dofname_inj i j (append_right_inj_string _ _ _ e))
  · intro name hname
    have hM : ∃ suffix, name = dofname i ++ suffix := by
      simp only [List.mem_cons, List.mem_singleton, List.not_mem_nil, or_false] at hname
      rcases hname with e | e | e
      · exact ⟨"", by rw [e, String.append_empty]⟩
      · exact ⟨_, e⟩
      · exact ⟨_, e⟩
    obtain ⟨suffix, rfl⟩ := hM
    have hhead := dofname_head i suffix
    refine ⟨?_, ?_, ?_⟩
    · intro e
      rw [e] at hhead
      exact absurd hhead (by decide)
    · intro e
      rw [e] at hhead
      exact absurd hhead (by decide)
    · intro e
      rw [e] at hhead
      exact absurd hhead (by decide)

/-- Witness of C17 for the scales 0 and 1. -/
theorem micro_names_unique_witness :
    (micro_dof_names 0).headD "" ≠ (micro_dof_names 1).headD ""
    ∧ (micro_resid_names 0).headD "" ≠ (micro_resid_names 1).headD ""
    ∧ (micro_scatter_names 0).headD "" ≠ (micro_scatter_names 1).headD "" :=
  ⟨(micro_names_unique 0 1 (by decide)).1, (micro_names_unique 0 1 (by decide)).2.1,
   (micro_names_unique 0 1 (by decide)).2.2.1⟩

/-- C18: every acceleration field the residual evaluators consume is gathered and
interpolated. The macro residual is given `macro_dof_names_dotdot[0]`, which is
"Displacement_dotdot", the name the macro gather and the vector interpolation are built
with; for every micro scale `i < numMicroScales` the micro residual is given
`micro_dof_names[i][0] + "_dotdot"`, which equals `micro_dof_names_dotdot[i][0]`, that is
"Microstrain_i_dotdot", the name the gather and the tensor interpolation of that scale
are built with. -/
theorem acceleration_names_agree (cfg : Config) (s s' : State) (i : Nat)
    (hi : i < cfg.numMicroScales) :
    macro_dof_names_dotdot = ["Displacement_dotdot"]
    ∧ ([Ev.ElasticityResid
          [("Stress Name", "Total Stress"), ("Weighted Gradient BF Name", "wGrad BF"),
           ("Weighted BF Name", "wBF"),
           ("Time Dependent Variable Name", "Displacement_dotdot"),
           ("Residual Name", "Displacement Residual")],
        Ev.MicroResidual
          [("Micro Stress Name", cfg.strint "Micro Stress" i),
           ("Double Stress Name", cfg.strint "Double Stress" i),
           ("Weighted Gradient BF Name", "wGrad BF"), ("Weighted BF Name", "wBF"),
           ("Time Dependent Variable Name", "Microstrain_" ++ toString i ++ "_dotdot"),
           ("Residual Name", (micro_resid_names i).headD "")]]
        ⊆ (residuals cfg s').evaluators)
    ∧ (micro_dof_names i).headD "" ++ "_dotdot" = (micro_dof_names_dotdot i).headD ""
    ∧ micro_dof_names_dotdot i = ["Microstrain_" ++ toString i ++ "_dotdot"]
    ∧ ([Ev.constructGatherSolutionEvaluator_withAcceleration 1 macro_dof_names
          ["Displacement_dotdot"] none,
        Ev.constructDOFVecInterpolationEvaluator "Displacement_dotdot",
        Ev.constructGatherSolutionEvaluator_withAcceleration 2 (micro_dof_names i)
          ["Microstrain_" ++ toString i ++ "_dotdot"]
          (some (cfg.numDim + i * (cfg.numDim * cfg.numDim))),
        Ev.constructDOFTensorInterpolationEvaluator ("Microstrain_" ++ toString i ++ "_dotdot")
          (cfg.numDim + i * (cfg.numDim * cfg.numDim))]
        ⊆ (kinematics cfg s).evaluators) := by
  have hr : i ∈ List.range cfg.numMicroScales := List.mem_range.mpr hi
  refine ⟨rfl, ?_, rfl, rfl, ?_⟩
  · rw [residuals_eq]
    intro ev hev
    simp only [List.mem_cons, List.mem_singleton, List.not_mem_nil, or_false] at hev
    simp only [List.mem_append, List.mem_map, List.mem_singleton]
    rcases hev with rfl | rfl
    · exact Or.inr (Or.inl rfl)
    · exact Or.inr (Or.inr ⟨i, hr, rfl⟩)
  · rw [kinematics_eq]
    intro ev hev
    simp only [List.mem_cons, List.mem_singleton, List.not_mem_nil, or_false] at hev
    simp only [List.mem_append, List.mem_map]
    rcases hev with rfl | rfl | rfl | rfl
    · exact Or.inr (Or.inl (Or.inl (Or.inl (Or.inl (Or.inl (Or.inl (Or.inl (Or.inl
        (Or.inl (List.mem_singleton.mpr rfl))))))))))
    · exact Or.inr (Or.inl (Or.inl (Or.inl (Or.inl (Or.inl (Or.inr
        (List.mem_singleton.mpr rfl)))))))
    · exact Or.inr (Or.inl (Or.inl (Or.inl (Or.inl (Or.inl (Or.inl (Or.inl (Or.inl
        (Or.inr ⟨i, hr, rfl⟩)))))))))
    · exact Or.inr (Or.inl (Or.inl (Or.inl (Or.inl (Or.inr ⟨i, hr, rfl⟩)))))

/-- Witness of C18 for scale 1 of the sample configuration. -/
theorem acceleration_names_agree_witness :
    (micro_dof_names 1).headD "" ++ "_dotdot" = (micro_dof_names_dotdot 1).headD ""
    ∧ micro_dof_names_dotdot 1 = ["Microstrain_" ++ toString 1 ++ "_dotdot"] :=
  ⟨(acceleration_names_agree (sampleConfig LandIce.FieldManagerChoice.BUILD_RESID_FM)
      emptyState emptyState 1 (by decide)).2.2.1,
   (acceleration_names_agree (sampleConfig LandIce.FieldManagerChoice.BUILD_RESID_FM)
      emptyState emptyState 1 (by decide)).2.2.2.1⟩

end HMCProblem

namespace LCM

/-- C19: the saturation hardening law
`hardening(eqps) = hardeningModulus*eqps + sat_mod*(1 - exp(-sat_exp*eqps))` gives
`hardening(0) = 0` for every `hardeningModulus`, `sat_mod` and `sat_exp`, over the reals. -/
theorem hardening_zero (hardeningModulus sat_mod sat_exp : ℝ) :
    hardening Real.exp hardeningModulus sat_mod sat_exp 0 = 0 := by
  simp [hardening]

end LCM

namespace LandIce

/-- A loop over inputs on which two bodies agree gives the same result. -/
theorem forEach_congr {β γ : Type} (body : β → StatesState → Except StatesError StatesState)
    (body' : γ → StatesState → Except StatesError StatesState) (g : γ → β)
    (h : ∀ x s, body (g x) s = body' x s) (l : List γ) (s : StatesState) :
    forEach body (l.map g) s = forEach body' l s := by
  induction l generalizing s with
  | nil => rfl
  | cons x xs ih =>
    simp only [List.map_cons, forEach, h]
    cases body' x s with
    | error e => rfl
    | ok s1 => exact ih s1

/-- C20: a required field whose usage is "Unused" is skipped entirely by
`constructStatesEvaluators`, in the volume loop and in the side-set loop: the iteration
ends with the state manager, the field manager, every bookkeeping map and the local
variables exactly as they were, so no state variable and no evaluator is registered, no
field is required, and no map gains or changes an entry. -/
theorem unused_field_skipped (F : Factory) (ebName ss_name sideEBName name : String)
    (f : FieldInfo) (s : StatesState)
    (hname : f.fieldName = some name) (husage : f.fieldUsage = some "Unused") :
    volumeField F ebName f s = Except.ok s
    ∧ sideSetField F ss_name sideEBName f s = Except.ok s := by
  constructor
  · simp [volumeField, getRequired, hname, husage]
  · simp [sideSetField, getRequired, hname, husage]

/-- Witness of C20: an unused field between two used ones leaves no trace. -/
theorem unused_field_skipped_witness :
    volumeField sampleFactory "eb"
        { fieldName := some "bed_topography", fieldUsage := some "Unused",
          fieldType := some "Node Scalar", numLayers := none } StatesState.empty
      = Except.ok StatesState.empty
    ∧ sideSetField sampleFactory "basalside" "sideeb"
        { fieldName := some "bed_topography", fieldUsage := some "Unused",
          fieldType := some "Node Scalar", numLayers := none } StatesState.empty
      = Except.ok StatesState.empty :=
  unused_field_skipped sampleFactory "eb" "basalside" "sideeb" "bed_topography" _
    StatesState.empty rfl rfl

/-- The sublist of a field with the "Field Usage" entry set to `usage`. -/
theorem volumeField_usage (F : Factory) (ebName : String) (f : FieldInfo) (s : StatesState) :
    volumeField F ebName { f with fieldUsage := some (f.fieldUsage.getD "Input") } s
      = volumeField F ebName f s := by
  simp [volumeField]

theorem sideSetField_usage (F : Factory) (ss_name sideEBName : String) (f : FieldInfo)
    (s : StatesState) :
    sideSetField F ss_name sideEBName { f with fieldUsage := some (f.fieldUsage.getD "Input") } s
      = sideSetField F ss_name sideEBName f s := by
  simp [sideSetField]

theorem volumeField_withUsageWritten (F : Factory) (ebName : String) (f : FieldInfo)
    (s : StatesState) :
    volumeField F ebName f.withUsageWritten s = volumeField F ebName f s := by
  unfold FieldInfo.withUsageWritten
  cases h : f.fieldUsage with
  | none => simp [volumeField, h]
  | some u => rfl

theorem sideSetField_withUsageWritten (F : Factory) (ss_name sideEBName : String)
    (f : FieldInfo) (s : StatesState) :
    sideSetField F ss_name sideEBName f.withUsageWritten s
      = sideSetField F ss_name sideEBName f s := by
  unfold FieldInfo.withUsageWritten
  cases h : f.fieldUsage with
  | none => simp [sideSetField, h]
  | some u => rfl

theorem sideSet_withUsageWritten (F : Factory) (ss : SideSetInfo) (s : StatesState) :
    sideSet F { ss with fields := ss.fields.map FieldInfo.withUsageWritten } s
      = sideSet F ss s := by
  unfold sideSet
  cases ss.sideEBName with
  | none => rfl
  | some sideEBName =>
    simp only
    cases ss.hasLayouts with
    | false => rfl
    | true =>
      simp only [if_true]
      exact forEach_congr _ _ _ (sideSetField_withUsageWritten F ss.ss_name sideEBName) _ s

/-- C15: a required field whose "Field Usage" entry is absent is treated exactly like one
whose usage is "Input". For any field sublist the volume loop body and the side-set loop
body give the same result (registered states, evaluators, required fields, bookkeeping
maps, or the same failure) with the entry omitted as with it set to "Input"; hence
`constructStatesEvaluators` as a whole gives the same result when every absent entry is
written out as "Input". -/
theorem absent_usage_is_input (F : Factory) (ebName ss_name sideEBName : String)
    (f : FieldInfo) (input : StatesInput) (s : StatesState) :
    volumeField F ebName { f with fieldUsage := none } s
      = volumeField F ebName { f with fieldUsage := some "Input" } s
    ∧ sideSetField F ss_name sideEBName { f with fieldUsage := none } s
      = sideSetField F ss_name sideEBName { f with fieldUsage := some "Input" } s
    ∧ constructStatesEvaluators F input.withUsageWritten s
      = constructStatesEvaluators F input s := by
  refine ⟨?_, ?_, ?_⟩
  · simp [volumeField]
  · simp [sideSetField]
  · unfold constructStatesEvaluators StatesInput.withUsageWritten
    simp only
    cases forEach distributedParameter (input.distributedParameters.getD []) _ with
    | error e => rfl
    | ok s1 =>
      simp only
      rw [forEach_congr _ _ _ (volumeField_withUsageWritten F input.ebName)]
      cases forEach (volumeField F input.ebName) input.fields _ with
      | error e => rfl
      | ok s2 =>
        simp only
        exact forEach_congr _ _ _ (sideSet_withUsageWritten F) _ s2

/-- The guarded `requireField` keeps the registered evaluators. -/
theorem requiredAfterSave_evaluators (fm : FieldManager) (ev : Evaluator) :
    (requiredAfterSave fm ev).evaluators = fm.evaluators := by
  unfold requiredAfterSave
  cases ev.evaluatedFields <;> rfl

/-- A supported volume field type assigns `p`, `nodal_state` and `scalar_state` and
touches nothing but the state manager. -/
theorem registerVolumeState_supported (ebName name fieldType meshPart : String)
    (s : StatesState)
    (hsup : fieldType = "Elem Scalar" ∨ fieldType = "Node Scalar"
      ∨ fieldType = "Elem Vector" ∨ fieldType = "Node Vector") :
    ∃ d b c regs, d.reg.stateName = name ∧
      registerVolumeState ebName name fieldType meshPart s =
        { s with registered := regs, p := some d, nodal_state := some b,
                 scalar_state := some c } := by
  rcases hsup with rfl | rfl | rfl | rfl
  · exact ⟨_, _, _, _, rfl, rfl⟩
  · unfold registerVolumeState
    by_cases h : (s.is_dist name && s.save_sensitivities s.param_name) = true
    · simp only [h, if_true]
      exact ⟨_, _, _, _, rfl, rfl⟩
    · simp only [h]
      exact ⟨_, _, _, _, rfl, rfl⟩
  · exact ⟨_, _, _, _, rfl, rfl⟩
  · exact ⟨_, _, _, _, rfl, rfl⟩

/-- The Save part of the volume loop when `p` and `nodal_state` are assigned. -/
theorem saveVolumeField_ok (F : Factory) (fieldUsage : String) (s : StatesState)
    (d : Descriptor) (b : Bool) (hp : s.p = some d) (hb : s.nodal_state = some b) :
    saveVolumeField F fieldUsage s = Except.ok
      (if fieldUsage = "Output" ∨ fieldUsage = "Input-Output" then
        { s with p := some { d with nodalState := some b },
                 fm := requiredAfterSave
                   (s.fm.registerEvaluator (F.SaveStateField { d with nodalState := some b }))
                   (F.SaveStateField { d with nodalState := some b }) }
       else s) := by
  unfold saveVolumeField
  by_cases h : fieldUsage = "Output" ∨ fieldUsage = "Input-Output"
  · simp only [if_pos h, hp, hb, constructStatesEvaluators_saveVolume, requireIfEvaluates_eq]
  · simp only [if_neg h]

/-- The gather-or-load part of the volume loop when `p` is assigned. -/
theorem gatherOrLoadVolumeField_ok (F : Factory) (stateName fieldName fieldUsage : String)
    (s : StatesState) (d : Descriptor) (hp : s.p = some d) :
    gatherOrLoadVolumeField F stateName fieldName fieldUsage s = Except.ok
      (if s.is_dist_param.read stateName false = true then
        { s with
          is_extruded_param := s.is_extruded_param.touch stateName false,
          fm := s.fm.registerEvaluator
            (if s.is_extruded_param.read stateName false = true then
              F.constructGatherScalarExtruded2DNodalParameter stateName fieldName
             else F.constructGatherScalarNodalParameter stateName fieldName),
          is_input_field := s.is_input_field.assign stateName true }
       else if fieldUsage = "Input" ∨ fieldUsage = "Input-Output" then
        { s with
          p := some { d with fieldName := some fieldName },
          fm := s.fm.registerEvaluator (F.LoadStateField { d with fieldName := some fieldName }),
          is_input_field := s.is_input_field.assign stateName true }
       else s) := by
  unfold gatherOrLoadVolumeField
  by_cases h1 : s.is_dist_param.read stateName false = true
  · simp only [h1, if_true]
  · by_cases h2 : fieldUsage = "Input" ∨ fieldUsage = "Input-Output"
    · simp only [h1, if_pos h2, hp]
      rfl
    · simp only [h1, if_neg h2]
      rfl

/-- The metadata part of the volume loop when `scalar_state` and `nodal_state` are
assigned. -/
theorem recordVolumeField_ok (stateName fieldName : String) (s : StatesState) (b c : Bool)
    (hb : s.nodal_state = some b) (hc : s.scalar_state = some c) :
    recordVolumeField stateName fieldName s = Except.ok
      (if s.is_input_field.read fieldName false = true then
        { s with
          is_input_field := s.is_input_field.touch fieldName false,
          field_rank := s.field_rank.assign stateName (if c = true then 0 else 1),
          field_location := s.field_location.assign stateName
            (if b = true then FieldLocation.Node else FieldLocation.Cell),
          is_dist_param := s.is_dist_param.touch fieldName false,
          field_scalar_type := s.field_scalar_type.assign stateName
            (if s.is_dist_param.read fieldName false = true then FieldScalarType.ParamScalar
             else FieldScalarType.Real) }
       else { s with is_input_field := s.is_input_field.touch fieldName false }) := by
  unfold recordVolumeField
  by_cases h : s.is_input_field.read fieldName false = true
  · simp only [h, if_true, hb, hc]
  · simp only [h, hb, hc]
    rfl

theorem StrMap.read_touch {β : Type} (m : StrMap β) (k : String) (d : β) :
    (m.touch k d).read k d = m.read k d := by
  simp [StrMap.touch, StrMap.read]

theorem StrMap.touch_same {β : Type} (m : StrMap β) (k : String) (d : β) :
    (m.touch k d) k = some (m.read k d) := by
  simp [StrMap.touch, StrMap.read]

theorem StrMap.assign_same {β : Type} (m : StrMap β) (k : String) (v : β) :
    (m.assign k v) k = some v := by
  simp [StrMap.assign]

theorem StrMap.read_assign {β : Type} (m : StrMap β) (k : String) (v d : β) :
    (m.assign k v).read k d = v := by
  simp [StrMap.assign, StrMap.read]

/-- C14 (as stated, refuted): a volume field of the type "Node Layered Scalar", which the
volume loop has no branch for, with usage "Input" and no distributed parameter: the
iteration fails on the parameter list that was never assigned, and no `LoadStateField`
evaluator is registered. And a field listed twice, with usage "Input" and then with usage
"Output": the second iteration registers a Save evaluator and neither a gather nor a
load evaluator, yet the field is marked as an input field after it. -/
theorem volume_field_claim_fails :
    volumeField sampleFactory "eb"
        { fieldName := some "temperature", fieldUsage := some "Input",
          fieldType := some "Node Layered Scalar", numLayers := some 5 } StatesState.empty
      = Except.error StatesError.nullDescriptor
    ∧ ∃ s1 s2 dSave,
        volumeField sampleFactory "eb"
            { fieldName := some "temperature", fieldUsage := some "Input",
              fieldType := some "Elem Scalar", numLayers := none } StatesState.empty
          = Except.ok s1
        ∧ volumeField sampleFactory "eb"
            { fieldName := some "temperature", fieldUsage := some "Output",
              fieldType := some "Elem Scalar", numLayers := none } s1
          = Except.ok s2
        ∧ s2.fm.evaluators = s1.fm.evaluators ++ [sampleFactory.SaveStateField dSave]
        ∧ s2.is_input_field "temperature" = some true :=
  ⟨rfl, _, _, _, rfl, rfl, rfl, rfl⟩

/-- C14 (amended): in the volume loop of `constructStatesEvaluators`, for every required
field `name` of one of the four field types that the loop has a branch for, whose usage is
not "Unused", the iteration succeeds and registers,
in this order: a `SaveStateField` evaluator if and only if the usage is "Output" or
"Input-Output"; a gather-parameter evaluator if and only if the field is a distributed
parameter, the extruded variant exactly when it is marked extruded; a `LoadStateField`
evaluator if and only if the field is not a distributed parameter and the usage is
"Input" or "Input-Output". So no field gets both a gather and a load evaluator, and the
field is marked as an input field when one of the two is registered; otherwise the mark
is what it was. -/
theorem volume_field_evaluators (F : Factory) (ebName name fieldType : String)
    (f : FieldInfo) (s : StatesState)
    (hname : f.fieldName = some name) (htype : f.fieldType = some fieldType)
    (hsup : fieldType = "Elem Scalar" ∨ fieldType = "Node Scalar"
      ∨ fieldType = "Elem Vector" ∨ fieldType = "Node Vector")
    (hused : f.fieldUsage.getD "Input" ≠ "Unused") :
    ∃ s' dSave dLoad, volumeField F ebName f s = Except.ok s'
      ∧ dSave.reg.stateName = name ∧ dLoad.reg.stateName = name
      ∧ dLoad.fieldName = some name
      ∧ s'.fm.evaluators = s.fm.evaluators
          ++ (if f.fieldUsage.getD "Input" = "Output"
                ∨ f.fieldUsage.getD "Input" = "Input-Output"
              then [F.SaveStateField dSave] else [])
          ++ (if s.is_dist_param.read name false = true then
                [if s.is_extruded_param.read name false = true
                  then F.constructGatherScalarExtruded2DNodalParameter name name
                  else F.constructGatherScalarNodalParameter name name]
              else [])
          ++ (if s.is_dist_param.read name false = false
                ∧ (f.fieldUsage.getD "Input" = "Input"
                  ∨ f.fieldUsage.getD "Input" = "Input-Output")
              then [F.LoadStateField dLoad] else [])
      ∧ s'.is_input_field name = some
          (if s.is_dist_param.read name false = true
              ∨ f.fieldUsage.getD "Input" = "Input"
              ∨ f.fieldUsage.getD "Input" = "Input-Output"
           then true else s.is_input_field.read name false) := by
  generalize hu : f.fieldUsage.getD "Input" = usage at hused ⊢
  obtain ⟨d, b, c, regs, hd, h1⟩ := registerVolumeState_supported ebName name fieldType
    (if s.is_dist name then s.dist_params_name_to_mesh_part name else "")
    { s with is_dist_param := s.is_dist_param.touch name false } hsup
  have hv : volumeField F ebName f s =
      (match saveVolumeField F usage
          { s with is_dist_param := s.is_dist_param.touch name false, registered := regs,
                   p := some d, nodal_state := some b, scalar_state := some c } with
       | Except.error e => Except.error e
       | Except.ok s2 =>
         match gatherOrLoadVolumeField F name name usage s2 with
         | Except.error e => Except.error e
         | Except.ok s3 => recordVolumeField name name s3) := by
    simp only [volumeField, getRequired, hname, htype, hu, if_neg hused]
    rw [h1]
  rw [hv, saveVolumeField_ok F usage _ d b rfl rfl]
  by_cases hout : usage = "Output" ∨ usage = "Input-Output"
  · simp only [if_pos hout]
    rw [gatherOrLoadVolumeField_ok F name name usage _ { d with nodalState := some b } rfl]
    by_cases hparam : s.is_dist_param.read name false = true
    · simp only [StrMap.read_touch, hparam, if_true]
      rw [recordVolumeField_ok name name _ b c rfl rfl]
      refine ⟨_, { d with nodalState := some b }, { d with fieldName := some name }, rfl, hd,
        hd, rfl, ?_, ?_⟩
      · simp [StrMap.read_assign, FieldManager.registerEvaluator, requiredAfterSave_evaluators]
      · simp [StrMap.read_assign, StrMap.touch_same]
    · by_cases hin : usage = "Input" ∨ usage = "Input-Output"
      · simp only [StrMap.read_touch, hparam, if_pos hin]
        rw [recordVolumeField_ok name name _ b c rfl rfl]
        refine ⟨_, { d with nodalState := some b },
          { d with nodalState := some b, fieldName := some name }, rfl, hd, hd, rfl, ?_, ?_⟩
        · simp [StrMap.read_assign, FieldManager.registerEvaluator,
            requiredAfterSave_evaluators, hin]
        · simp [StrMap.read_assign, StrMap.touch_same, hin]
      · simp only [StrMap.read_touch, hparam, if_neg hin]
        rw [recordVolumeField_ok name name _ b c rfl rfl]
        refine ⟨_, { d with nodalState := some b }, { d with fieldName := some name }, rfl, hd,
          hd, rfl, ?_, ?_⟩
        · by_cases hm : s.is_input_field.read name false = true <;>
            simp [hm, FieldManager.registerEvaluator, requiredAfterSave_evaluators, hin]
        · by_cases hm : s.is_input_field.read name false = true <;>
            simp [hm, StrMap.touch_same, hin]
  · simp only [if_neg hout]
    rw [gatherOrLoadVolumeField_ok F name name usage _ d rfl]
    by_cases hparam : s.is_dist_param.read name false = true
    · simp only [StrMap.read_touch, hparam, if_true]
      rw [recordVolumeField_ok name name _ b c rfl rfl]
      refine ⟨_, d, { d with fieldName := some name }, rfl, hd, hd, rfl, ?_, ?_⟩
      · simp [StrMap.read_assign, FieldManager.registerEvaluator]
      · simp [StrMap.read_assign, StrMap.touch_same]
    · by_cases hin : usage = "Input" ∨ usage = "Input-Output"
      · simp only [StrMap.read_touch, hparam, if_pos hin]
        rw [recordVolumeField_ok name name _ b c rfl rfl]
        refine ⟨_, d, { d with fieldName := some name }, rfl, hd, hd, rfl, ?_, ?_⟩
        · simp [StrMap.read_assign, FieldManager.registerEvaluator, hin]
        · simp [StrMap.read_assign, StrMap.touch_same, hin]
      · simp only [StrMap.read_touch, hparam, if_neg hin]
        rw [recordVolumeField_ok name name _ b c rfl rfl]
        refine ⟨_, d, { d with fieldName := some name }, rfl, hd, hd, rfl, ?_, ?_⟩
        · by_cases hm : s.is_input_field.read name false = true <;>
            simp [hm, FieldManager.registerEvaluator, hin]
        · by_cases hm : s.is_input_field.read name false = true <;>
            simp [hm, StrMap.touch_same, hin]

/-- Witness of C14: an "Input-Output" field that is no distributed parameter gets a Save
and a Load evaluator, no gather evaluator, and is marked as an input field. -/
theorem volume_field_evaluators_witness :
    ∃ s' dSave dLoad, volumeField sampleFactory "eb"
        { fieldName := some "temperature", fieldUsage := some "Input-Output",
          fieldType := some "Elem Scalar", numLayers := none } StatesState.empty
        = Except.ok s'
      ∧ dSave.reg.stateName = "temperature" ∧ dLoad.reg.stateName = "temperature"
      ∧ dLoad.fieldName = some "temperature"
      ∧ s'.fm.evaluators =
          [sampleFactory.SaveStateField dSave, sampleFactory.LoadStateField dLoad]
      ∧ s'.is_input_field "temperature" = some true := by
  obtain ⟨s', dSave, dLoad, h1, h2, h3, h4, h5, h6⟩ :=
    volume_field_evaluators sampleFactory "eb" "temperature" "Elem Scalar"
      { fieldName := some "temperature", fieldUsage := some "Input-Output",
        fieldType := some "Elem Scalar", numLayers := none } StatesState.empty rfl rfl
      (Or.inl rfl) (by decide)
  refine ⟨s', dSave, dLoad, h1, h2, h3, h4, ?_, ?_⟩
  · rw [h5]
    simp [StatesState.empty, StrMap.read]
  · rw [h6]
    simp

/-- C16 (the code at the failing input): on a side set whose required fields are
"thickness" (type "Node Scalar", usage "Input") followed by "temperature" (type
"Node Layered Scalar", usage "Input"), both states are registered, but the Load evaluator
of "temperature" is built from the parameter list returned for "thickness": its state
name is "thickness", with only the "Field Name" entry overwritten. -/
theorem layered_field_loads_previous_descriptor :
    ∃ s', sideSet sampleFactory
        { ss_name := "basalside", sideEBName := some "sideeb", hasLayouts := true,
          fields := [{ fieldName := some "thickness", fieldUsage := some "Input",
                       fieldType := some "Node Scalar", numLayers := none },
                     { fieldName := some "temperature", fieldUsage := some "Input",
                       fieldType := some "Node Layered Scalar", numLayers := some 5 }] }
        StatesState.empty = Except.ok s'
      ∧ s'.registered.map (fun r => r.stateName) = ["thickness", "temperature"]
      ∧ s'.fm.evaluators =
          [{ name := "LoadSideSetStateField",
             evaluatedFields := [Tag.mk "thickness", Tag.mk "thickness_basalside"] },
           { name := "LoadSideSetStateField",
             evaluatedFields := [Tag.mk "thickness", Tag.mk "temperature_basalside"] }]
      ∧ s'.p.map (fun d => d.reg.stateName) = some "thickness" :=
  ⟨_, rfl, rfl, rfl, rfl⟩

/-- The defect behind C16 for any factory and any state: a layered side-set field that is
an input and no distributed parameter gets a Load evaluator built from whatever
parameter list `p` held before the iteration; with no earlier parameter list the
iteration fails. -/
theorem layered_field_load (F : Factory) (ss_name sideEBName name fieldType : String)
    (n : Int) (f : FieldInfo) (s : StatesState)
    (hname : f.fieldName = some name) (husage : f.fieldUsage.getD "Input" = "Input")
    (htype : f.fieldType = some fieldType) (hn : f.numLayers = some n)
    (hlay : fieldType = "Elem Layered Scalar" ∨ fieldType = "Node Layered Scalar"
      ∨ fieldType = "Elem Layered Vector" ∨ fieldType = "Node Layered Vector")
    (hparam : s.is_dist_param.read name false = false) :
    (s.p = none → sideSetField F ss_name sideEBName f s
        = Except.error StatesError.nullDescriptor)
    ∧ (∀ d, s.p = some d → ∃ s', sideSetField F ss_name sideEBName f s = Except.ok s'
        ∧ s'.fm.evaluators = s.fm.evaluators ++
            [F.LoadSideSetStateField { d with fieldName := some (name ++ "_" ++ ss_name) }]) := by
  have hu : ¬ ("Input" = "Output" ∨ "Input" = "Input-Output") := by decide
  have hi : "Input" = "Input" ∨ "Input" = "Input-Output" := Or.inl rfl
  have hp : (s.is_dist_param name).getD false = false := hparam
  constructor
  · intro hnone
    rcases hlay with rfl | rfl | rfl | rfl <;>
      simp [sideSetField, getRequired, hname, husage, htype, hn, registerSideSetState,
        saveSideSetField, gatherOrLoadSideSetField, StatesState.register, StrMap.read, hp,
        hnone]
  · intro d hd
    rcases hlay with rfl | rfl | rfl | rfl <;>
      simp [sideSetField, getRequired, hname, husage, htype, hn, registerSideSetState,
        saveSideSetField, gatherOrLoadSideSetField, recordSideSetField,
        StatesState.register, StrMap.read, StrMap.assign, StrMap.touch, assign2, touch2, hp,
        hd, FieldManager.registerEvaluator]

end LandIce

namespace Tsunami

/-- C25: with the Shakib-Hughes law `evaluateFields` writes the entries `Tau(cell,qp)` and
`normGc(cell,qp)` with `cell < workset.numCells` and `qp < numQPs` and nothing else: the
inputs `V`, `Gc` and `jacobian_det` are unchanged, every other entry of `Tau` and `normGc`
(in particular those with `cell >= workset.numCells`) keeps its previous value, and
afterwards each written `normGc(cell,qp)` is the sum over `i, j < numDims` of
`Gc(cell,qp,i,j)^2` and each written `Tau(cell,qp)` is one over the square root of the
radicand, whatever the buffers held before. -/
theorem evaluateFields_frame {α : Type} [Field α] (sqrt : α → α) (k : NavierStokesTau α)
    (workset : Workset) (d : FieldData α) (hk : k.stab_type = some StabType.SHAKIBHUGHES) :
    (evaluateFields sqrt k workset d).V = d.V
    ∧ (evaluateFields sqrt k workset d).Gc = d.Gc
    ∧ (evaluateFields sqrt k workset d).jacobian_det = d.jacobian_det
    ∧ (∀ cell qp, cell < workset.numCells → qp < k.numQPs →
        (evaluateFields sqrt k workset d).Tau cell qp = 1 / sqrt (radicand sqrt k cell qp d)
        ∧ (evaluateFields sqrt k workset d).normGc cell qp =
            ∑ i in Finset.range k.numDims, ∑ j in Finset.range k.numDims,
              d.Gc cell qp i j ^ 2)
    ∧ (∀ cell qp, ¬ (cell < workset.numCells ∧ qp < k.numQPs) →
        (evaluateFields sqrt k workset d).Tau cell qp = d.Tau cell qp
        ∧ (evaluateFields sqrt k workset d).normGc cell qp = d.normGc cell qp) := by
  rw [evaluateFields_shakibHughes sqrt k workset d hk]
  refine ⟨rfl, rfl, rfl, ?_, ?_⟩
  · intro cell qp hc hq
    constructor
    · simp only [swept, hc, hq, and_self, true_or, if_true]
      exact tauClosed_radicand sqrt k cell qp d
    · simp only [swept, hc, hq, and_self, true_or, if_true, normSum, pow_two]
  · intro cell qp h
    have h2 : ¬ ((cell < workset.numCells ∧ qp < k.numQPs)
        ∨ (cell = workset.numCells ∧ qp < 0)) := by
      rintro (h3 | ⟨_, h3⟩)
      · exact h h3
      · exact Nat.not_lt_zero qp h3
    simp only [swept, if_neg h2, and_self]

/-- Witness of C25: on a workset of one cell, the entry of cell 1 keeps its prior content
and the inputs are unchanged. -/
theorem evaluateFields_frame_witness :
    (evaluateFields Real.sqrt (sampleKernel ℝ 2 1 1 StabType.SHAKIBHUGHES) (Workset.mk 1)
        (sampleData (e1 ℝ) (idMetric ℝ) 7 9)).Gc = (sampleData (e1 ℝ) (idMetric ℝ) 7 9).Gc
    ∧ (evaluateFields Real.sqrt (sampleKernel ℝ 2 1 1 StabType.SHAKIBHUGHES) (Workset.mk 1)
        (sampleData (e1 ℝ) (idMetric ℝ) 7 9)).Tau 1 0 = 7
    ∧ (evaluateFields Real.sqrt (sampleKernel ℝ 2 1 1 StabType.SHAKIBHUGHES) (Workset.mk 1)
        (sampleData (e1 ℝ) (idMetric ℝ) 7 9)).normGc 1 0 = 9 :=
  ⟨(evaluateFields_frame Real.sqrt (sampleKernel ℝ 2 1 1 StabType.SHAKIBHUGHES) (Workset.mk 1)
      (sampleData (e1 ℝ) (idMetric ℝ) 7 9) rfl).2.1,
   ((evaluateFields_frame Real.sqrt (sampleKernel ℝ 2 1 1 StabType.SHAKIBHUGHES) (Workset.mk 1)
      (sampleData (e1 ℝ) (idMetric ℝ) 7 9) rfl).2.2.2.2 1 0 (by decide)).1,
   ((evaluateFields_frame Real.sqrt (sampleKernel ℝ 2 1 1 StabType.SHAKIBHUGHES) (Workset.mk 1)
      (sampleData (e1 ℝ) (idMetric ℝ) 7 9) rfl).2.2.2.2 1 0 (by decide)).2⟩

end Tsunami

namespace HMCProblem

end HMCProblem

namespace LandIce

/-- C27 (the code at the failing input): with the distributed parameters "basal_friction"
("Save Sensitivity" true) and "stiffening_factor" ("Save Sensitivity" false) and both
fields of type "Node Scalar", no sensitivity state is registered when the parameters are
listed in this order, and both "basal_friction_sensitivity" and
"stiffening_factor_sensitivity" are registered when they are listed in the other order:
the flag looked up is that of the parameter listed last, not that of the field. -/
theorem sensitivity_follows_last_parameter :
    registeredNames (constructStatesEvaluators sampleFactory
        (sensitivityInput [distParamWithSensitivity "basal_friction" true,
                           distParamWithSensitivity "stiffening_factor" false])
        StatesState.empty)
      = some ["basal_friction", "stiffening_factor"]
    ∧ registeredNames (constructStatesEvaluators sampleFactory
        (sensitivityInput [distParamWithSensitivity "stiffening_factor" false,
                           distParamWithSensitivity "basal_friction" true])
        StatesState.empty)
      = some ["basal_friction_sensitivity", "basal_friction",
              "stiffening_factor_sensitivity", "stiffening_factor"] :=
  ⟨rfl, rfl⟩

/-- The defect behind C27 in the loop body: a "Node Scalar" volume field gets the extra
state exactly when it is distributed and the flag stored for `param_name`, the
distributed parameter processed last, is true. -/
theorem node_scalar_sensitivity (ebName name meshPart : String) (s : StatesState) :
    (registerVolumeState ebName name "Node Scalar" meshPart s).registered.map
        (fun reg => reg.stateName)
      = s.registered.map (fun reg => reg.stateName)
        ++ (if s.is_dist name = true ∧ s.save_sensitivities s.param_name = true
            then [name ++ "_sensitivity", name] else [name]) := by
  unfold registerVolumeState
  by_cases h : s.is_dist name = true ∧ s.save_sensitivities s.param_name = true
  · simp [h, registerStateVariable, StatesState.register]
  · have h2 : (s.is_dist name && s.save_sensitivities s.param_name) = false := by
      rcases Bool.eq_false_or_eq_true (s.is_dist name) with h3 | h3
      · rcases Bool.eq_false_or_eq_true (s.save_sensitivities s.param_name) with h4 | h4
        · exact absurd ⟨h3, h4⟩ h
        · simp [h4]
      · simp [h3]
    simp [h, h2, registerStateVariable, StatesState.register]

end LandIce

namespace LandIce

/-- The flags a supported volume field type assigns. -/
theorem registerVolumeState_flags (ebName name fieldType meshPart : String) (s : StatesState)
    (hsup : fieldType = "Elem Scalar" ∨ fieldType = "Node Scalar"
      ∨ fieldType = "Elem Vector" ∨ fieldType = "Node Vector") :
    (registerVolumeState ebName name fieldType meshPart s).nodal_state
        = some (decide (fieldType = "Node Scalar" ∨ fieldType = "Node Vector"))
    ∧ (registerVolumeState ebName name fieldType meshPart s).scalar_state
        = some (decide (fieldType = "Elem Scalar" ∨ fieldType = "Node Scalar")) := by
  rcases hsup with rfl | rfl | rfl | rfl
  · exact ⟨rfl, rfl⟩
  · unfold registerVolumeState
    by_cases h : (s.is_dist name && s.save_sensitivities s.param_name) = true
    · simp only [h, if_true]
      exact ⟨rfl, rfl⟩
    · simp only [h]
      exact ⟨rfl, rfl⟩
  · exact ⟨rfl, rfl⟩
  · exact ⟨rfl, rfl⟩

/-- The Save part of the volume loop keeps the flags and the maps. -/
theorem saveVolumeField_keeps (F : Factory) (fieldUsage : String) (s s2 : StatesState)
    (h : saveVolumeField F fieldUsage s = Except.ok s2) :
    s2.nodal_state = s.nodal_state ∧ s2.scalar_state = s.scalar_state
    ∧ s2.is_dist_param = s.is_dist_param ∧ s2.is_input_field = s.is_input_field
    ∧ s2.field_rank = s.field_rank ∧ s2.field_location = s.field_location
    ∧ s2.field_scalar_type = s.field_scalar_type := by
  unfold saveVolumeField at h
  split at h
  · split at h
    · cases h
    · split at h
      · cases h
      · dsimp only at h
        split at h
        · cases h
        · cases h
          exact ⟨rfl, rfl, rfl, rfl, rfl, rfl, rfl⟩
  · cases h
    exact ⟨rfl, rfl, rfl, rfl, rfl, rfl, rfl⟩

/-- The gather-or-load part of the volume loop keeps the flags and the parameter map. -/
theorem gatherOrLoadVolumeField_keeps (F : Factory) (stateName fieldName fieldUsage : String)
    (s s3 : StatesState)
    (h : gatherOrLoadVolumeField F stateName fieldName fieldUsage s = Except.ok s3) :
    s3.nodal_state = s.nodal_state ∧ s3.scalar_state = s.scalar_state
    ∧ s3.is_dist_param = s.is_dist_param := by
  unfold gatherOrLoadVolumeField at h
  split at h
  · cases h
    exact ⟨rfl, rfl, rfl⟩
  · split at h
    · split at h
      · cases h
      · cases h
        exact ⟨rfl, rfl, rfl⟩
    · cases h
      exact ⟨rfl, rfl, rfl⟩

/-- What the metadata part of the volume loop records for a field marked as input. -/
theorem recordVolumeField_records (name : String) (s s4 : StatesState) (b c : Bool)
    (hb : s.nodal_state = some b) (hc : s.scalar_state = some c)
    (h : recordVolumeField name name s = Except.ok s4)
    (hm : s4.is_input_field name = some true) :
    s4.field_rank name = some (if c = true then 0 else 1)
    ∧ s4.field_location name
        = some (if b = true then FieldLocation.Node else FieldLocation.Cell)
    ∧ s4.field_scalar_type name
        = some (if s.is_dist_param.read name false = true then FieldScalarType.ParamScalar
                else FieldScalarType.Real) := by
  rw [recordVolumeField_ok name name s b c hb hc] at h
  by_cases hmark : s.is_input_field.read name false = true
  · rw [if_pos hmark] at h
    cases h
    simp [StrMap.assign]
  · rw [if_neg hmark] at h
    cases h
    simp only [StrMap.touch_same] at hm
    exact absurd (Option.some.inj hm) hmark

end LandIce

namespace LandIce

/-- The four stages of one iteration of the volume loop all succeed on a supported field
type: registration, Save, gather or Load, metadata. -/
theorem volumeField_stages (F : Factory) (ebName name fieldType : String)
    (f : FieldInfo) (s : StatesState)
    (hname : f.fieldName = some name) (htype : f.fieldType = some fieldType)
    (hsup : fieldType = "Elem Scalar" ∨ fieldType = "Node Scalar"
      ∨ fieldType = "Elem Vector" ∨ fieldType = "Node Vector")
    (hused : f.fieldUsage.getD "Input" ≠ "Unused") :
    ∃ s1 s2 s3 s4,
      s1 = registerVolumeState ebName name fieldType
            (if s.is_dist name then s.dist_params_name_to_mesh_part name else "")
            { s with is_dist_param := s.is_dist_param.touch name false }
      ∧ s1.is_dist_param = s.is_dist_param.touch name false
      ∧ saveVolumeField F (f.fieldUsage.getD "Input") s1 = Except.ok s2
      ∧ gatherOrLoadVolumeField F name name (f.fieldUsage.getD "Input") s2 = Except.ok s3
      ∧ recordVolumeField name name s3 = Except.ok s4
      ∧ volumeField F ebName f s = Except.ok s4 := by
  generalize hu : f.fieldUsage.getD "Input" = usage at hused ⊢
  obtain ⟨d, b, c, regs, _, h1⟩ := registerVolumeState_supported ebName name fieldType
    (if s.is_dist name then s.dist_params_name_to_mesh_part name else "")
    { s with is_dist_param := s.is_dist_param.touch name false } hsup
  have e2 := saveVolumeField_ok F usage
    (registerVolumeState ebName name fieldType
      (if s.is_dist name then s.dist_params_name_to_mesh_part name else "")
      { s with is_dist_param := s.is_dist_param.touch name false }) d b
    (by rw [h1]) (by rw [h1])
  obtain ⟨s2, hs2⟩ : ∃ s2, saveVolumeField F usage
    (registerVolumeState ebName name fieldType
      (if s.is_dist name then s.dist_params_name_to_mesh_part name else "")
      { s with is_dist_param := s.is_dist_param.touch name false }) = Except.ok s2 := ⟨_, e2⟩
  have hp2 : ∃ d2, s2.p = some d2 := by
    have := hs2.symm.trans e2
    cases this
    by_cases hout : usage = "Output" ∨ usage = "Input-Output"
    · rw [if_pos hout]
      exact ⟨_, rfl⟩
    · rw [if_neg hout, h1]
      exact ⟨_, rfl⟩
  obtain ⟨d2, hd2⟩ := hp2
  have k2 := saveVolumeField_keeps F usage _ s2 hs2
  have e3 := gatherOrLoadVolumeField_ok F name name usage s2 d2 hd2
  obtain ⟨s3, hs3⟩ : ∃ s3, gatherOrLoadVolumeField F name name usage s2 = Except.ok s3 :=
    ⟨_, e3⟩
  have k3 := gatherOrLoadVolumeField_keeps F name name usage s2 s3 hs3
  have hb3 : s3.nodal_state = some b := by rw [k3.1, k2.1, h1]
  have hc3 : s3.scalar_state = some c := by rw [k3.2.1, k2.2.1, h1]
  have e4 := recordVolumeField_ok name name s3 b c hb3 hc3
  refine ⟨_, s2, s3, _, rfl, by rw [h1], hs2, hs3, e4, ?_⟩
  simp only [volumeField, getRequired, hname, htype, hu, if_neg hused]
  rw [hs2]
  simp only
  rw [hs3]
  simp only
  exact e4

/-- The flags and the parameter map after the registration of a side-set state of one of
the eight supported types. -/
theorem registerSideSetState_flags
    (ss_name sideEBName stateName fieldName fieldType meshPart : String)
    (numLayers : Option Int) (s s1 : StatesState)
    (hsup : fieldType = "Elem Scalar" ∨ fieldType = "Node Scalar"
      ∨ fieldType = "Elem Vector" ∨ fieldType = "Node Vector"
      ∨ fieldType = "Elem Layered Scalar" ∨ fieldType = "Node Layered Scalar"
      ∨ fieldType = "Elem Layered Vector" ∨ fieldType = "Node Layered Vector")
    (h : registerSideSetState ss_name sideEBName stateName fieldName fieldType meshPart
      numLayers s = Except.ok s1) :
    s1.nodal_state = some (decide (fieldType = "Node Scalar" ∨ fieldType = "Node Vector"
        ∨ fieldType = "Node Layered Scalar" ∨ fieldType = "Node Layered Vector"))
    ∧ s1.scalar_state = some (decide (fieldType = "Elem Scalar" ∨ fieldType = "Node Scalar"))
    ∧ s1.is_dist_param = s.is_dist_param
    ∧ s1.is_ss_input_field = s.is_ss_input_field := by
  rcases hsup with rfl | rfl | rfl | rfl | rfl | rfl | rfl | rfl
  · cases h
    exact ⟨rfl, rfl, rfl, rfl⟩
  · cases h
    exact ⟨rfl, rfl, rfl, rfl⟩
  · cases h
    exact ⟨rfl, rfl, rfl, rfl⟩
  · cases h
    exact ⟨rfl, rfl, rfl, rfl⟩
  all_goals
    cases numLayers with
    | none => cases h
    | some n =>
      cases h
      exact ⟨rfl, rfl, rfl, rfl⟩

/-- The Save part of the side-set loop keeps the flags and the maps. -/
theorem saveSideSetField_keeps (F : Factory) (fieldUsage : String) (s s2 : StatesState)
    (h : saveSideSetField F fieldUsage s = Except.ok s2) :
    s2.nodal_state = s.nodal_state ∧ s2.scalar_state = s.scalar_state
    ∧ s2.is_dist_param = s.is_dist_param := by
  unfold saveSideSetField at h
  split at h
  · split at h
    · cases h
    · split at h
      · cases h
      · dsimp only at h
        split at h
        · cases h
        · cases h
          exact ⟨rfl, rfl, rfl⟩
  · cases h
    exact ⟨rfl, rfl, rfl⟩

/-- The gather-or-load part of the side-set loop keeps the flags and the value read from
the parameter map. -/
theorem gatherOrLoadSideSetField_keeps (F : Factory)
    (ss_name stateName fieldName fieldUsage : String) (s s3 : StatesState)
    (h : gatherOrLoadSideSetField F ss_name stateName fieldName fieldUsage s = Except.ok s3) :
    s3.nodal_state = s.nodal_state ∧ s3.scalar_state = s.scalar_state
    ∧ s3.is_dist_param.read stateName false = s.is_dist_param.read stateName false := by
  unfold gatherOrLoadSideSetField at h
  dsimp only at h
  split at h
  · cases h
    exact ⟨rfl, rfl, StrMap.read_touch _ _ _⟩
  · split at h
    · split at h
      · cases h
      · cases h
        exact ⟨rfl, rfl, StrMap.read_touch _ _ _⟩
    · cases h
      exact ⟨rfl, rfl, StrMap.read_touch _ _ _⟩

/-- What the metadata part of the side-set loop records for a field marked as input. -/
theorem recordSideSetField_records (ss_name name : String) (s s4 : StatesState) (b c : Bool)
    (hb : s.nodal_state = some b) (hc : s.scalar_state = some c)
    (h : recordSideSetField ss_name name s = Except.ok s4)
    (hm : s4.is_ss_input_field ss_name name = some true) :
    s4.ss_field_rank ss_name name = some (if c = true then 0 else 1)
    ∧ s4.ss_field_location ss_name name
        = some (if b = true then FieldLocation.Node else FieldLocation.Cell)
    ∧ s4.ss_field_scalar_type ss_name name
        = some (if s.is_dist_param.read name false = true then FieldScalarType.ParamScalar
                else FieldScalarType.Real) := by
  unfold recordSideSetField at h
  by_cases hmark : (s.is_ss_input_field ss_name).read name false = true
  · simp only [hmark, if_true, hb, hc] at h
    cases h
    simp [assign2, StrMap.assign]
  · simp only [hmark, hb, hc] at h
    cases h
    simp only [touch2, if_true, StrMap.touch_same] at hm
    exact absurd (Option.some.inj hm) hmark

end LandIce

namespace LandIce

/-- C21: the metadata that `constructStatesEvaluators` records for an input field. In the
volume loop, an iteration on a field `name` of a supported type whose usage is not
"Unused" succeeds, and if the field is then marked as an input field, the recorded rank
is 0 for "Elem Scalar" and "Node Scalar" and 1 otherwise, the recorded location is Node
for the "Node ..." types and Cell otherwise, and the recorded scalar type is ParamScalar
if the field is a distributed parameter and Real otherwise. In the side-set loop the same
holds of every successful iteration on one of the eight supported types, the four
layered types all having rank 1. -/
theorem input_field_metadata (F : Factory) (ebName ss_name sideEBName name fieldType : String)
    (f : FieldInfo) (s : StatesState)
    (hname : f.fieldName = some name) (htype : f.fieldType = some fieldType)
    (hused : f.fieldUsage.getD "Input" ≠ "Unused") :
    ((fieldType = "Elem Scalar" ∨ fieldType = "Node Scalar"
        ∨ fieldType = "Elem Vector" ∨ fieldType = "Node Vector") →
      ∃ s', volumeField F ebName f s = Except.ok s'
        ∧ (s'.is_input_field name = some true →
          s'.field_rank name
            = some (if fieldType = "Elem Scalar" ∨ fieldType = "Node Scalar" then 0 else 1)
          ∧ s'.field_location name
            = some (if fieldType = "Node Scalar" ∨ fieldType = "Node Vector"
                    then FieldLocation.Node else FieldLocation.Cell)
          ∧ s'.field_scalar_type name
            = some (if s.is_dist_param.read name false = true
                    then FieldScalarType.ParamScalar else FieldScalarType.Real)))
    ∧ ((fieldType = "Elem Scalar" ∨ fieldType = "Node Scalar"
        ∨ fieldType = "Elem Vector" ∨ fieldType = "Node Vector"
        ∨ fieldType = "Elem Layered Scalar" ∨ fieldType = "Node Layered Scalar"
        ∨ fieldType = "Elem Layered Vector" ∨ fieldType = "Node Layered Vector") →
      ∀ s', sideSetField F ss_name sideEBName f s = Except.ok s' →
        s'.is_ss_input_field ss_name name = some true →
          s'.ss_field_rank ss_name name
            = some (if fieldType = "Elem Scalar" ∨ fieldType = "Node Scalar" then 0 else 1)
          ∧ s'.ss_field_location ss_name name
            = some (if fieldType = "Node Scalar" ∨ fieldType = "Node Vector"
                      ∨ fieldType = "Node Layered Scalar" ∨ fieldType = "Node Layered Vector"
                    then FieldLocation.Node else FieldLocation.Cell)
          ∧ s'.ss_field_scalar_type ss_name name
            = some (if s.is_dist_param.read name false = true
                    then FieldScalarType.ParamScalar else FieldScalarType.Real)) := by
  constructor
  · intro hsup
    obtain ⟨s1, s2, s3, s4, h1, hd1, h2, h3, h4, hv⟩ :=
      volumeField_stages F ebName name fieldType f s hname htype hsup hused
    refine ⟨s4, hv, fun hm => ?_⟩
    have fl := registerVolumeState_flags ebName name fieldType
      (if s.is_dist name then s.dist_params_name_to_mesh_part name else "")
      { s with is_dist_param := s.is_dist_param.touch name false } hsup
    rw [← h1] at fl
    have k2 := saveVolumeField_keeps F _ s1 s2 h2
    have k3 := gatherOrLoadVolumeField_keeps F name name _ s2 s3 h3
    have hb3 : s3.nodal_state
        = some (decide (fieldType = "Node Scalar" ∨ fieldType = "Node Vector")) := by
      rw [k3.1, k2.1, fl.1]
    have hc3 : s3.scalar_state
        = some (decide (fieldType = "Elem Scalar" ∨ fieldType = "Node Scalar")) := by
      rw [k3.2.1, k2.2.1, fl.2]
    have hr := recordVolumeField_records name s3 s4 _ _ hb3 hc3 h4 hm
    have hparam : s3.is_dist_param.read name false = s.is_dist_param.read name false := by
      rw [k3.2.2, k2.2.2.1, hd1, StrMap.read_touch]
    rw [hparam] at hr
    simpa using hr
  · intro hsup s' hv hm
    simp only [sideSetField, getRequired, hname, htype, if_neg hused] at hv
    cases h1 : registerSideSetState ss_name sideEBName name (name ++ "_" ++ ss_name) fieldType
        "" f.numLayers s with
    | error e => rw [h1] at hv; cases hv
    | ok s1 =>
      rw [h1] at hv
      simp only at hv
      cases h2 : saveSideSetField F (f.fieldUsage.getD "Input") s1 with
      | error e => rw [h2] at hv; cases hv
      | ok s2 =>
        rw [h2] at hv
        simp only at hv
        cases h3 : gatherOrLoadSideSetField F ss_name name (name ++ "_" ++ ss_name)
            (f.fieldUsage.getD "Input") s2 with
        | error e => rw [h3] at hv; cases hv
        | ok s3 =>
          rw [h3] at hv
          simp only at hv
          have fl := registerSideSetState_flags ss_name sideEBName name _ fieldType ""
            f.numLayers s s1 hsup h1
          have k2 := saveSideSetField_keeps F _ s1 s2 h2
          have k3 := gatherOrLoadSideSetField_keeps F ss_name name _ _ s2 s3 h3
          have hb3 := k3.1.trans (k2.1.trans fl.1)
          have hc3 := k3.2.1.trans (k2.2.1.trans fl.2.1)
          have hr := recordSideSetField_records ss_name name s3 s' _ _ hb3 hc3 hv hm
          have hparam : s3.is_dist_param.read name false = s.is_dist_param.read name false := by
            rw [k3.2.2, k2.2.2, fl.2.2.1]
          rw [hparam] at hr
          simpa using hr

/-- Witness of C21: a "Node Vector" volume field with usage "Input" is recorded with rank
1, location Node and scalar type Real; a "Node Layered Scalar" side-set field that is a
distributed parameter is recorded with rank 1, location Node and scalar type
ParamScalar. -/
theorem input_field_metadata_witness :
    (∃ s', volumeField sampleFactory "eb"
          { fieldName := some "velocity", fieldUsage := some "Input",
            fieldType := some "Node Vector", numLayers := none } StatesState.empty
          = Except.ok s'
        ∧ s'.field_rank "velocity" = some 1
        ∧ s'.field_location "velocity" = some FieldLocation.Node
        ∧ s'.field_scalar_type "velocity" = some FieldScalarType.Real)
    ∧ (∃ s', sideSetField sampleFactory "basal" "sideEB"
          { fieldName := some "beta", fieldUsage := some "Input",
            fieldType := some "Node Layered Scalar", numLayers := some 2 }
          { StatesState.empty with
            is_dist_param := StatesState.empty.is_dist_param.assign "beta" true }
          = Except.ok s'
        ∧ s'.ss_field_rank "basal" "beta" = some 1
        ∧ s'.ss_field_location "basal" "beta" = some FieldLocation.Node
        ∧ s'.ss_field_scalar_type "basal" "beta" = some FieldScalarType.ParamScalar) := by
  constructor
  · have h := (input_field_metadata sampleFactory "eb" "basal" "sideEB" "velocity"
      "Node Vector"
      { fieldName := some "velocity", fieldUsage := some "Input",
        fieldType := some "Node Vector", numLayers := none } StatesState.empty rfl rfl
      (by decide)).1 (by decide)
    obtain ⟨s', h1, h2⟩ := h
    have hm : s'.is_input_field "velocity" = some true := by
      have e : volumeField sampleFactory "eb"
          { fieldName := some "velocity", fieldUsage := some "Input",
            fieldType := some "Node Vector", numLayers := none } StatesState.empty
          = Except.ok _ := rfl
      cases h1.symm.trans e
      rfl
    exact ⟨s', h1, by simpa using h2 hm⟩
  · refine ⟨_, rfl, ?_⟩
    have h := (input_field_metadata sampleFactory "eb" "basal" "sideEB" "beta"
      "Node Layered Scalar"
      { fieldName := some "beta", fieldUsage := some "Input",
        fieldType := some "Node Layered Scalar", numLayers := some 2 }
      { StatesState.empty with
        is_dist_param := StatesState.empty.is_dist_param.assign "beta" true } rfl rfl
      (by decide)).2 (by decide) _ rfl rfl
    simpa [StrMap.read, StrMap.assign] using h

end LandIce

namespace LandIce

/-- The evaluators after a guarded registration. -/
theorem registerIf_evaluators (c : Bool) (ev : Evaluator) (s : StatesState) :
    (registerIf c ev s).fm.evaluators = s.fm.evaluators ++ (if c = true then [ev] else []) := by
  cases c <;> simp [registerIf, FieldManager.registerEvaluator]

/-- A guarded registration requires no field. -/
theorem registerIf_required (c : Bool) (ev : Evaluator) (s : StatesState) :
    (registerIf c ev s).fm.required = s.fm.required := by
  cases c <;> simp [registerIf, FieldManager.registerEvaluator]

/-- C22: one iteration of the volume loop of `constructInterpolationEvaluators` on a field
`fname` whose location and rank are recorded, `utils` being the utilities the iteration
selects. A Cell-located field registers no evaluator whatever its needs. A Node-located
field of rank 0 or 1 registers one evaluator per set flag among QP_VAL, GRAD_QP_VAL and
CELL_VAL, in that order; of rank 2, one per set flag among QP_VAL and GRAD_QP_VAL only;
of any other rank the iteration fails with `std::runtime_error`. -/
theorem volume_interpolation (input : InterpolationInput) (fname : String) (needs : Needs)
    (s : StatesState) (location : FieldLocation) (rank : Int) (utils : EvaluatorUtils)
    (hloc : s.field_location fname = some location)
    (hrank : s.field_rank fname = some rank)
    (hutils : utils = if s.is_input_field.read fname false = true then input.getPSTUtils
      else input.evalUtils) :
    (location = FieldLocation.Cell →
      ∃ s', volumeInterpolation input (fname, needs) s = Except.ok s' ∧ s'.fm = s.fm)
    ∧ (location = FieldLocation.Node → rank = 0 →
      ∃ s', volumeInterpolation input (fname, needs) s = Except.ok s'
        ∧ s'.fm.evaluators = s.fm.evaluators
          ++ (if needs QP_VAL = true then [utils.constructDOFInterpolationEvaluator fname]
              else [])
          ++ (if needs GRAD_QP_VAL = true
              then [utils.constructDOFGradInterpolationEvaluator fname] else [])
          ++ (if needs CELL_VAL = true
              then [utils.constructNodesToCellInterpolationEvaluator fname false] else []))
    ∧ (location = FieldLocation.Node → rank = 1 →
      ∃ s', volumeInterpolation input (fname, needs) s = Except.ok s'
        ∧ s'.fm.evaluators = s.fm.evaluators
          ++ (if needs QP_VAL = true then [utils.constructDOFVecInterpolationEvaluator fname]
              else [])
          ++ (if needs GRAD_QP_VAL = true
              then [utils.constructDOFVecGradInterpolationEvaluator fname] else [])
          ++ (if needs CELL_VAL = true
              then [utils.constructNodesToCellInterpolationEvaluator fname true] else []))
    ∧ (location = FieldLocation.Node → rank = 2 →
      ∃ s', volumeInterpolation input (fname, needs) s = Except.ok s'
        ∧ s'.fm.evaluators = s.fm.evaluators
          ++ (if needs QP_VAL = true
              then [utils.constructDOFTensorInterpolationEvaluator fname] else [])
          ++ (if needs GRAD_QP_VAL = true
              then [utils.constructDOFTensorGradInterpolationEvaluator fname] else []))
    ∧ (location = FieldLocation.Node → rank ≠ 0 → rank ≠ 1 → rank ≠ 2 →
      volumeInterpolation input (fname, needs) s
        = Except.error InterpolationError.runtime_error) := by
  subst hutils
  refine ⟨?_, ?_, ?_, ?_, ?_⟩
  · rintro rfl
    simp only [volumeInterpolation, StrMap.at, hloc]
    exact ⟨_, rfl, rfl⟩
  · rintro rfl rfl
    simp only [volumeInterpolation, StrMap.at, hloc, hrank, if_true]
    refine ⟨_, rfl, ?_⟩
    simp only [registerIf_evaluators, List.append_assoc]
  · rintro rfl rfl
    simp only [volumeInterpolation, StrMap.at, hloc, hrank, if_true]
    refine ⟨_, rfl, ?_⟩
    simp only [registerIf_evaluators, List.append_assoc]
  · rintro rfl rfl
    simp only [volumeInterpolation, StrMap.at, hloc, hrank, if_true]
    refine ⟨_, rfl, ?_⟩
    simp only [registerIf_evaluators, List.append_assoc]
  · rintro rfl h0 h1 h2
    simp only [volumeInterpolation, StrMap.at, hloc, hrank, if_true, if_neg h0, if_neg h1,
      if_neg h2]

end LandIce

namespace LandIce

/-- Witness of C22: a Node-located field of rank 2 with all three needs set gets the two
tensor interpolation evaluators and nothing for its CELL_VAL need. -/
theorem volume_interpolation_witness :
    ∃ s', volumeInterpolation sampleInterpolation
        ("stress", Needs.ofList [true, true, true])
        (stateWithField "stress" FieldLocation.Node 2) = Except.ok s'
      ∧ s'.fm.evaluators =
        [(sampleUtils "").constructDOFTensorInterpolationEvaluator "stress",
         (sampleUtils "").constructDOFTensorGradInterpolationEvaluator "stress"] := by
  obtain ⟨s', h, he⟩ := (volume_interpolation sampleInterpolation "stress"
    (Needs.ofList [true, true, true]) (stateWithField "stress" FieldLocation.Node 2)
    FieldLocation.Node 2 (sampleUtils "") rfl rfl rfl).2.2.2.1 rfl rfl
  exact ⟨s', h, he⟩

/-- The result of one iteration of the side-set loop once location and rank are resolved. -/
theorem sideInterpolation_resolved (input : InterpolationInput) (ss_name fname : String)
    (needs : Needs) (s : StatesState) (entity : FieldLocation) (rank : Int)
    (hent : (if needs CELL_TO_SIDE = true then s.field_location fname
             else s.ss_field_location ss_name fname) = some entity)
    (hrank : (if needs CELL_TO_SIDE = true then s.field_rank fname
              else s.ss_field_rank ss_name fname) = some rank) :
    sideInterpolation input ss_name (fname, needs) s =
      if rank < 0 ∨ rank > 1 then Except.error InterpolationError.logic_error
      else if entity = FieldLocation.Node then
        Except.ok
          (registerIf (needs SIDE_TO_CELL)
            ((if (s.is_ss_input_field ss_name).read fname false = true
              then input.getPSTUtils else input.evalUtils).constructDOFCellToSideEvaluator
              (fname ++ "_" ++ ss_name) ss_name
              (input.e2str entity ++ " " ++ input.rank2str rank) fname none)
          (registerIf (needs CELL_TO_SIDE)
            ((if (s.is_ss_input_field ss_name).read fname false = true
              then input.getPSTUtils else input.evalUtils).constructDOFCellToSideEvaluator
              fname ss_name (input.e2str entity ++ " " ++ input.rank2str rank)
              (fname ++ "_" ++ ss_name) (some input.enableMemoizer))
          (registerIf (needs CELL_VAL)
            ((if (s.is_ss_input_field ss_name).read fname false = true
              then input.getPSTUtils
              else input.evalUtils).constructSideQuadPointsToSideInterpolationEvaluator
              (fname ++ "_" ++ ss_name) ss_name (decide (rank = 1)))
          (registerIf (needs GRAD_QP_VAL)
            (if rank = 0 then
              (if (s.is_ss_input_field ss_name).read fname false = true
               then input.getPSTUtils
               else input.evalUtils).constructDOFGradInterpolationSideEvaluator
                (fname ++ "_" ++ ss_name) ss_name input.enableMemoizer
             else
              (if (s.is_ss_input_field ss_name).read fname false = true
               then input.getPSTUtils
               else input.evalUtils).constructDOFVecGradInterpolationSideEvaluator
                (fname ++ "_" ++ ss_name) ss_name input.enableMemoizer)
          (registerIf (needs QP_VAL)
            (if rank = 0 then
              (if (s.is_ss_input_field ss_name).read fname false = true
               then input.getPSTUtils
               else input.evalUtils).constructDOFInterpolationSideEvaluator
                (fname ++ "_" ++ ss_name) ss_name input.enableMemoizer
             else
              (if (s.is_ss_input_field ss_name).read fname false = true
               then input.getPSTUtils
               else input.evalUtils).constructDOFVecInterpolationSideEvaluator
                (fname ++ "_" ++ ss_name) ss_name input.enableMemoizer)
            { s with is_ss_input_field :=
                touch2 s.is_ss_input_field ss_name fname false })))))
      else Except.error InterpolationError.runtime_error := by
  have he : (if needs CELL_TO_SIDE = true then s.field_location.at fname
      else (s.ss_field_location ss_name).at fname) = Except.ok entity := by
    by_cases hc : needs CELL_TO_SIDE = true
    · rw [if_pos hc] at hent ⊢
      simp only [StrMap.at, hent]
    · rw [if_neg hc] at hent ⊢
      simp only [StrMap.at, hent]
  have hr : (if needs CELL_TO_SIDE = true then s.field_rank.at fname
      else (s.ss_field_rank ss_name).at fname) = Except.ok rank := by
    by_cases hc : needs CELL_TO_SIDE = true
    · rw [if_pos hc] at hrank ⊢
      simp only [StrMap.at, hrank]
    · rw [if_neg hc] at hrank ⊢
      simp only [StrMap.at, hrank]
  unfold sideInterpolation
  simp only [he, hr]

/-- C23: one iteration of the side-set loop of `constructInterpolationEvaluators`, with
location `entity` and rank `rank` read from the volume maps if the CELL_TO_SIDE need is
set and from the side-set maps otherwise. A rank outside 0..1 fails with
`std::logic_error`; otherwise a location other than Node fails with
`std::runtime_error`; the iteration fails if and only if one of the two holds. So a
Cell-located field fails whatever the needs array. -/
theorem side_interpolation_failure (input : InterpolationInput) (ss_name fname : String)
    (needs : Needs) (s : StatesState) (entity : FieldLocation) (rank : Int)
    (hent : (if needs CELL_TO_SIDE = true then s.field_location fname
             else s.ss_field_location ss_name fname) = some entity)
    (hrank : (if needs CELL_TO_SIDE = true then s.field_rank fname
              else s.ss_field_rank ss_name fname) = some rank) :
    ((rank < 0 ∨ rank > 1) →
      sideInterpolation input ss_name (fname, needs) s
        = Except.error InterpolationError.logic_error)
    ∧ (0 ≤ rank → rank ≤ 1 → entity ≠ FieldLocation.Node →
      sideInterpolation input ss_name (fname, needs) s
        = Except.error InterpolationError.runtime_error)
    ∧ ((∃ e, sideInterpolation input ss_name (fname, needs) s = Except.error e)
        ↔ (rank < 0 ∨ rank > 1 ∨ entity ≠ FieldLocation.Node))
    ∧ (entity = FieldLocation.Cell →
        ∃ e, sideInterpolation input ss_name (fname, needs) s = Except.error e) := by
  rw [sideInterpolation_resolved input ss_name fname needs s entity rank hent hrank]
  generalize registerIf (needs SIDE_TO_CELL) _ _ = x
  have hiff : (∃ e, (if rank < 0 ∨ rank > 1 then
        (Except.error InterpolationError.logic_error :
          Except InterpolationError StatesState)
      else if entity = FieldLocation.Node then Except.ok x
      else Except.error InterpolationError.runtime_error) = Except.error e)
      ↔ (rank < 0 ∨ rank > 1 ∨ entity ≠ FieldLocation.Node) := by
    by_cases h1 : rank < 0 ∨ rank > 1
    · rw [if_pos h1]
      constructor
      · intro _
        rcases h1 with h | h
        · exact Or.inl h
        · exact Or.inr (Or.inl h)
      · intro _
        exact ⟨_, rfl⟩
    · rw [if_neg h1]
      by_cases h2 : entity = FieldLocation.Node
      · rw [if_pos h2]
        constructor
        · rintro ⟨e, he⟩
          cases he
        · rintro (h | h | h)
          · exact absurd (Or.inl h) h1
          · exact absurd (Or.inr h) h1
          · exact absurd h2 h
      · rw [if_neg h2]
        constructor
        · intro _
          exact Or.inr (Or.inr h2)
        · intro _
          exact ⟨_, rfl⟩
  refine ⟨?_, ?_, hiff, ?_⟩
  · intro h
    rw [if_pos h]
  · intro h0 h1 h2
    rw [if_neg (by omega), if_neg h2]
  · intro h
    exact hiff.2 (Or.inr (Or.inr (by rw [h]; decide)))

/-- Witness of C23: a Cell-located scalar volume field whose only need is the cell-to-side
projection fails with `std::runtime_error`. -/
theorem side_interpolation_failure_witness :
    sideInterpolation sampleInterpolation "basal"
      ("thickness", Needs.ofList [false, false, false, true, false])
      (stateWithField "thickness" FieldLocation.Cell 0)
      = Except.error InterpolationError.runtime_error :=
  (side_interpolation_failure sampleInterpolation "basal" "thickness"
    (Needs.ofList [false, false, false, true, false])
    (stateWithField "thickness" FieldLocation.Cell 0) FieldLocation.Cell 0
    rfl rfl).2.1 (by decide) (by decide) (by decide)

end LandIce

namespace LandIce

/-- The guarded `requireField` requires the first evaluated field, if there is one. -/
theorem requiredAfterSave_required (fm : FieldManager) (ev : Evaluator) :
    (requiredAfterSave fm ev).required = fm.required ++ ev.evaluatedFields.take 1 := by
  unfold requiredAfterSave
  cases ev.evaluatedFields with
  | nil => simp
  | cons tag rest => simp [FieldManager.requireField]

/-- The dissipation block in closed form. -/
theorem saveDissipation_eq (flag : Bool) (choice : FieldManagerChoice)
    (ev1 ev2 saveEv : Evaluator) (s : FieldManager × List String) :
    ∃ s1, constructVelocityEvaluators_saveDissipation flag choice ev1 ev2 saveEv s = some s1
      ∧ s1.1.evaluators = s.1.evaluators
          ++ (if flag = true then [ev1, ev2, saveEv] else [])
      ∧ s1.1.required = s.1.required
          ++ (if flag = true ∧ choice = FieldManagerChoice.BUILD_RESID_FM
              then saveEv.evaluatedFields.take 1 else [])
      ∧ s1.2 = s.2 ++ (if flag = true then ["dissipation_heat"] else []) := by
  unfold constructVelocityEvaluators_saveDissipation
  cases flag with
  | false => exact ⟨_, rfl, by simp, by simp, by simp⟩
  | true =>
    by_cases hc : choice = FieldManagerChoice.BUILD_RESID_FM
    · simp only [if_true, if_pos hc, requireIfEvaluates_eq, Option.map_some']
      refine ⟨_, rfl, ?_, ?_, ?_⟩
      · simp [requiredAfterSave_evaluators, FieldManager.registerEvaluator]
      · simp [requiredAfterSave_required, FieldManager.registerEvaluator, hc]
      · rfl
    · simp only [if_true, if_neg hc]
      refine ⟨_, rfl, ?_, ?_, ?_⟩
      · simp [FieldManager.registerEvaluator]
      · simp [FieldManager.registerEvaluator, hc]
      · rfl

/-- The stress block in closed form. -/
theorem saveStress_eq (flag : Bool) (choice : FieldManagerChoice)
    (ev2 saveEv : Evaluator) (s : FieldManager × List String) :
    ∃ s1, constructVelocityEvaluators_saveStress flag choice ev2 saveEv s = some s1
      ∧ s1.1.evaluators = s.1.evaluators ++ (if flag = true then [ev2, saveEv] else [])
      ∧ s1.1.required = s.1.required
          ++ (if flag = true ∧ choice = FieldManagerChoice.BUILD_RESID_FM
              then saveEv.evaluatedFields.take 1 else [])
      ∧ s1.2 = s.2 ++ (if flag = true then ["Stress Tensor"] else []) := by
  unfold constructVelocityEvaluators_saveStress
  cases flag with
  | false => exact ⟨_, rfl, by simp, by simp, by simp⟩
  | true =>
    by_cases hc : choice = FieldManagerChoice.BUILD_RESID_FM
    · simp only [if_true, if_pos hc, requireIfEvaluates_eq, Option.map_some']
      refine ⟨_, rfl, ?_, ?_, ?_⟩
      · simp [requiredAfterSave_evaluators, FieldManager.registerEvaluator]
      · simp [requiredAfterSave_required, FieldManager.registerEvaluator, hc]
      · rfl
    · simp only [if_true, if_neg hc]
      refine ⟨_, rfl, ?_, ?_, ?_⟩
      · simp [FieldManager.registerEvaluator]
      · simp [FieldManager.registerEvaluator, hc]
      · rfl

/-- The evaluators and the required fields of `constructVelocityEvaluators` in closed form,
when `resid_names` has a first entry and, for the residual field manager, `scatter_names`
has one too. -/
theorem constructVelocityEvaluators_result {α : Type} [Zero α] [DecidableEq α]
    (F : VelocityFactory) (input : VelocityInput α) (s : FieldManager × List String)
    (resid scatter : String)
    (hres : input.resid_names[0]? = some resid)
    (hscat : input.fieldManagerChoice = FieldManagerChoice.BUILD_RESID_FM →
      input.scatter_names[0]? = some scatter) :
    ∃ s', constructVelocityEvaluators F input s = some s'
      ∧ s'.1.evaluators = s.1.evaluators
          ++ [F.constructMapToPhysicalFrameEvaluator,
              F.constructComputeBasisFunctionsEvaluator,
              F.getMSTUtils_constructQuadPointsToCellInterpolationEvaluator
                input.coord_vec_name,
              F.StokesFOStress, F.StokesFOResid resid,
              F.SharedParameter "Glen\x27s Law Homotopy Parameter",
              F.PressureCorrectedTemperature (input.useMDFieldMemoization.getD false)]
          ++ (if input.flowRateType.isSome = true ∧ input.flowRateType ≠ some "From File"
                ∧ input.flowRateType ≠ some "From CISM"
              then [F.FlowRate
                (if input.clausiusClapeyronCoefficient.isSome = true
                    ∧ input.clausiusClapeyronCoefficient ≠ some 0
                 then "corrected temperature" else "temperature")]
              else [])
          ++ [F.ViscosityFO
                (if input.clausiusClapeyronCoefficient.isSome = true
                    ∧ input.clausiusClapeyronCoefficient ≠ some 0
                 then "corrected temperature" else "temperature")
                "Glen\x27s Law Homotopy Parameter"]
          ++ (if input.extractStrainRateSq.getD false = true
              then [F.Dissipation,
                    F.getPSTUtils_constructQuadPointsToCellInterpolationEvaluator
                      "LandIce Dissipation",
                    F.SaveStateField "dissipation_heat" (some "LandIce Dissipation")]
              else [])
          ++ (if input.printStressTensor.getD false = true
              then [F.constructQuadPointsToCellInterpolationEvaluator "Stress Tensor",
                    F.SaveStateField "Stress Tensor" (some "Stress Tensor")]
              else [])
          ++ (if input.CISM_HAS_LANDICE = true then [F.CismSurfaceGradFO] else [])
          ++ [F.StokesFOBodyForce input.CISM_HAS_LANDICE
                (input.useMDFieldMemoization.getD false)]
          ++ (if input.useTimeParameter = some true
              then [F.Time, F.SaveStateField "Time" none] else [])
      ∧ s'.1.required = s.1.required
          ++ (if input.extractStrainRateSq.getD false = true
                ∧ input.fieldManagerChoice = FieldManagerChoice.BUILD_RESID_FM
              then (F.SaveStateField "dissipation_heat"
                (some "LandIce Dissipation")).evaluatedFields.take 1
              else [])
          ++ (if input.printStressTensor.getD false = true
                ∧ input.fieldManagerChoice = FieldManagerChoice.BUILD_RESID_FM
              then (F.SaveStateField "Stress Tensor"
                (some "Stress Tensor")).evaluatedFields.take 1
              else [])
          ++ (if input.fieldManagerChoice = FieldManagerChoice.BUILD_RESID_FM
              then [Tag.mk scatter] else []) := by
  have hT : ∀ cc : Option α, ((match cc with
        | some c => decide (c ≠ 0)
        | none => false) = true) ↔ (cc.isSome = true ∧ cc ≠ some 0) := by
    intro cc
    cases cc with
    | none => simp
    | some c => simp
  unfold constructVelocityEvaluators
  simp only [hres]
  obtain ⟨s1, h1, e1, r1, -⟩ := saveDissipation_eq (input.extractStrainRateSq.getD false)
    input.fieldManagerChoice F.Dissipation
    (F.getPSTUtils_constructQuadPointsToCellInterpolationEvaluator "LandIce Dissipation")
    (F.SaveStateField "dissipation_heat" (some "LandIce Dissipation"))
    (((match input.flowRateType with
      | some flowRateType =>
        if flowRateType = "From File" ∨ flowRateType = "From CISM" then
          ((((((s.1.registerEvaluator F.constructMapToPhysicalFrameEvaluator).registerEvaluator
            F.constructComputeBasisFunctionsEvaluator).registerEvaluator
            (F.getMSTUtils_constructQuadPointsToCellInterpolationEvaluator
              input.coord_vec_name)).registerEvaluator F.StokesFOStress).registerEvaluator
            (F.StokesFOResid resid)).registerEvaluator
            (F.SharedParameter "Glen\x27s Law Homotopy Parameter")).registerEvaluator
            (F.PressureCorrectedTemperature (input.useMDFieldMemoization.getD false))
        else
          (((((((s.1.registerEvaluator F.constructMapToPhysicalFrameEvaluator).registerEvaluator
            F.constructComputeBasisFunctionsEvaluator).registerEvaluator
            (F.getMSTUtils_constructQuadPointsToCellInterpolationEvaluator
              input.coord_vec_name)).registerEvaluator F.StokesFOStress).registerEvaluator
            (F.StokesFOResid resid)).registerEvaluator
            (F.SharedParameter "Glen\x27s Law Homotopy Parameter")).registerEvaluator
            (F.PressureCorrectedTemperature
              (input.useMDFieldMemoization.getD false))).registerEvaluator (F.FlowRate
            (if (match input.clausiusClapeyronCoefficient with
                 | some c => decide (c ≠ 0)
                 | none => false) = true
             then "corrected temperature" else "temperature"))
      | none =>
          ((((((s.1.registerEvaluator F.constructMapToPhysicalFrameEvaluator).registerEvaluator
            F.constructComputeBasisFunctionsEvaluator).registerEvaluator
            (F.getMSTUtils_constructQuadPointsToCellInterpolationEvaluator
              input.coord_vec_name)).registerEvaluator F.StokesFOStress).registerEvaluator
            (F.StokesFOResid resid)).registerEvaluator
            (F.SharedParameter "Glen\x27s Law Homotopy Parameter")).registerEvaluator
            (F.PressureCorrectedTemperature
              (input.useMDFieldMemoization.getD false))).registerEvaluator
      (F.ViscosityFO
        (if (match input.clausiusClapeyronCoefficient with
             | some c => decide (c ≠ 0)
             | none => false) = true
         then "corrected temperature" else "temperature")
        "Glen\x27s Law Homotopy Parameter")), s.2)
  rw [h1]
  simp only
  obtain ⟨s2, h2, e2, r2, -⟩ := saveStress_eq (input.printStressTensor.getD false)
    input.fieldManagerChoice
    (F.constructQuadPointsToCellInterpolationEvaluator "Stress Tensor")
    (F.SaveStateField "Stress Tensor" (some "Stress Tensor")) s1
  rw [h2]
  simp only
  have e0 : ∀ (fm0 : FieldManager) (T : String), (match input.flowRateType with
      | some flowRateType =>
        if flowRateType = "From File" ∨ flowRateType = "From CISM" then fm0
        else fm0.registerEvaluator (F.FlowRate T)
      | none => fm0).evaluators = fm0.evaluators
        ++ (if input.flowRateType.isSome = true ∧ input.flowRateType ≠ some "From File"
              ∧ input.flowRateType ≠ some "From CISM"
            then [F.FlowRate T] else []) := by
    intro fm0 T
    cases input.flowRateType with
    | none => simp
    | some t =>
      by_cases ht : t = "From File" ∨ t = "From CISM"
      · rcases ht with rfl | rfl <;> simp
      · have ht2 := ht
        rw [not_or] at ht2
        simp only [if_neg ht, FieldManager.registerEvaluator]
        simp [ht2.1, ht2.2]
  have e0r : ∀ (fm0 : FieldManager) (T : String), (match input.flowRateType with
      | some flowRateType =>
        if flowRateType = "From File" ∨ flowRateType = "From CISM" then fm0
        else fm0.registerEvaluator (F.FlowRate T)
      | none => fm0).required = fm0.required := by
    intro fm0 T
    cases input.flowRateType with
    | none => rfl
    | some t =>
      by_cases ht : t = "From File" ∨ t = "From CISM"
      · simp only [if_pos ht]
      · simp only [if_neg ht, FieldManager.registerEvaluator]
  have hre : ∀ (fm0 : FieldManager) (ev : Evaluator),
      (fm0.registerEvaluator ev).evaluators = fm0.evaluators ++ [ev] := fun _ _ => rfl
  have hrr : ∀ (fm0 : FieldManager) (ev : Evaluator),
      (fm0.registerEvaluator ev).required = fm0.required := fun _ _ => rfl
  simp only [hre, hrr, e0, e0r, hT] at e1 r1
  rw [e1] at e2
  rw [r1] at r2
  by_cases hc : input.fieldManagerChoice = FieldManagerChoice.BUILD_RESID_FM
  · simp only [if_pos hc, hscat hc]
    cases htime : input.useTimeParameter with
    | none =>
      refine ⟨_, rfl, ?_, ?_⟩
      · cases hcism : input.CISM_HAS_LANDICE <;>
          simp [FieldManager.registerEvaluator, FieldManager.requireField, e2]
      · cases hcism : input.CISM_HAS_LANDICE <;>
          simp [FieldManager.registerEvaluator, FieldManager.requireField, r2, hc]
    | some b =>
      cases b with
      | false =>
        refine ⟨_, rfl, ?_, ?_⟩
        · cases hcism : input.CISM_HAS_LANDICE <;>
            simp [FieldManager.registerEvaluator, FieldManager.requireField, e2]
        · cases hcism : input.CISM_HAS_LANDICE <;>
            simp [FieldManager.registerEvaluator, FieldManager.requireField, r2, hc]
      | true =>
        refine ⟨_, rfl, ?_, ?_⟩
        · cases hcism : input.CISM_HAS_LANDICE <;>
            simp [FieldManager.registerEvaluator, FieldManager.requireField, e2]
        · cases hcism : input.CISM_HAS_LANDICE <;>
            simp [FieldManager.registerEvaluator, FieldManager.requireField, r2, hc]
  · simp only [if_neg hc]
    cases htime : input.useTimeParameter with
    | none =>
      refine ⟨_, rfl, ?_, ?_⟩
      · cases hcism : input.CISM_HAS_LANDICE <;>
          simp [FieldManager.registerEvaluator, e2]
      · cases hcism : input.CISM_HAS_LANDICE <;>
          simp [FieldManager.registerEvaluator, r2, hc]
    | some b =>
      cases b with
      | false =>
        refine ⟨_, rfl, ?_, ?_⟩
        · cases hcism : input.CISM_HAS_LANDICE <;>
            simp [FieldManager.registerEvaluator, e2]
        · cases hcism : input.CISM_HAS_LANDICE <;>
            simp [FieldManager.registerEvaluator, r2, hc]
      | true =>
        refine ⟨_, rfl, ?_, ?_⟩
        · cases hcism : input.CISM_HAS_LANDICE <;>
            simp [FieldManager.registerEvaluator, e2]
        · cases hcism : input.CISM_HAS_LANDICE <;>
            simp [FieldManager.registerEvaluator, r2, hc]

end LandIce

namespace LandIce

/-- C24: the fields that `constructVelocityEvaluators` requires, when `resid_names` has a
first entry and, for the residual field manager, `scatter_names` has one too. The call
returns, and the fields it adds to the required ones are, in this order: the first
evaluated field of the "dissipation_heat" Save evaluator if "Extract Strain Rate Sq" is
set, the choice is `BUILD_RESID_FM` and the evaluator has an evaluated field; the same for
the "Stress Tensor" Save evaluator and "Print Stress Tensor"; the tag of
`scatter_names[0]` if the choice is `BUILD_RESID_FM`. Nothing else is required. -/
theorem velocity_required_fields {α : Type} [Zero α] [DecidableEq α]
    (F : VelocityFactory) (input : VelocityInput α) (s : FieldManager × List String)
    (resid scatter : String)
    (hres : input.resid_names[0]? = some resid)
    (hscat : input.fieldManagerChoice = FieldManagerChoice.BUILD_RESID_FM →
      input.scatter_names[0]? = some scatter) :
    ∃ s', constructVelocityEvaluators F input s = some s'
      ∧ s'.1.required = s.1.required
          ++ (if input.extractStrainRateSq.getD false = true
                ∧ input.fieldManagerChoice = FieldManagerChoice.BUILD_RESID_FM
              then (F.SaveStateField "dissipation_heat"
                (some "LandIce Dissipation")).evaluatedFields.take 1
              else [])
          ++ (if input.printStressTensor.getD false = true
                ∧ input.fieldManagerChoice = FieldManagerChoice.BUILD_RESID_FM
              then (F.SaveStateField "Stress Tensor"
                (some "Stress Tensor")).evaluatedFields.take 1
              else [])
          ++ (if input.fieldManagerChoice = FieldManagerChoice.BUILD_RESID_FM
              then [Tag.mk scatter] else []) := by
  obtain ⟨s', h, _, hr⟩ := constructVelocityEvaluators_result F input s resid scatter hres hscat
  exact ⟨s', h, hr⟩

/-- Witness of C24: for the residual field manager with both Save options set, the fields
required are those of the two Save evaluators and the scatter field. -/
theorem velocity_required_fields_witness :
    ∃ s', constructVelocityEvaluators sampleVelocityFactory (sampleVelocityInput none)
        ({ evaluators := [], required := [] }, []) = some s'
      ∧ s'.1.required
        = [Tag.mk "dissipation_heat", Tag.mk "Stress Tensor", Tag.mk "Scatter Velocity"] := by
  obtain ⟨s', h, hr⟩ := velocity_required_fields sampleVelocityFactory
    (sampleVelocityInput none) ({ evaluators := [], required := [] }, [])
    "Velocity Residual" "Scatter Velocity" rfl (fun _ => rfl)
  exact ⟨s', h, hr⟩

/-- C28: the flow-rate and the viscosity evaluator of `constructVelocityEvaluators` get the
same "Temperature Variable Name" `T`: "corrected temperature" if the
"Clausius-Clapeyron Coefficient" is present and non-zero, "temperature" otherwise. The
flow-rate evaluator is registered, right before the viscosity evaluator, if and only if
"Flow Rate Type" is present and is neither "From File" nor "From CISM"; the viscosity
evaluator is always registered. The list is the whole of the evaluators that the call
registers, when `resid_names` has a first entry and, for the residual field manager,
`scatter_names` has one too. -/
theorem flow_rate_and_viscosity_temperature {α : Type} [Zero α] [DecidableEq α]
    (F : VelocityFactory) (input : VelocityInput α) (s : FieldManager × List String)
    (resid scatter T : String)
    (hres : input.resid_names[0]? = some resid)
    (hscat : input.fieldManagerChoice = FieldManagerChoice.BUILD_RESID_FM →
      input.scatter_names[0]? = some scatter)
    (hT : T = if input.clausiusClapeyronCoefficient.isSome = true
                ∧ input.clausiusClapeyronCoefficient ≠ some 0
              then "corrected temperature" else "temperature") :
    ∃ s', constructVelocityEvaluators F input s = some s'
      ∧ s'.1.evaluators = s.1.evaluators
          ++ [F.constructMapToPhysicalFrameEvaluator,
              F.constructComputeBasisFunctionsEvaluator,
              F.getMSTUtils_constructQuadPointsToCellInterpolationEvaluator
                input.coord_vec_name,
              F.StokesFOStress, F.StokesFOResid resid,
              F.SharedParameter "Glen\x27s Law Homotopy Parameter",
              F.PressureCorrectedTemperature (input.useMDFieldMemoization.getD false)]
          ++ (if input.flowRateType.isSome = true ∧ input.flowRateType ≠ some "From File"
                ∧ input.flowRateType ≠ some "From CISM"
              then [F.FlowRate T] else [])
          ++ [F.ViscosityFO T "Glen\x27s Law Homotopy Parameter"]
          ++ (if input.extractStrainRateSq.getD false = true
              then [F.Dissipation,
                    F.getPSTUtils_constructQuadPointsToCellInterpolationEvaluator
                      "LandIce Dissipation",
                    F.SaveStateField "dissipation_heat" (some "LandIce Dissipation")]
              else [])
          ++ (if input.printStressTensor.getD false = true
              then [F.constructQuadPointsToCellInterpolationEvaluator "Stress Tensor",
                    F.SaveStateField "Stress Tensor" (some "Stress Tensor")]
              else [])
          ++ (if input.CISM_HAS_LANDICE = true then [F.CismSurfaceGradFO] else [])
          ++ [F.StokesFOBodyForce input.CISM_HAS_LANDICE
                (input.useMDFieldMemoization.getD false)]
          ++ (if input.useTimeParameter = some true
              then [F.Time, F.SaveStateField "Time" none] else []) := by
  obtain ⟨s', h, he, _⟩ := constructVelocityEvaluators_result F input s resid scatter hres hscat
  subst hT
  exact ⟨s', h, he⟩

/-- Witness of C28: with a non-zero coefficient and a flow rate type that is computed, the
flow-rate and the viscosity evaluator are both built with "corrected temperature". -/
theorem flow_rate_and_viscosity_temperature_witness :
    ∃ s', constructVelocityEvaluators sampleVelocityFactory
        (sampleVelocityInput (some (1 / 100))) ({ evaluators := [], required := [] }, [])
        = some s'
      ∧ (s'.1.evaluators.map (fun ev => ev.name)).take 9
        = ["MapToPhysicalFrame", "ComputeBasisFunctions", "MST QuadPointsToCellInterpolation",
           "StokesFOStress", "StokesFOResid", "SharedParameter",
           "PressureCorrectedTemperature", "FlowRate corrected temperature",
           "ViscosityFO corrected temperature"] := by
  obtain ⟨s', h, he⟩ := flow_rate_and_viscosity_temperature sampleVelocityFactory
    (sampleVelocityInput (some (1 / 100))) ({ evaluators := [], required := [] }, [])
    "Velocity Residual" "Scatter Velocity" "corrected temperature" rfl (fun _ => rfl)
    (by simp [sampleVelocityInput])
  refine ⟨s', h, ?_⟩
  rw [he]
  simp [sampleVelocityInput, sampleVelocityFactory]

end LandIce

namespace TopologyBase

/-- The run after a successful parse, by fracture criterion. -/
theorem main_parsed (env : Environment) (av : List String) (o : Options)
    (h : env.parse av defaultOptions = (EParseCommandLineReturn.PARSE_SUCCESSFUL, o)) :
    main env av =
      match o.fracture_criterion with
      | Criterion.ONE =>
        splitAndWrite env o [Action.GlobalMPISession, Action.Topology o.input_file o.output_file,
          Action.FractureCriterionOnce "bulk" "interface" o.probability]
      | Criterion.RANDOM =>
        splitAndWrite env o [Action.GlobalMPISession, Action.Topology o.input_file o.output_file,
          Action.FractureCriterionRandom "bulk" "interface" o.probability]
      | Criterion.TRACTION =>
        { exitCode := 1,
          trace := [Action.GlobalMPISession, Action.Topology o.input_file o.output_file,
            Action.error_message Criterion.TRACTION] } := by
  unfold main
  rw [h]
  obtain ⟨input_file, output_file, fracture_criterion, probability, plot_style⟩ := o
  cases fracture_criterion <;> simp

/-- C29 (as stated, refuted): with the argument "--fracture-criterion=traction", which the
option accepts, `main` reads the mesh, writes the error message of the default branch of
the switch and exits with code 1: no fracture criterion is constructed or set, and no
face is split. -/
theorem traction_exits_with_error :
    sampleParse ["--fracture-criterion=traction"] defaultOptions
      = (EParseCommandLineReturn.PARSE_SUCCESSFUL,
          { defaultOptions with fracture_criterion := Criterion.TRACTION })
    ∧ main sampleEnvironment ["--fracture-criterion=traction"]
      = { exitCode := 1,
          trace := [Action.GlobalMPISession, Action.Topology "input.e" "output.e",
            Action.error_message Criterion.TRACTION] } := by
  constructor
  · rfl
  · rfl

/-- C29 (amended): after a successful parse, for the criteria ONE and RANDOM `main`
constructs the fracture-criterion object of that kind on the parts "bulk" and "interface",
sets it on the topology, splits the open faces and returns 0; for TRACTION, which the
option accepts as well, `main` reports the unknown or unsupported criterion and exits with
code 1 after constructing the topology, without constructing or setting a criterion and
without splitting a face. -/
theorem main_by_criterion (env : Environment) (av : List String) (o : Options)
    (h : env.parse av defaultOptions = (EParseCommandLineReturn.PARSE_SUCCESSFUL, o)) :
    (o.fracture_criterion = Criterion.ONE →
      (main env av).exitCode = 0
      ∧ Action.FractureCriterionOnce "bulk" "interface" o.probability ∈ (main env av).trace
      ∧ Action.set_fracture_criterion ∈ (main env av).trace
      ∧ Action.splitOpenFaces ∈ (main env av).trace)
    ∧ (o.fracture_criterion = Criterion.RANDOM →
      (main env av).exitCode = 0
      ∧ Action.FractureCriterionRandom "bulk" "interface" o.probability ∈ (main env av).trace
      ∧ Action.set_fracture_criterion ∈ (main env av).trace
      ∧ Action.splitOpenFaces ∈ (main env av).trace)
    ∧ (o.fracture_criterion = Criterion.TRACTION →
      main env av
        = { exitCode := 1,
            trace := [Action.GlobalMPISession, Action.Topology o.input_file o.output_file,
              Action.error_message Criterion.TRACTION] }) := by
  rw [main_parsed env av o h]
  refine ⟨?_, ?_, ?_⟩
  · intro hc
    rw [hc]
    cases hd : env.DEBUG_LCM_TOPOLOGY <;> simp [splitAndWrite, hd]
  · intro hc
    rw [hc]
    cases hd : env.DEBUG_LCM_TOPOLOGY <;> simp [splitAndWrite, hd]
  · intro hc
    rw [hc]

/-- Witness of the amended C29: "--fracture-criterion=one" constructs the criterion, sets
it and splits the open faces; "--fracture-criterion=traction" exits with code 1 after the
error message. -/
theorem main_by_criterion_witness :
    ((main sampleEnvironment ["--fracture-criterion=one"]).exitCode = 0
      ∧ Action.FractureCriterionOnce "bulk" "interface" 1
          ∈ (main sampleEnvironment ["--fracture-criterion=one"]).trace
      ∧ Action.set_fracture_criterion
          ∈ (main sampleEnvironment ["--fracture-criterion=one"]).trace
      ∧ Action.splitOpenFaces ∈ (main sampleEnvironment ["--fracture-criterion=one"]).trace)
    ∧ main sampleEnvironment ["--fracture-criterion=traction"]
        = { exitCode := 1,
            trace := [Action.GlobalMPISession, Action.Topology "input.e" "output.e",
              Action.error_message Criterion.TRACTION] } :=
  ⟨(main_by_criterion sampleEnvironment ["--fracture-criterion=one"]
      { defaultOptions with fracture_criterion := Criterion.ONE } rfl).1 rfl,
   (main_by_criterion sampleEnvironment ["--fracture-criterion=traction"]
      { defaultOptions with fracture_criterion := Criterion.TRACTION } rfl).2.2 rfl⟩

/-- C30: the exit code of the topology driver is decided by the parse of the command line
before the mesh is touched. If the parse printed the help, `main` returns 0; if it was
unsuccessful otherwise, `main` returns 1; in both cases nothing is done: no Topology is
constructed and no output written. The option variables handed to the parse hold the
defaults "input.e", "output.e", RANDOM, 1.0 and UNIDIRECTIONAL_UNILEVEL, so a successful
parse that changes none of them makes `main` read "input.e", use the random criterion
with probability 1 and the unidirectional unilevel plot style, and return 0. -/
theorem parse_decides_exit (env : Environment) (av : List String) :
    ((env.parse av defaultOptions).1 = EParseCommandLineReturn.PARSE_HELP_PRINTED →
      main env av = { exitCode := 0, trace := [] })
    ∧ ((env.parse av defaultOptions).1 ≠ EParseCommandLineReturn.PARSE_HELP_PRINTED →
       (env.parse av defaultOptions).1 ≠ EParseCommandLineReturn.PARSE_SUCCESSFUL →
      main env av = { exitCode := 1, trace := [] })
    ∧ defaultOptions =
        { input_file := "input.e", output_file := "output.e",
          fracture_criterion := Criterion.RANDOM, probability := 1,
          plot_style := OutputType.UNIDIRECTIONAL_UNILEVEL }
    ∧ (env.parse av defaultOptions
        = (EParseCommandLineReturn.PARSE_SUCCESSFUL, defaultOptions) →
      main env av = splitAndWrite env defaultOptions
        [Action.GlobalMPISession, Action.Topology "input.e" "output.e",
         Action.FractureCriterionRandom "bulk" "interface" 1]
      ∧ (main env av).exitCode = 0
      ∧ Action.set_output_type OutputType.UNIDIRECTIONAL_UNILEVEL ∈ (main env av).trace) := by
  refine ⟨?_, ?_, rfl, ?_⟩
  · intro h
    unfold main
    simp only [h, if_true]
  · intro h1 h2
    unfold main
    simp only [if_neg h1, h2, ne_eq, not_false_eq_true, if_true]
  · intro h
    rw [main_parsed env av defaultOptions h]
    refine ⟨rfl, ?_, ?_⟩
    · rfl
    · cases hd : env.DEBUG_LCM_TOPOLOGY <;> simp [splitAndWrite, hd, defaultOptions]

/-- Witness of C30: "--help" returns 0 and an unknown argument returns 1, both without any
action; with no argument the driver runs on the defaults and returns 0. -/
theorem parse_decides_exit_witness :
    main sampleEnvironment ["--help"] = { exitCode := 0, trace := [] }
    ∧ main sampleEnvironment ["--bogus"] = { exitCode := 1, trace := [] }
    ∧ (main sampleEnvironment []).exitCode = 0 :=
  ⟨(parse_decides_exit sampleEnvironment ["--help"]).1 rfl,
   (parse_decides_exit sampleEnvironment ["--bogus"]).2.1 (by decide) (by decide),
   ((parse_decides_exit sampleEnvironment []).2.2.2 rfl).2.1⟩

end TopologyBase

namespace Tsunami

theorem put_put {α : Type} (cell qp : Nat) (d : FieldData α) (t n t' n' : α) :
    put cell qp (put cell qp d t n) t' n' = put cell qp d t' n' := by
  ext1 <;> simp [put, set2_set2]

theorem put_self {α : Type} (cell qp : Nat) (d : FieldData α) :
    put cell qp d (d.Tau cell qp) (d.normGc cell qp) = d := by
  ext1 <;> simp [put, set2_self]

/-- The innermost loop body acts on the two accumulators of its point only. -/
theorem innerStep_put {α : Type} [Add α] [Mul α] (k : NavierStokesTau α)
    (cell qp i j : Nat) (d : FieldData α) (a : α × α) :
    innerStep k cell qp i (put cell qp d a.1 a.2) j
      = put cell qp d (accStep k.rho (d.V cell qp) (d.Gc cell qp) i a j).1
          (accStep k.rho (d.V cell qp) (d.Gc cell qp) i a j).2 := by
  ext1 <;> simp [put, innerStep, accStep, set2_same, set2_set2]

/-- A loop whose body acts on the two accumulators of a point acts on them as a whole. -/
theorem foldl_put {α β : Type} (cell qp : Nat) (d : FieldData α)
    (step : FieldData α → β → FieldData α) (f : α × α → β → α × α)
    (h : ∀ a x, step (put cell qp d a.1 a.2) x = put cell qp d (f a x).1 (f a x).2)
    (l : List β) (a : α × α) :
    l.foldl step (put cell qp d a.1 a.2)
      = put cell qp d (l.foldl f a).1 (l.foldl f a).2 := by
  induction l generalizing a with
  | nil => rfl
  | cons x xs ih =>
    rw [List.foldl_cons, h, ih, List.foldl_cons]

theorem tensorLoops_put {α : Type} [Add α] [Mul α] (k : NavierStokesTau α)
    (cell qp : Nat) (d : FieldData α) (a : α × α) :
    tensorLoops k cell qp (put cell qp d a.1 a.2)
      = put cell qp d (accLoops k.numDims k.rho (d.V cell qp) (d.Gc cell qp) a).1
          (accLoops k.numDims k.rho (d.V cell qp) (d.Gc cell qp) a).2 := by
  unfold tensorLoops accLoops
  exact foldl_put cell qp d _ _
    (fun a i => foldl_put cell qp d _ _ (fun a j => innerStep_put k cell qp i j d a) _ a) _ a

/-- Lines 71-79 for any scalar type: the point gets the radicand computed from its own
velocity and metric. -/
theorem pointRadicand_put {α : Type} [Zero α] [OfNat α 12] [Add α] [Mul α] (sqrt : α → α)
    (k : NavierStokesTau α) (cell qp : Nat) (d : FieldData α) :
    pointRadicand sqrt k cell qp d
      = put cell qp d (radicandAt sqrt k (d.V cell qp) (d.Gc cell qp))
          (normGcAt k (d.V cell qp) (d.Gc cell qp)) := by
  have h := tensorLoops_put k cell qp d ((0 : α), (0 : α))
  unfold pointRadicand
  have h0 : ({ ({ d with Tau := set2 d.Tau cell qp 0 } : FieldData α) with
      normGc := set2 d.normGc cell qp 0 } : FieldData α) = put cell qp d 0 0 := rfl
  simp only [h0, h]
  ext1 <;> simp [put, set2_same, set2_set2, radicandAt, normGcAt]

/-- Lines 71-80 for any scalar type. -/
theorem pointBody_put {α : Type} [Zero α] [One α] [OfNat α 12] [Add α] [Mul α] [Div α]
    (sqrt : α → α) (k : NavierStokesTau α) (cell qp : Nat) (d : FieldData α) :
    pointBody sqrt k cell qp d
      = put cell qp d (1 / sqrt (radicandAt sqrt k (d.V cell qp) (d.Gc cell qp)))
          (normGcAt k (d.V cell qp) (d.Gc cell qp)) := by
  unfold pointBody
  simp only [pointRadicand_put]
  ext1 <;> simp [put, set2_same, set2_set2]

/-- The radicand for any scalar type. -/
theorem radicand_at {α : Type} [Zero α] [OfNat α 12] [Add α] [Mul α] (sqrt : α → α)
    (k : NavierStokesTau α) (cell qp : Nat) (d : FieldData α) :
    radicand sqrt k cell qp d = radicandAt sqrt k (d.V cell qp) (d.Gc cell qp) := by
  unfold radicand
  rw [pointRadicand_put]
  exact set2_same _ _ _ _

theorem sweptAt_zero {α : Type} [Zero α] [One α] [OfNat α 12] [Add α] [Mul α] [Div α]
    (sqrt : α → α) (k : NavierStokesTau α) (d : FieldData α) (nq : Nat) :
    sweptAt sqrt k d 0 nq 0 = d := by
  ext1 <;> simp [sweptAt]

theorem sweptAt_point {α : Type} [Zero α] [One α] [OfNat α 12] [Add α] [Mul α] [Div α]
    (sqrt : α → α) (k : NavierStokesTau α) (d : FieldData α) (nc nq nl : Nat) :
    pointBody sqrt k nc nl (sweptAt sqrt k d nc nq nl) = sweptAt sqrt k d nc nq (nl + 1) := by
  rw [pointBody_put]
  have h2 : ∀ c q : Nat, ¬ (c = nc ∧ q = nl) →
      (((c < nc ∧ q < nq) ∨ (c = nc ∧ q < nl + 1)) ↔
        ((c < nc ∧ q < nq) ∨ (c = nc ∧ q < nl))) := by
    intro c q h1
    constructor
    · rintro (h | ⟨hc, hq⟩)
      · exact Or.inl h
      · refine Or.inr ⟨hc, ?_⟩
        rcases Nat.lt_succ_iff_lt_or_eq.mp hq with h | h
        · exact h
        · exact absurd ⟨hc, h⟩ h1
    · rintro (h | ⟨hc, hq⟩)
      · exact Or.inl h
      · exact Or.inr ⟨hc, Nat.lt_succ_of_lt hq⟩
  ext1
  · rfl
  · rfl
  · rfl
  · funext c q
    simp only [sweptAt, put, set2]
    by_cases h1 : c = nc ∧ q = nl
    · obtain ⟨rfl, rfl⟩ := h1
      simp
    · simp only [if_neg h1, h2 c q h1]
  · funext c q
    simp only [sweptAt, put, set2]
    by_cases h1 : c = nc ∧ q = nl
    · obtain ⟨rfl, rfl⟩ := h1
      simp
    · simp only [if_neg h1, h2 c q h1]

theorem sweptAt_cell_done {α : Type} [Zero α] [One α] [OfNat α 12] [Add α] [Mul α] [Div α]
    (sqrt : α → α) (k : NavierStokesTau α) (d : FieldData α) (nc nq : Nat) :
    sweptAt sqrt k d nc nq nq = sweptAt sqrt k d (nc + 1) nq 0 := by
  have h2 : ∀ c q : Nat, ((c < nc ∧ q < nq) ∨ (c = nc ∧ q < nq)) ↔
      ((c < nc + 1 ∧ q < nq) ∨ (c = nc + 1 ∧ q < 0)) := by
    intro c q
    constructor
    · rintro (⟨hc, hq⟩ | ⟨hc, hq⟩)
      · exact Or.inl ⟨Nat.lt_succ_of_lt hc, hq⟩
      · exact Or.inl ⟨by omega, hq⟩
    · rintro (⟨hc, hq⟩ | ⟨_, hq⟩)
      · rcases Nat.lt_succ_iff_lt_or_eq.mp hc with h | h
        · exact Or.inl ⟨h, hq⟩
        · exact Or.inr ⟨h, hq⟩
      · exact absurd hq (Nat.not_lt_zero q)
  ext1
  · rfl
  · rfl
  · rfl
  · funext c q
    simp only [sweptAt, h2]
  · funext c q
    simp only [sweptAt, h2]

theorem cell_fold_at {α : Type} [Zero α] [One α] [OfNat α 12] [Add α] [Mul α] [Div α]
    (sqrt : α → α) (k : NavierStokesTau α) (d : FieldData α) (n : Nat) :
    (List.range n).foldl (cellBody sqrt k) d = sweptAt sqrt k d n k.numQPs 0 := by
  have hq : ∀ nc m : Nat,
      (List.range m).foldl (fun d qp => pointBody sqrt k nc qp d)
        (sweptAt sqrt k d nc k.numQPs 0) = sweptAt sqrt k d nc k.numQPs m := by
    intro nc m
    induction m with
    | zero => rfl
    | succ m ih =>
      rw [List.range_succ, List.foldl_append, ih]
      simp only [List.foldl_cons, List.foldl_nil, sweptAt_point]
  induction n with
  | zero => rw [sweptAt_zero]; rfl
  | succ n ih =>
    rw [List.range_succ, List.foldl_append, ih]
    simp only [List.foldl_cons, List.foldl_nil]
    unfold cellBody
    rw [hq, sweptAt_cell_done]

/-- The Shakib-Hughes branch for any scalar type: each point of the workset gets the value
computed from its own velocity and metric, and nothing else is written. -/
theorem evaluateFields_at {α : Type} [Zero α] [One α] [OfNat α 12] [Add α] [Mul α] [Div α]
    (sqrt : α → α) (k : NavierStokesTau α) (workset : Workset) (d : FieldData α)
    (hk : k.stab_type = some StabType.SHAKIBHUGHES) :
    evaluateFields sqrt k workset d = sweptAt sqrt k d workset.numCells k.numQPs 0 := by
  unfold evaluateFields
  rw [if_pos hk, cell_fold_at]

end Tsunami

namespace Tsunami

theorem Double.round_zero : Double.round 0 = Double.finite 0 := by
  simp [Double.round]

theorem Double.finite_mul_zero (a : ℚ) :
    Double.finite a * Double.finite 0 = Double.finite 0 := by
  show Double.mul (Double.finite a) (Double.finite 0) = Double.finite 0
  simp [Double.mul, Double.round_zero]

theorem Double.zero_mul_finite (a : ℚ) :
    Double.finite 0 * Double.finite a = Double.finite 0 := by
  show Double.mul (Double.finite 0) (Double.finite a) = Double.finite 0
  simp [Double.mul, Double.round_zero]

theorem Double.zero_add_zero : Double.finite 0 + Double.finite 0 = Double.finite 0 := by
  show Double.add (Double.finite 0) (Double.finite 0) = Double.finite 0
  simp [Double.add, Double.round_zero]

/-- A loop keeps what each of its steps keeps. -/
theorem foldl_keeps {β γ : Type} (P : β → Prop) (f : β → γ → β) (l : List γ)
    (h : ∀ b x, x ∈ l → P b → P (f b x)) (b : β) (hb : P b) : P (l.foldl f b) := by
  induction l generalizing b with
  | nil => exact hb
  | cons x xs ih =>
    rw [List.foldl_cons]
    exact ih (fun b y hy => h b y (List.mem_cons_of_mem x hy)) _
      (h b x (List.mem_cons_self x xs) hb)

/-- In `double` arithmetic the first accumulator stays at zero when the velocity is zero,
`rho*rho` is finite and the metric is finite. -/
theorem accLoops_zero_velocity (n : Nat) (rho : Double) (v : Nat → Double)
    (g : Nat → Nat → Double) (r : ℚ) (hrho : rho * rho = Double.finite r)
    (hV : ∀ i, i < n → v i = Double.finite 0)
    (hG : ∀ i j, i < n → j < n → ∃ x, g i j = Double.finite x) (a : Double × Double)
    (ha : a.1 = Double.finite 0) :
    (accLoops n rho v g a).1 = Double.finite 0 := by
  unfold accLoops
  refine foldl_keeps (fun a => a.1 = Double.finite 0) _ _ ?_ a ha
  intro b i hi hb
  refine foldl_keeps (fun a => a.1 = Double.finite 0) _ _ ?_ b hb
  intro c j hj hc
  obtain ⟨x, hx⟩ := hG i j (List.mem_range.mp hi) (List.mem_range.mp hj)
  simp only [accStep, hc, hrho, hV i (List.mem_range.mp hi), hV j (List.mem_range.mp hj), hx,
    Double.finite_mul_zero, Double.zero_mul_finite, Double.zero_add_zero]

/-- C7 (as stated, refuted): in `double` arithmetic, with `mu = 0` and `V = [0,0]` (identity
metric, `rho = 1`) the radicand is exactly `0`, and `evaluateFields` returns with
`Tau(0,0)` holding the result of `1/sqrt 0`, the positive infinity: no failure is
reported and no finite value is stored. -/
theorem evaluateFields_stores_infinity :
    radicand Double.sqrt (sampleKernel Double 2 0 1 StabType.SHAKIBHUGHES) 0 0
        (sampleData (fun _ => 0) (idMetric Double) (Double.finite 7) (Double.finite 9))
      = Double.finite 0
    ∧ (evaluateFields Double.sqrt (sampleKernel Double 2 0 1 StabType.SHAKIBHUGHES)
        (Workset.mk 1)
        (sampleData (fun _ => 0) (idMetric Double) (Double.finite 7) (Double.finite 9))).Tau 0 0
      = Double.pinf := by
  decide!

/-- C7 (amended): in `double` arithmetic, when `mu = 0` and `V = 0` at a quadrature point of
the workset, `rho*rho` and the entries of `Gc` at the point are finite and so is the
square root of the accumulated `normGc`, the radicand that `evaluateFields` passes to the
outer square root is exactly zero, no guard is applied and no failure reported: the value
stored in `Tau` is the result of `1/sqrt 0`, the positive infinity. -/
theorem evaluateFields_degenerate (k : NavierStokesTau Double) (workset : Workset)
    (d : FieldData Double) (cell qp : Nat) (r n : ℚ)
    (hk : k.stab_type = some StabType.SHAKIBHUGHES)
    (hc : cell < workset.numCells) (hq : qp < k.numQPs)
    (hmu : k.mu = 0) (hV : ∀ i, i < k.numDims → d.V cell qp i = 0)
    (hrho : k.rho * k.rho = Double.finite r)
    (hG : ∀ i j, i < k.numDims → j < k.numDims → ∃ x, d.Gc cell qp i j = Double.finite x)
    (hN : Double.sqrt ((evaluateFields Double.sqrt k workset d).normGc cell qp)
      = Double.finite n) :
    radicand Double.sqrt k cell qp d = 0
    ∧ (evaluateFields Double.sqrt k workset d).Tau cell qp
        = 1 / Double.sqrt (radicand Double.sqrt k cell qp d)
    ∧ (evaluateFields Double.sqrt k workset d).Tau cell qp = Double.pinf := by
  rw [evaluateFields_at Double.sqrt k workset d hk] at hN ⊢
  have hcq : (cell < workset.numCells ∧ qp < k.numQPs) ∨ (cell = workset.numCells ∧ qp < 0) :=
    Or.inl ⟨hc, hq⟩
  simp only [sweptAt, if_pos hcq] at hN ⊢
  have h1 := accLoops_zero_velocity k.numDims k.rho (d.V cell qp) (d.Gc cell qp) r hrho hV hG
    (0, 0) rfl
  have h0 : radicandAt Double.sqrt k (d.V cell qp) (d.Gc cell qp) = 0 := by
    unfold radicandAt
    rw [h1, hN, hmu]
    show Double.finite 0 + (12 : Double) * Double.finite 0 * Double.finite 0 * Double.finite n
      = Double.finite 0
    have h12 : (12 : Double) = Double.finite 12 := rfl
    rw [h12, Double.finite_mul_zero, Double.zero_mul_finite, Double.zero_mul_finite,
      Double.zero_add_zero]
  refine ⟨?_, ?_, ?_⟩
  · rw [radicand_at, h0]
  · rw [radicand_at]
  · rw [h0]
    decide!

/-- Witness of the amended C7: the one-point kernel with `mu = 0`, `rho = 1`, zero velocity
and the identity metric in two dimensions; the accumulated `normGc` is `2`. -/
theorem evaluateFields_degenerate_witness :
    radicand Double.sqrt (sampleKernel Double 2 0 1 StabType.SHAKIBHUGHES) 0 0
        (sampleData (fun _ => 0) (idMetric Double) (Double.finite 7) (Double.finite 9)) = 0
    ∧ (evaluateFields Double.sqrt (sampleKernel Double 2 0 1 StabType.SHAKIBHUGHES)
        (Workset.mk 1)
        (sampleData (fun _ => 0) (idMetric Double) (Double.finite 7) (Double.finite 9))).Tau 0 0
      = 1 / Double.sqrt (radicand Double.sqrt
          (sampleKernel Double 2 0 1 StabType.SHAKIBHUGHES) 0 0
          (sampleData (fun _ => 0) (idMetric Double) (Double.finite 7) (Double.finite 9)))
    ∧ (evaluateFields Double.sqrt (sampleKernel Double 2 0 1 StabType.SHAKIBHUGHES)
        (Workset.mk 1)
        (sampleData (fun _ => 0) (idMetric Double) (Double.finite 7) (Double.finite 9))).Tau 0 0
      = Double.pinf :=
  evaluateFields_degenerate (sampleKernel Double 2 0 1 StabType.SHAKIBHUGHES) (Workset.mk 1)
    (sampleData (fun _ => 0) (idMetric Double) (Double.finite 7) (Double.finite 9)) 0 0 1
    (6369051672525773 / 4503599627370496) rfl (by decide) (by decide) rfl (fun _ _ => rfl)
    (by decide!) (fun i j _ _ => ⟨if i = j then 1 else 0, by
      simp only [sampleData, idMetric]
      split_ifs <;> rfl⟩)
    (by decide!)

/-- C4 (as stated, refuted): in `double` arithmetic, with `mu = 1 > 0`, `rho = 1`, `V = [0,0]`
and the positive definite metric `Gc = 2^-600 * I`, the squares of the entries of `Gc`
underflow to zero, the radicand is exactly `0` and the division `1/sqrt(.)` is by
zero: `Tau` gets the positive infinity. -/
theorem radicand_underflows :
    (sampleKernel Double 2 1 1 StabType.SHAKIBHUGHES).mu = Double.finite 1
    ∧ radicand Double.sqrt (sampleKernel Double 2 1 1 StabType.SHAKIBHUGHES) 0 0
        (sampleData (fun _ => 0)
          (fun i j => if i = j then Double.finite (pow2 (-600)) else 0) 0 0) = Double.finite 0
    ∧ (evaluateFields Double.sqrt (sampleKernel Double 2 1 1 StabType.SHAKIBHUGHES)
        (Workset.mk 1) (sampleData (fun _ => 0)
          (fun i j => if i = j then Double.finite (pow2 (-600)) else 0) 0 0)).Tau 0 0
      = Double.pinf := by
  decide!

end Tsunami

namespace Tsunami

/-- A positive definite metric in at least one dimension meets the two hypotheses on `Gc`
under which the radicand is positive over the reals: its quadratic form is non-negative
at every velocity, and it has a non-zero entry. -/
theorem positiveDefinite_hypotheses (k : NavierStokesTau ℝ) (d : FieldData ℝ) (cell qp : Nat)
    (hn : 1 ≤ k.numDims) (hPD : PositiveDefinite k.numDims (d.Gc cell qp)) :
    (0 ≤ ∑ i in Finset.range k.numDims, ∑ j in Finset.range k.numDims,
        d.V cell qp i * d.Gc cell qp i j * d.V cell qp j)
    ∧ ∃ i j, i < k.numDims ∧ j < k.numDims ∧ d.Gc cell qp i j ≠ 0 := by
  constructor
  · by_cases h : ∃ i, i < k.numDims ∧ d.V cell qp i ≠ 0
    · exact le_of_lt (hPD (d.V cell qp) h)
    · push_neg at h
      refine le_of_eq (Eq.symm (Finset.sum_eq_zero (fun i hi => ?_)))
      rw [h i (Finset.mem_range.mp hi)]
      simp
  · have h0 := hPD (fun i => if i = 0 then 1 else 0) ⟨0, hn, by simp⟩
    have hmem : (0 : Nat) ∈ Finset.range k.numDims := Finset.mem_range.mpr hn
    rw [Finset.sum_eq_single_of_mem 0 hmem (fun i _ hi => by simp [hi]),
      Finset.sum_eq_single_of_mem 0 hmem (fun j _ hj => by simp [hj])] at h0
    simp only [if_true, one_mul, mul_one] at h0
    exact ⟨0, 0, hn, hn, ne_of_gt h0⟩

end Tsunami

namespace HMCProblem

/-- The blocks delimited by the offsets `a, f 0, ..., f (m-1)` and the final offset `f m`. -/
theorem dofBlocks_offsets (f : Nat → Int) (a : Int) (m : Nat) :
    dofBlocks (a :: (List.range m).map f) (f m)
      = (a, f 0) :: (List.range m).map (fun i : Nat => (f i, f (i + 1))) := by
  unfold dofBlocks
  simp only [List.tail_cons]
  induction m with
  | zero => rfl
  | succ m ih =>
    rw [List.range_succ, List.map_append, List.map_append, List.map_singleton,
      List.map_singleton, ← List.cons_append, ← List.cons_append,
      List.zip_append (by simp), ih]
    rfl

/-- A `filterMap` that keeps every element is a `map`. -/
theorem filterMap_some_fun {β γ : Type} (h : β → γ) (l : List β) :
    l.filterMap (fun x => some (h x)) = l.map h := by
  induction l with
  | nil => rfl
  | cons x xs ih => simp [List.filterMap_cons, ih]

/-- A `filterMap` that keeps no element is empty. -/
theorem filterMap_none_fun {β γ : Type} (l : List β) :
    l.filterMap (fun _ => (none : Option γ)) = [] := by
  induction l with
  | nil => rfl
  | cons x xs ih => simp [List.filterMap_cons, ih]

/-- The gather evaluators of the kinematics part and their first DOFs. -/
theorem kinematics_gatherOffsets (cfg : Config) (s : State)
    (hg : s.evaluators.filterMap Ev.gatherOffset = []) :
    (kinematics cfg s).evaluators.filterMap Ev.gatherOffset
      = 0 :: (List.range cfg.numMicroScales).map (fun i : Nat => cfg.numDim + i * cfg.numDim ^ 2) := by
  rw [kinematics_eq]
  simp only [List.filterMap_append, hg, List.filterMap_map, List.nil_append]
  simp [Ev.gatherOffset, Function.comp_def, pow_two, filterMap_some_fun, filterMap_none_fun]

/-- The scatter evaluators and their first DOFs. -/
theorem scatter_scatterOffsets (cfg : Config) (s : State)
    (hs : s.evaluators.filterMap Ev.scatterOffset = []) :
    (scatter cfg s).1.evaluators.filterMap Ev.scatterOffset
      = 0 :: (List.range cfg.numMicroScales).map (fun i : Nat => cfg.numDim + i * cfg.numDim ^ 2) := by
  rw [scatter_eq]
  simp only [List.filterMap_append, hs, List.filterMap_map, List.nil_append]
  simp [Ev.scatterOffset, Function.comp_def, pow_two, filterMap_some_fun, filterMap_none_fun]

/-- The intervals `[0, n)` and `[n + i*n^2, n + (i+1)*n^2)`, `i < m`, are pairwise disjoint
and cover `[0, n + m*n^2)` when `n >= 1`. -/
theorem intervals_partition (n : Int) (m : Nat) (h : 1 ≤ n) :
    List.Pairwise (fun b1 b2 => ∀ dof, ¬ (inBlock b1 dof ∧ inBlock b2 dof))
      ((0, n) :: (List.range m).map
        (fun i : Nat => (n + (i : Int) * n ^ 2, n + ((i : Int) + 1) * n ^ 2)))
    ∧ ∀ dof, (∃ b ∈ (0, n) :: (List.range m).map
          (fun i : Nat => (n + (i : Int) * n ^ 2, n + ((i : Int) + 1) * n ^ 2)), inBlock b dof)
        ↔ (0 ≤ dof ∧ dof < n + m * n ^ 2) := by
  have hsq : 0 < n ^ 2 := by positivity
  constructor
  · rw [List.pairwise_cons, List.pairwise_map]
    constructor
    · intro b hb dof ⟨h1, h2⟩
      obtain ⟨i, _, rfl⟩ := List.mem_map.mp hb
      simp only [inBlock] at h1 h2
      have : (0 : Int) ≤ i * n ^ 2 := by positivity
      omega
    · refine List.Pairwise.imp ?_ (List.pairwise_lt_range m)
      intro i j hij dof ⟨h1, h2⟩
      simp only [inBlock] at h1 h2
      have : ((i : Int) + 1) * n ^ 2 ≤ j * n ^ 2 :=
        mul_le_mul_of_nonneg_right (by exact_mod_cast hij) hsq.le
      omega
  · intro dof
    constructor
    · rintro ⟨b, hb, h1⟩
      rcases List.mem_cons.mp hb with rfl | hb
      · simp only [inBlock] at h1
        have : (0 : Int) ≤ m * n ^ 2 := by positivity
        omega
      · obtain ⟨i, hi, rfl⟩ := List.mem_map.mp hb
        simp only [inBlock] at h1
        have h3 : ((i : Int) + 1) * n ^ 2 ≤ m * n ^ 2 :=
          mul_le_mul_of_nonneg_right (by exact_mod_cast (List.mem_range.mp hi)) hsq.le
        have h4 : (0 : Int) ≤ i * n ^ 2 := by positivity
        omega
    · rintro ⟨h0, h1⟩
      by_cases hm : dof < n
      · exact ⟨(0, n), List.mem_cons_self _ _, h0, hm⟩
      · have hd : 0 ≤ dof - n := by omega
        have hq0 : 0 ≤ (dof - n) / n ^ 2 := Int.ediv_nonneg hd hsq.le
        have hq : (dof - n) / n ^ 2 < m := by
          rw [Int.ediv_lt_iff_lt_mul hsq]
          omega
        refine ⟨_, List.mem_cons_of_mem _ (List.mem_map.mpr
          ⟨((dof - n) / n ^ 2).toNat, List.mem_range.mpr (by omega), rfl⟩), ?_⟩
        simp only [inBlock, Int.toNat_of_nonneg hq0]
        have e1 := Int.ediv_add_emod (dof - n) (n ^ 2)
        have e2 := Int.emod_nonneg (dof - n) (ne_of_gt hsq)
        have e3 := Int.emod_lt_of_pos (dof - n) hsq
        constructor
        · nlinarith
        · nlinarith

/-- C26: the DOF blocks that `constructEvaluators` assigns never overlap. On states without
earlier gather or scatter evaluators, the gather evaluators of the kinematics part and the
scatter evaluators are registered with the same first DOFs, `0` for the macro scale and
`numDim + i*numDim^2` for micro scale `i`; the blocks these offsets delimit, up to the
running offset `numDim + m*numDim^2` that the scatter loop ends with, are the macro block
`[0, numDim)` and the micro blocks `[numDim + i*numDim^2, numDim + (i+1)*numDim^2)`,
`i < m`; for `numDim >= 1` they are pairwise disjoint, and a DOF lies in one of them
exactly when it lies in `[0, numDim + m*numDim^2)`. -/
theorem dof_blocks_partition (cfg : Config) (s s' : State) (h : 1 ≤ cfg.numDim)
    (hg : s.evaluators.filterMap Ev.gatherOffset = [])
    (hs : s'.evaluators.filterMap Ev.scatterOffset = []) :
    (kinematics cfg s).evaluators.filterMap Ev.gatherOffset
        = 0 :: (List.range cfg.numMicroScales).map (fun i : Nat => cfg.numDim + i * cfg.numDim ^ 2)
    ∧ (scatter cfg s').1.evaluators.filterMap Ev.scatterOffset
        = (kinematics cfg s).evaluators.filterMap Ev.gatherOffset
    ∧ dofBlocks ((scatter cfg s').1.evaluators.filterMap Ev.scatterOffset) (scatter cfg s').2
        = (0, cfg.numDim) :: (List.range cfg.numMicroScales).map
            (fun i : Nat =>
              (cfg.numDim + i * cfg.numDim ^ 2, cfg.numDim + (i + 1) * cfg.numDim ^ 2))
    ∧ List.Pairwise (fun b1 b2 => ∀ dof, ¬ (inBlock b1 dof ∧ inBlock b2 dof))
        (dofBlocks ((scatter cfg s').1.evaluators.filterMap Ev.scatterOffset)
          (scatter cfg s').2)
    ∧ (∀ dof, (∃ b ∈ dofBlocks ((scatter cfg s').1.evaluators.filterMap Ev.scatterOffset)
          (scatter cfg s').2, inBlock b dof)
        ↔ (0 ≤ dof ∧ dof < cfg.numDim + cfg.numMicroScales * cfg.numDim ^ 2)) := by
  have hb : dofBlocks ((scatter cfg s').1.evaluators.filterMap Ev.scatterOffset)
      (scatter cfg s').2
      = (0, cfg.numDim) :: (List.range cfg.numMicroScales).map
          (fun i : Nat => (cfg.numDim + (i : Int) * cfg.numDim ^ 2,
            cfg.numDim + ((i : Int) + 1) * cfg.numDim ^ 2)) := by
    rw [scatter_scatterOffsets cfg s' hs]
    have hf : (scatter cfg s').2
        = (fun i : Nat => cfg.numDim + (i : Int) * cfg.numDim ^ 2) cfg.numMicroScales := by
      rw [scatter_eq]
      simp only [pow_two]
    rw [hf, dofBlocks_offsets (fun i : Nat => cfg.numDim + (i : Int) * cfg.numDim ^ 2)]
    simp
  refine ⟨kinematics_gatherOffsets cfg s hg, ?_, hb, ?_, ?_⟩
  · rw [scatter_scatterOffsets cfg s' hs, kinematics_gatherOffsets cfg s hg]
  · rw [hb]
    exact (intervals_partition cfg.numDim cfg.numMicroScales h).1
  · rw [hb]
    exact (intervals_partition cfg.numDim cfg.numMicroScales h).2

/-- Witness of C26 on the sample configuration, three dimensions and two micro scales: the
blocks are `[0,3)`, `[3,12)` and `[12,21)`, and the DOF 20 lies in one of them. -/
theorem dof_blocks_partition_witness :
    dofBlocks ((scatter (sampleConfig LandIce.FieldManagerChoice.BUILD_RESID_FM)
        emptyState).1.evaluators.filterMap Ev.scatterOffset)
      (scatter (sampleConfig LandIce.FieldManagerChoice.BUILD_RESID_FM) emptyState).2
      = [(0, 3), (3, 12), (12, 21)]
    ∧ ((∃ b ∈ dofBlocks ((scatter (sampleConfig LandIce.FieldManagerChoice.BUILD_RESID_FM)
          emptyState).1.evaluators.filterMap Ev.scatterOffset)
        (scatter (sampleConfig LandIce.FieldManagerChoice.BUILD_RESID_FM) emptyState).2,
        inBlock b 20)
      ↔ ((0 : Int) ≤ 20 ∧ (20 : Int) < 3 + (2 : Nat) * 3 ^ 2)) :=
  ⟨by
    rw [(dof_blocks_partition (sampleConfig LandIce.FieldManagerChoice.BUILD_RESID_FM)
      emptyState emptyState (by decide) rfl rfl).2.2.1]
    rfl,
   (dof_blocks_partition (sampleConfig LandIce.FieldManagerChoice.BUILD_RESID_FM)
      emptyState emptyState (by decide) rfl rfl).2.2.2.2 20⟩

end HMCProblem
